import Mathlib

/-!
# Configuration Server model (mesh/cfgmod-server.c)

A shallow embedding of the opcode dispatcher `cfg_srv_pkt` and of its handlers.

* Bytes and machine integers are natural numbers; every store into a
  `uint8_t`/`uint16_t` object is an explicit `% 256` / `% 65536`.
* A packet is the list of its bytes; `pkt + k` of the source is an offset
  argument of the readers.
* The collaborators of the module (codec, registry, persistent store, node,
  network layer, key store, clock) are not part of this file of the
  repository.  They are the fields of `Collab σ`, acting on a state `σ` of
  their own; the handlers are written once, for every collaborator.
* The world of a dispatch is the collaborators' state, the heartbeat record
  the module mutates in place, the messages handed to the transport, the
  collaborator calls made so far and the pending deferred node resets.
-/

namespace CfgSrv

/-! ## Constants and macros of mesh/mesh-defs.h -/

/-- Modelled from the spec: mesh/mesh-defs.h is not among the sources; the
unassigned address is 0x0000. -/
def UNASSIGNED_ADDRESS : Nat := 0x0000

/-- Modelled from the spec: lower end of the virtual address range
(mesh/mesh-defs.h, absent). -/
def VIRTUAL_ADDRESS_LOW : Nat := 0x8000

/-- Modelled from the spec: upper end of the virtual address range
(mesh/mesh-defs.h, absent). -/
def VIRTUAL_ADDRESS_HIGH : Nat := 0xbfff

/-- Modelled from the spec: lower end of the group address range
(mesh/mesh-defs.h, absent). -/
def GROUP_ADDRESS_LOW : Nat := 0xc000

/-- Modelled from the spec: upper end of the fixed group range
(mesh/mesh-defs.h, absent). -/
def FIXED_GROUP_HIGH : Nat := 0xffff

/-- Modelled from the spec: the all-nodes address (mesh/mesh-defs.h, absent). -/
def ALL_NODES_ADDRESS : Nat := 0xffff

/-- Modelled from the spec: the reserved local device-key context
(mesh/mesh-defs.h, absent). -/
def APP_IDX_DEV_LOCAL : Nat := 0x7fff

/-- Modelled from the spec: mask of the 12-bit application-key index
(mesh/mesh-defs.h, absent). -/
def APP_IDX_MASK : Nat := 0x0fff

/-- Modelled from the spec: the credential-flag bit that accompanies the
application-key index (mesh/mesh-defs.h, absent). -/
def CREDFLAG_MASK : Nat := 0x1000

/-- Modelled from the spec: largest TTL, 127 (mesh/mesh-defs.h, absent). -/
def TTL_MASK : Nat := 0x7f

/-- Modelled from the spec: the fixed default hop count of outbound messages
(mesh/mesh-defs.h, absent). -/
def DEFAULT_TTL : Nat := 0xff

/-- Modelled from the spec: size of the scratch output buffer
(mesh/mesh-defs.h, absent). -/
def MAX_MSG_LEN : Nat := 380

/-- Modelled from the spec: capacity of a model's subscription list
(mesh/model.h, absent). -/
def MAX_GRP_PER_MOD : Nat := 10

/-- Modelled from the spec: the vendor tag of a SIG model identifier
(mesh/mesh-defs.h, absent). -/
def SIG_VENDOR : Nat := 0xffff

/-- Modelled from the spec: status code success (mesh/mesh-defs.h, absent). -/
def MESH_STATUS_SUCCESS : Int := 0x00

/-- Modelled from the spec: status code invalid address
(mesh/mesh-defs.h, absent). -/
def MESH_STATUS_INVALID_ADDRESS : Int := 0x01

/-- Modelled from the spec: status code invalid net-key index
(mesh/mesh-defs.h, absent). -/
def MESH_STATUS_INVALID_NETKEY : Int := 0x04

/-- Modelled from the spec: status code storage failure
(mesh/mesh-defs.h, absent). -/
def MESH_STATUS_STORAGE_FAIL : Int := 0x09

/-- Modelled from the spec: key refresh phase "none"
(mesh/mesh-defs.h, absent). -/
def KEY_REFRESH_PHASE_NONE : Nat := 0x00

/-- Modelled from the spec: macro IS_UNASSIGNED of mesh/mesh-defs.h (absent). -/
def IS_UNASSIGNED (x : Nat) : Bool := x == UNASSIGNED_ADDRESS

/-- Modelled from the spec: macro IS_UNICAST of mesh/mesh-defs.h (absent):
above the unassigned address and below the virtual range. -/
def IS_UNICAST (x : Nat) : Bool :=
  decide (x > UNASSIGNED_ADDRESS) && decide (x < VIRTUAL_ADDRESS_LOW)

/-- Modelled from the spec: macro IS_VIRTUAL of mesh/mesh-defs.h (absent): the
16-bit addresses 0x8000..0xBFFF. -/
def IS_VIRTUAL (x : Nat) : Bool :=
  decide (x ≥ VIRTUAL_ADDRESS_LOW) && decide (x ≤ VIRTUAL_ADDRESS_HIGH)

/-- Modelled from the spec: macro IS_GROUP of mesh/mesh-defs.h (absent): the
16-bit addresses from 0xC000 on. -/
def IS_GROUP (x : Nat) : Bool :=
  (decide (x ≥ GROUP_ADDRESS_LOW) && decide (x < FIXED_GROUP_HIGH))
    || x == ALL_NODES_ADDRESS

/-- Modelled from the spec: macro SET_ID of mesh/mesh-defs.h (absent): a
32-bit identifier, company (or SIG tag) in the high half, model in the low. -/
def SET_ID (vendor model : Nat) : Nat := (vendor * 65536) % 4294967296 ||| model

/-- Modelled from the spec: macro MODEL_ID of mesh/mesh-defs.h (absent): the
low 16 bits. -/
def MODEL_ID (x : Nat) : Nat := x &&& 0xffff

/-- Modelled from the spec: macro VENDOR_ID of mesh/mesh-defs.h (absent): the
high 16 bits. -/
def VENDOR_ID (x : Nat) : Nat := x >>> 16

/-- Modelled from the spec: macro IS_VENDOR of mesh/mesh-defs.h (absent): the
high half is not the SIG tag. -/
def IS_VENDOR (x : Nat) : Bool := decide (x < 0xffff0000)

/-! ## Bytes -/

/-- Conversion of a C `int` to `uint8_t`. -/
def u8 (x : Int) : Nat := (x % 256).toNat

/-- The byte `pkt[i]`. -/
def byteAt (pkt : List Nat) (i : Nat) : Nat := pkt.getD i 0 % 256

/-- Little-endian 16-bit read at `pkt + off`. -/
def l_get_le16 (pkt : List Nat) (off : Nat) : Nat :=
  byteAt pkt off + 256 * byteAt pkt (off + 1)

/-- Little-endian 16-bit write of the low 16 bits of `v`. -/
def l_put_le16 (v : Nat) : List Nat := [v % 256, v / 256 % 256]

/-! ## Opcodes of mesh/cfgmod.h

The numeric values are declared in a header that is not among the
sources.  The dispatcher only compares opcodes with these names, so the
opcode produced by the codec is one of the names, or `OTHER`. -/

/-- Modelled from the spec: the opcodes of mesh/cfgmod.h (absent), by the
names the module uses. -/
inductive Opcode where
  | OP_APPKEY_ADD | OP_APPKEY_DELETE | OP_APPKEY_GET | OP_APPKEY_LIST
  | OP_APPKEY_STATUS | OP_APPKEY_UPDATE
  | OP_DEV_COMP_GET | OP_DEV_COMP_STATUS
  | OP_CONFIG_BEACON_GET | OP_CONFIG_BEACON_SET | OP_CONFIG_BEACON_STATUS
  | OP_CONFIG_DEFAULT_TTL_GET | OP_CONFIG_DEFAULT_TTL_SET
  | OP_CONFIG_DEFAULT_TTL_STATUS
  | OP_CONFIG_FRIEND_GET | OP_CONFIG_FRIEND_SET | OP_CONFIG_FRIEND_STATUS
  | OP_CONFIG_PROXY_GET | OP_CONFIG_PROXY_SET | OP_CONFIG_PROXY_STATUS
  | OP_CONFIG_KEY_REFRESH_PHASE_GET | OP_CONFIG_KEY_REFRESH_PHASE_SET
  | OP_CONFIG_KEY_REFRESH_PHASE_STATUS
  | OP_CONFIG_MODEL_PUB_GET | OP_CONFIG_MODEL_PUB_SET
  | OP_CONFIG_MODEL_PUB_STATUS | OP_CONFIG_MODEL_PUB_VIRT_SET
  | OP_CONFIG_MODEL_SUB_ADD | OP_CONFIG_MODEL_SUB_DELETE
  | OP_CONFIG_MODEL_SUB_DELETE_ALL | OP_CONFIG_MODEL_SUB_OVERWRITE
  | OP_CONFIG_MODEL_SUB_STATUS | OP_CONFIG_MODEL_SUB_VIRT_ADD
  | OP_CONFIG_MODEL_SUB_VIRT_DELETE | OP_CONFIG_MODEL_SUB_VIRT_OVERWRITE
  | OP_CONFIG_NETWORK_TRANSMIT_GET | OP_CONFIG_NETWORK_TRANSMIT_SET
  | OP_CONFIG_NETWORK_TRANSMIT_STATUS
  | OP_CONFIG_RELAY_GET | OP_CONFIG_RELAY_SET | OP_CONFIG_RELAY_STATUS
  | OP_CONFIG_MODEL_SUB_GET | OP_CONFIG_MODEL_SUB_LIST
  | OP_CONFIG_VEND_MODEL_SUB_GET | OP_CONFIG_VEND_MODEL_SUB_LIST
  | OP_CONFIG_POLL_TIMEOUT_LIST | OP_CONFIG_POLL_TIMEOUT_STATUS
  | OP_CONFIG_HEARTBEAT_PUB_GET | OP_CONFIG_HEARTBEAT_PUB_SET
  | OP_CONFIG_HEARTBEAT_PUB_STATUS
  | OP_CONFIG_HEARTBEAT_SUB_GET | OP_CONFIG_HEARTBEAT_SUB_SET
  | OP_CONFIG_HEARTBEAT_SUB_STATUS
  | OP_MODEL_APP_BIND | OP_MODEL_APP_STATUS | OP_MODEL_APP_UNBIND
  | OP_NETKEY_ADD | OP_NETKEY_DELETE | OP_NETKEY_GET | OP_NETKEY_LIST
  | OP_NETKEY_STATUS | OP_NETKEY_UPDATE
  | OP_NODE_IDENTITY_GET | OP_NODE_IDENTITY_SET | OP_NODE_IDENTITY_STATUS
  | OP_NODE_RESET | OP_NODE_RESET_STATUS
  | OP_MODEL_APP_GET | OP_MODEL_APP_LIST
  | OP_VEND_MODEL_APP_GET | OP_VEND_MODEL_APP_LIST
  | OTHER
  deriving DecidableEq, Repr

/-! ## Records exchanged with the collaborators -/

/-- Modelled from the spec: the fields of the registry's
`struct mesh_model_pub` (mesh/model.h, absent) that the module reads. -/
structure mesh_model_pub where
  addr : Nat
  idx : Nat
  credential : Bool
  ttl : Nat
  period : Nat
  retransmit : Nat
  deriving DecidableEq, Repr

/-- Modelled from the spec: the record `struct mesh_config_pub`
(mesh/mesh-config.h, absent) handed to the persistent store; the fields are
those the module initialises. -/
structure mesh_config_pub where
  virt : Bool
  addr : Nat
  idx : Nat
  ttl : Nat
  credential : Bool
  period : Nat
  count : Nat
  interval : Nat
  virt_addr : List Nat
  deriving DecidableEq, Repr

/-- Modelled from the spec: the member `src` of `struct mesh_config_sub`
(mesh/mesh-config.h, absent): a 16-bit address, or the 16-byte label copied
over it. -/
inductive SubSrc where
  | addr (a : Nat)
  | virt_addr (label : List Nat)
  deriving DecidableEq, Repr

/-- Modelled from the spec: the record `struct mesh_config_sub`
(mesh/mesh-config.h, absent) handed to the persistent store. -/
structure mesh_config_sub where
  virt : Bool
  src : SubSrc
  deriving DecidableEq, Repr

/-- One call of `mesh_model_send`. -/
structure Sent where
  src : Nat
  dst : Nat
  app_idx : Nat
  net_idx : Nat
  ttl : Nat
  segmented : Bool
  msg : List Nat
  deriving DecidableEq, Repr

/-- Modelled from the spec: the record `struct mesh_net_heartbeat`
(mesh/net.h, absent), with the fields the module uses.  A timer is `none`
(NULL) or an armed timeout with its period in seconds; the counts and the
addresses are 16-bit, the hop counts and the TTL 8-bit, the periods 32-bit. -/
structure mesh_net_heartbeat where
  pub_timer : Option Nat
  sub_timer : Option Nat
  sub_enabled : Bool
  sub_period : Nat
  sub_start : Nat
  pub_period : Nat
  pub_dst : Nat
  pub_count : Nat
  pub_features : Nat
  pub_net_idx : Nat
  sub_src : Nat
  sub_dst : Nat
  sub_count : Nat
  pub_ttl : Nat
  sub_min_hops : Nat
  sub_max_hops : Nat
  deriving DecidableEq, Repr

/-- The collaborator calls that the handlers make and that can change
state outside the module. -/
inductive Call where
  | node_default_ttl_set (ttl : Nat)
  | node_relay_mode_set (enable : Bool) (cnt interval : Nat)
  | node_proxy_mode_set (enable : Bool)
  | node_beacon_mode_set (enable : Bool)
  | node_friend_mode_set (enable : Bool)
  | mesh_config_write_net_transmit (cnt interval : Nat)
  | mesh_net_transmit_params_set (cnt interval : Nat)
  | mesh_model_pub_set (ele id : Nat) (pub_addr : List Nat) (idx : Nat)
      (cred : Bool) (ttl period retransmit : Nat) (virt : Bool)
  | mesh_config_model_pub_del (ele id : Nat) (vendor : Bool)
  | mesh_config_model_pub_add (ele id : Nat) (vendor : Bool)
      (pub : mesh_config_pub)
  | mesh_model_sub_del_all (ele id : Nat)
  | mesh_model_sub_ovr (ele id : Nat) (addr : List Nat) (virt : Bool)
  | mesh_model_sub_add (ele id : Nat) (addr : List Nat) (virt : Bool)
  | mesh_model_sub_del (ele id : Nat) (addr : List Nat) (virt : Bool)
  | mesh_config_model_sub_del_all (ele id : Nat) (vendor : Bool)
  | mesh_config_model_sub_add (ele id : Nat) (vendor : Bool)
      (sub : mesh_config_sub)
  | mesh_config_model_sub_del (ele id : Nat) (vendor : Bool)
      (sub : mesh_config_sub)
  | mesh_model_binding_add (ele id idx : Nat)
  | mesh_model_binding_del (ele id idx : Nat)
  | appkey_key_add (n_idx a_idx : Nat) (key : List Nat)
  | appkey_key_update (n_idx a_idx : Nat) (key : List Nat)
  | appkey_key_delete (n_idx a_idx : Nat)
  | mesh_net_add_key (n_idx : Nat) (key : List Nat)
  | mesh_net_update_key (n_idx : Nat) (key : List Nat)
  | mesh_net_del_key (n_idx : Nat)
  | mesh_net_key_refresh_phase_set (n_idx phase : Nat)
  | mesh_net_dst_reg (dst : Nat)
  | mesh_net_dst_unreg (dst : Nat)
  | mesh_net_heartbeat_send
  | node_remove
  deriving DecidableEq, Repr

/-- Modelled from the spec: the interfaces of the collaborators of the module
(their headers are absent), acting on a state `σ` of their own.
A function that writes a list into the caller's buffer and reports its size
returns the bytes written; a function with out-parameters returns them
together with its result. -/
structure Collab (σ : Type) where
  /-- Codec: opcode and its length in bytes, or failure. -/
  mesh_model_opcode_get : List Nat → Option (Opcode × Nat)
  /-- Codec: the bytes of an opcode header. -/
  mesh_model_opcode_set : Opcode → List Nat
  node_get_comp : σ → Nat → List Nat
  node_default_ttl_set : σ → Nat → σ
  node_default_ttl_get : σ → Nat
  node_relay_mode_set : σ → Bool → Nat → Nat → σ
  node_relay_mode_get : σ → Nat × Nat × Nat
  node_proxy_mode_set : σ → Bool → σ
  node_proxy_mode_get : σ → Nat
  node_beacon_mode_set : σ → Bool → σ
  node_beacon_mode_get : σ → Nat
  node_friend_mode_set : σ → Bool → σ
  node_friend_mode_get : σ → Nat
  mesh_config_write_net_transmit : σ → Nat → Nat → Bool × σ
  mesh_net_transmit_params_set : σ → Nat → Nat → σ
  mesh_net_transmit_params_get : σ → Nat × Nat
  mesh_net_get_identity_mode : σ → Nat → Int × Nat
  mesh_net_key_refresh_phase_set : σ → Nat → Nat → Int × σ
  mesh_net_key_refresh_phase_get : σ → Nat → Int × Nat
  mesh_model_pub_get : σ → Nat → Nat → Option mesh_model_pub × Int
  mesh_model_pub_set : σ → Nat → Nat → List Nat → Nat → Bool → Nat → Nat →
    Nat → Bool → Int × Option Nat × σ
  mesh_config_model_pub_del : σ → Nat → Nat → Bool → Bool × σ
  mesh_config_model_pub_add : σ → Nat → Nat → Bool → mesh_config_pub →
    Bool × σ
  mesh_model_sub_get : σ → Nat → Nat → Nat → Int × List Nat
  mesh_model_sub_del_all : σ → Nat → Nat → Int × σ
  mesh_model_sub_ovr : σ → Nat → Nat → List Nat → Bool → Int × Option Nat × σ
  mesh_model_sub_add : σ → Nat → Nat → List Nat → Bool → Int × Option Nat × σ
  mesh_model_sub_del : σ → Nat → Nat → List Nat → Bool → Int × Option Nat × σ
  mesh_config_model_sub_del_all : σ → Nat → Nat → Bool → Bool × σ
  mesh_config_model_sub_add : σ → Nat → Nat → Bool → mesh_config_sub →
    Bool × σ
  mesh_config_model_sub_del : σ → Nat → Nat → Bool → mesh_config_sub →
    Bool × σ
  mesh_model_binding_add : σ → Nat → Nat → Nat → Int × σ
  mesh_model_binding_del : σ → Nat → Nat → Nat → Int × σ
  mesh_model_get_bindings : σ → Nat → Nat → Nat → Int × List Nat
  appkey_key_add : σ → Nat → Nat → List Nat → Int × σ
  appkey_key_update : σ → Nat → Nat → List Nat → Int × σ
  appkey_key_delete : σ → Nat → Nat → Int × σ
  appkey_list : σ → Nat → Nat → Int × List Nat
  mesh_net_add_key : σ → Nat → List Nat → Int × σ
  mesh_net_update_key : σ → Nat → List Nat → Int × σ
  mesh_net_del_key : σ → Nat → Int × σ
  mesh_net_key_list_get : σ → Nat → Bool × List Nat
  mesh_net_get_primary_idx : σ → Nat
  mesh_net_friend_timeout : σ → Nat → Nat
  mesh_net_dst_reg : σ → Nat → σ
  mesh_net_dst_unreg : σ → Nat → σ
  mesh_net_heartbeat_send : σ → σ
  /-- Clock: `tv_sec` of `gettimeofday`. -/
  gettimeofday : σ → Nat

/-- The world of one dispatch. -/
structure World (σ : Type) where
  ext : σ
  hb : mesh_net_heartbeat
  sent : List Sent
  calls : List Call
  /-- Deferred actions registered with `l_idle_oneshot` and not yet run; the
  module registers only `node_reset`. -/
  idle : Nat

variable {σ : Type}

/-- Record a collaborator call and the collaborators' new state. -/
def World.step (w : World σ) (c : Call) (e : σ) : World σ :=
  { w with ext := e, calls := w.calls ++ [c] }

/-- The transport entry `mesh_model_send(node, src, dst, app_idx, net_idx,
ttl, segmented, msg, n)`: the message is appended to the sent list. -/
def mesh_model_send (w : World σ) (src dst app_idx net_idx ttl : Nat)
    (segmented : Bool) (msg : List Nat) : World σ :=
  { w with sent := w.sent ++ [⟨src, dst, app_idx, net_idx, ttl, segmented, msg⟩] }

/-! ## Publication -/

/-- The model identifier field of a status: 2 bytes SIG, 4 bytes vendor. -/
def put_model_id (id : Nat) : List Nat :=
  if !IS_VENDOR id then l_put_le16 (MODEL_ID id)
  else l_put_le16 (VENDOR_ID id) ++ l_put_le16 (MODEL_ID id)

/-- The bytes `send_pub_status` writes after the opcode header. -/
def pub_status_body (status ele_addr id pub_addr idx : Nat) (cred_flag : Bool)
    (ttl period retransmit : Nat) : List Nat :=
  [status % 256] ++ l_put_le16 ele_addr ++ l_put_le16 pub_addr
    ++ l_put_le16 (idx ||| (if cred_flag then CREDFLAG_MASK else 0))
    ++ [ttl % 256, period % 256, retransmit % 256]
    ++ put_model_id id

/-- Function `send_pub_status`. -/
def send_pub_status (C : Collab σ) (w : World σ) (net_idx src dst : Nat)
    (status ele_addr id pub_addr idx : Nat) (cred_flag : Bool)
    (ttl period retransmit : Nat) : World σ :=
  mesh_model_send w dst src APP_IDX_DEV_LOCAL net_idx DEFAULT_TTL false
    (C.mesh_model_opcode_set .OP_CONFIG_MODEL_PUB_STATUS
      ++ pub_status_body status ele_addr id pub_addr idx cred_flag ttl period
          retransmit)

/-- Function `config_pub_get`. -/
def config_pub_get (C : Collab σ) (w : World σ) (net_idx src dst : Nat)
    (pkt : List Nat) (size : Nat) : World σ :=
  let oid : Option Nat :=
    if size = 4 then some (SET_ID SIG_VENDOR (l_get_le16 pkt 2))
    else if size = 6 then some (SET_ID (l_get_le16 pkt 2) (l_get_le16 pkt 4))
    else none
  match oid with
  | none => w
  | some id =>
    let ele_addr := l_get_le16 pkt 0
    let r := C.mesh_model_pub_get w.ext ele_addr id
    match r.1 with
    | some pub =>
      if r.2 = MESH_STATUS_SUCCESS then
        send_pub_status C w net_idx src dst (u8 r.2) ele_addr id pub.addr
          pub.idx pub.credential pub.ttl pub.period pub.retransmit
      else
        send_pub_status C w net_idx src dst (u8 r.2) ele_addr id 0 0 false 0 0 0
    | none =>
      send_pub_status C w net_idx src dst (u8 r.2) ele_addr id 0 0 false 0 0 0

/-- Function `config_pub_set`. -/
def config_pub_set (C : Collab σ) (w : World σ) (net_idx src dst : Nat)
    (pkt : List Nat) (virt vendor : Bool) : World σ :=
  let ele_addr := l_get_le16 pkt 0
  let pub_addr := pkt.drop 2
  let off := if virt then 14 else 0
  let idx := l_get_le16 pkt (off + 4)
  let ttl := byteAt pkt (off + 6)
  let period := byteAt pkt (off + 7)
  let retransmit := byteAt pkt (off + 8)
  let id0 := l_get_le16 pkt (off + 9)
  let id := if !vendor then SET_ID SIG_VENDOR id0
            else SET_ID id0 (l_get_le16 pkt (off + 11))
  let test_addr := l_get_le16 pub_addr 0
  if !virt && IS_VIRTUAL test_addr then w
  else
    let cred_flag := (CREDFLAG_MASK &&& idx) != 0
    let idx := idx &&& APP_IDX_MASK
    let r := C.mesh_model_pub_set w.ext ele_addr id pub_addr idx cred_flag ttl
              period retransmit virt
    let status := r.1
    let ota := r.2.1.getD UNASSIGNED_ADDRESS
    let w1 := w.step (.mesh_model_pub_set ele_addr id pub_addr idx cred_flag
                ttl period retransmit virt) r.2.2
    if status ≠ MESH_STATUS_SUCCESS then
      send_pub_status C w1 net_idx src dst (u8 status) ele_addr id 0 0 false 0 0 0
    else if IS_UNASSIGNED test_addr && !virt then
      let key := if vendor then id else MODEL_ID id
      let d := C.mesh_config_model_pub_del w1.ext ele_addr key vendor
      let w2 := w1.step (.mesh_config_model_pub_del ele_addr key vendor) d.2
      let status := if !d.1 then MESH_STATUS_STORAGE_FAIL else status
      send_pub_status C w2 net_idx src dst (u8 status) ele_addr id ota 0
        cred_flag 0 0 retransmit
    else
      let db_pub : mesh_config_pub :=
        { virt := virt, addr := ota, idx := idx, ttl := ttl,
          credential := cred_flag, period := period,
          count := retransmit &&& 0x7,
          interval := ((retransmit >>> 3) + 1) * 50,
          virt_addr := if virt then pub_addr.take 16 else [] }
      let key := if vendor then id else MODEL_ID id
      let a := C.mesh_config_model_pub_add w1.ext ele_addr key vendor db_pub
      let w2 := w1.step (.mesh_config_model_pub_add ele_addr key vendor db_pub) a.2
      let status := if !a.1 then MESH_STATUS_STORAGE_FAIL else status
      send_pub_status C w2 net_idx src dst (u8 status) ele_addr id ota idx
        cred_flag ttl period retransmit

/-! ## Subscription -/

/-- Function `send_sub_status`. -/
def send_sub_status (C : Collab σ) (w : World σ) (net_idx src dst : Nat)
    (status ele_addr addr id : Nat) : World σ :=
  mesh_model_send w dst src APP_IDX_DEV_LOCAL net_idx DEFAULT_TTL false
    (C.mesh_model_opcode_set .OP_CONFIG_MODEL_SUB_STATUS
      ++ [status % 256] ++ l_put_le16 ele_addr ++ l_put_le16 addr
      ++ (if IS_VENDOR id then l_put_le16 (VENDOR_ID id) ++ l_put_le16 (MODEL_ID id)
          else l_put_le16 (MODEL_ID id)))

/-- Function `config_sub_get`. -/
def config_sub_get (C : Collab σ) (w : World σ) (net_idx src dst : Nat)
    (pkt : List Nat) (size : Nat) : Bool × World σ :=
  let ele_addr := l_get_le16 pkt 0
  let hdr : Option (Nat × List Nat × List Nat) :=
    if size = 4 then
      let id := l_get_le16 pkt 2
      some (SET_ID SIG_VENDOR id,
        C.mesh_model_opcode_set .OP_CONFIG_MODEL_SUB_LIST,
        l_put_le16 ele_addr ++ l_put_le16 id)
    else if size = 6 then
      let id := SET_ID (l_get_le16 pkt 2) (l_get_le16 pkt 4)
      some (id,
        C.mesh_model_opcode_set .OP_CONFIG_VEND_MODEL_SUB_LIST,
        l_put_le16 ele_addr ++ l_put_le16 (VENDOR_ID id) ++ l_put_le16 (MODEL_ID id))
    else none
  match hdr with
  | none => (false, w)
  | some (id, op, fields) =>
    let buf_size := 2 * MAX_GRP_PER_MOD
    let r := C.mesh_model_sub_get w.ext ele_addr id buf_size
    let list := if r.1 = MESH_STATUS_SUCCESS then r.2 else []
    (true, mesh_model_send w dst src APP_IDX_DEV_LOCAL net_idx DEFAULT_TTL false
      (op ++ [u8 r.1] ++ fields ++ list))

/-- Function `save_config_sub`. -/
def save_config_sub (C : Collab σ) (w : World σ) (ele_addr id : Nat)
    (vendor : Bool) (addr : List Nat) (virt : Bool) (grp : Nat)
    (opcode : Opcode) : Bool × World σ :=
  let db_sub : mesh_config_sub :=
    { virt := virt,
      src := if virt then .virt_addr (addr.take 16) else .addr grp }
  let key := if vendor then id else MODEL_ID id
  let w1 :=
    if opcode = .OP_CONFIG_MODEL_SUB_VIRT_OVERWRITE
        ∨ opcode = .OP_CONFIG_MODEL_SUB_OVERWRITE then
      w.step (.mesh_config_model_sub_del_all ele_addr key vendor)
        (C.mesh_config_model_sub_del_all w.ext ele_addr key vendor).2
    else w
  if opcode ≠ .OP_CONFIG_MODEL_SUB_VIRT_DELETE
      ∧ opcode ≠ .OP_CONFIG_MODEL_SUB_DELETE then
    let a := C.mesh_config_model_sub_add w1.ext ele_addr key vendor db_sub
    (a.1, w1.step (.mesh_config_model_sub_add ele_addr key vendor db_sub) a.2)
  else
    let d := C.mesh_config_model_sub_del w1.ext ele_addr key vendor db_sub
    (d.1, w1.step (.mesh_config_model_sub_del ele_addr key vendor db_sub) d.2)

/-- The first switch of `config_sub_set`: the model identifier and the vendor
flag chosen from the payload size, or `none` where the source returns. -/
def config_sub_set_id (pkt : List Nat) (size : Nat) (virt : Bool)
    (opcode : Opcode) : Option (Nat × Bool) :=
  if size = 4 then
    if opcode ≠ .OP_CONFIG_MODEL_SUB_DELETE_ALL then none
    else some (SET_ID SIG_VENDOR (l_get_le16 pkt 2), false)
  else if size = 6 then
    if virt then none
    else if opcode ≠ .OP_CONFIG_MODEL_SUB_DELETE_ALL then
      some (SET_ID SIG_VENDOR (l_get_le16 pkt 4), false)
    else some (SET_ID (l_get_le16 pkt 2) (l_get_le16 pkt 4), true)
  else if size = 8 then
    if virt then none
    else some (SET_ID (l_get_le16 pkt 4) (l_get_le16 pkt 6), true)
  else if size = 20 then
    if !virt then none
    else some (SET_ID SIG_VENDOR (l_get_le16 pkt 18), false)
  else if size = 22 then
    if !virt then none
    else some (SET_ID (l_get_le16 pkt 18) (l_get_le16 pkt 20), true)
  else none

/-- Function `config_sub_set`. -/
def config_sub_set (C : Collab σ) (w : World σ) (net_idx src dst : Nat)
    (pkt : List Nat) (size : Nat) (virt : Bool) (opcode : Opcode) : World σ :=
  match config_sub_set_id pkt size virt opcode with
  | none => w
  | some (id, vendor) =>
    let ele_addr := l_get_le16 pkt 0
    let addr : List Nat :=
      if opcode ≠ .OP_CONFIG_MODEL_SUB_DELETE_ALL then pkt.drop 2 else []
    let grp : Nat :=
      if opcode ≠ .OP_CONFIG_MODEL_SUB_DELETE_ALL then l_get_le16 addr 0
      else UNASSIGNED_ADDRESS
    if opcode = .OP_CONFIG_MODEL_SUB_DELETE_ALL then
      let r := C.mesh_model_sub_del_all w.ext ele_addr id
      let w1 := w.step (.mesh_model_sub_del_all ele_addr id) r.2
      let key := if vendor then id else MODEL_ID id
      let w2 :=
        if r.1 = MESH_STATUS_SUCCESS then
          w1.step (.mesh_config_model_sub_del_all ele_addr key vendor)
            (C.mesh_config_model_sub_del_all w1.ext ele_addr key vendor).2
        else w1
      send_sub_status C w2 net_idx src dst (u8 r.1) ele_addr grp id
    else if opcode = .OP_CONFIG_MODEL_SUB_VIRT_OVERWRITE
        ∨ opcode = .OP_CONFIG_MODEL_SUB_OVERWRITE then
      let grp := if opcode = .OP_CONFIG_MODEL_SUB_VIRT_OVERWRITE
                 then UNASSIGNED_ADDRESS else grp
      let r := C.mesh_model_sub_ovr w.ext ele_addr id addr virt
      let grp := r.2.1.getD grp
      let w1 := w.step (.mesh_model_sub_ovr ele_addr id addr virt) r.2.2
      let w2 :=
        if r.1 = MESH_STATUS_SUCCESS then
          (save_config_sub C w1 ele_addr id vendor addr virt grp opcode).2
        else w1
      send_sub_status C w2 net_idx src dst (u8 r.1) ele_addr grp id
    else if opcode = .OP_CONFIG_MODEL_SUB_VIRT_ADD
        ∨ opcode = .OP_CONFIG_MODEL_SUB_ADD then
      let grp := if opcode = .OP_CONFIG_MODEL_SUB_VIRT_ADD
                 then UNASSIGNED_ADDRESS else grp
      let r := C.mesh_model_sub_add w.ext ele_addr id addr virt
      let grp := r.2.1.getD grp
      let w1 := w.step (.mesh_model_sub_add ele_addr id addr virt) r.2.2
      if r.1 = MESH_STATUS_SUCCESS then
        let s := save_config_sub C w1 ele_addr id vendor addr virt grp opcode
        let status := if !s.1 then MESH_STATUS_STORAGE_FAIL else r.1
        send_sub_status C s.2 net_idx src dst (u8 status) ele_addr grp id
      else
        send_sub_status C w1 net_idx src dst (u8 r.1) ele_addr grp id
    else if opcode = .OP_CONFIG_MODEL_SUB_VIRT_DELETE
        ∨ opcode = .OP_CONFIG_MODEL_SUB_DELETE then
      let grp := if opcode = .OP_CONFIG_MODEL_SUB_VIRT_DELETE
                 then UNASSIGNED_ADDRESS else grp
      let r := C.mesh_model_sub_del w.ext ele_addr id addr virt
      let grp := r.2.1.getD grp
      let w1 := w.step (.mesh_model_sub_del ele_addr id addr virt) r.2.2
      let w2 :=
        if r.1 = MESH_STATUS_SUCCESS then
          (save_config_sub C w1 ele_addr id vendor addr virt grp opcode).2
        else w1
      send_sub_status C w2 net_idx src dst (u8 r.1) ele_addr grp id
    else w

/-! ## Bindings -/

/-- Function `send_model_app_status`. -/
def send_model_app_status (C : Collab σ) (w : World σ) (net_idx src dst : Nat)
    (status addr id idx : Nat) : World σ :=
  mesh_model_send w dst src APP_IDX_DEV_LOCAL net_idx DEFAULT_TTL false
    (C.mesh_model_opcode_set .OP_MODEL_APP_STATUS
      ++ [status % 256] ++ l_put_le16 addr ++ l_put_le16 idx
      ++ (if IS_VENDOR id then l_put_le16 (VENDOR_ID id) else [])
      ++ l_put_le16 (MODEL_ID id))

/-- Function `model_app_list`. -/
def model_app_list (C : Collab σ) (w : World σ) (net_idx src dst : Nat)
    (pkt : List Nat) (size : Nat) : World σ :=
  let ele_addr := l_get_le16 pkt 0
  let hdr : Option (Nat × List Nat × List Nat) :=
    if size = 4 then
      let id := l_get_le16 pkt 2
      some (SET_ID SIG_VENDOR id, C.mesh_model_opcode_set .OP_MODEL_APP_LIST,
        l_put_le16 ele_addr ++ l_put_le16 id)
    else if size = 6 then
      let id := SET_ID (l_get_le16 pkt 2) (l_get_le16 pkt 4)
      some (id, C.mesh_model_opcode_set .OP_VEND_MODEL_APP_LIST,
        l_put_le16 ele_addr ++ l_put_le16 (VENDOR_ID id) ++ l_put_le16 (MODEL_ID id))
    else none
  match hdr with
  | none => w
  | some (id, op, fields) =>
    let r := C.mesh_model_get_bindings w.ext ele_addr id
              (MAX_MSG_LEN - (op.length + 1 + fields.length))
    if r.1 ≥ 0 then
      mesh_model_send w dst src APP_IDX_DEV_LOCAL net_idx DEFAULT_TTL false
        (op ++ [u8 r.1] ++ fields ++ r.2)
    else w

/-- Function `model_app_bind`. -/
def model_app_bind (C : Collab σ) (w : World σ) (net_idx src dst : Nat)
    (pkt : List Nat) (size : Nat) (unbind : Bool) : Bool × World σ :=
  let oid : Option Nat :=
    if size = 6 then some (SET_ID SIG_VENDOR (l_get_le16 pkt 4))
    else if size = 8 then some (SET_ID (l_get_le16 pkt 4) (l_get_le16 pkt 6))
    else none
  match oid with
  | none => (false, w)
  | some id =>
    let ele_addr := l_get_le16 pkt 0
    let idx := l_get_le16 pkt 2
    if idx > 0xfff then (false, w)
    else
      if unbind then
        let r := C.mesh_model_binding_del w.ext ele_addr id idx
        let w1 := w.step (.mesh_model_binding_del ele_addr id idx) r.2
        (true, send_model_app_status C w1 net_idx src dst (u8 r.1) ele_addr id idx)
      else
        let r := C.mesh_model_binding_add w.ext ele_addr id idx
        let w1 := w.step (.mesh_model_binding_add ele_addr id idx) r.2
        (true, send_model_app_status C w1 net_idx src dst (u8 r.1) ele_addr id idx)

/-! ## Heartbeat -/

/-- The ell call `l_timeout_create`: a new armed timer. -/
def l_timeout_create (seconds : Nat) : Option Nat := some seconds

/-- The ell call `l_timeout_modify`: re-arms a timer; nothing on NULL. -/
def l_timeout_modify (timer : Option Nat) (seconds : Nat) : Option Nat :=
  timer.map (fun _ => seconds)

/-- Function `hb_pub_timeout_func`, the fire of the publish timer. -/
def hb_pub_timeout_func (C : Collab σ) (w : World σ) : World σ :=
  let w1 := w.step .mesh_net_heartbeat_send (C.mesh_net_heartbeat_send w.ext)
  let hb := w1.hb
  let hb := if hb.pub_count ≠ 0xffff
            then { hb with pub_count := (hb.pub_count + 65535) % 65536 } else hb
  if hb.pub_count > 0 then
    { w1 with hb := { hb with pub_timer := l_timeout_modify hb.pub_timer hb.pub_period } }
  else
    { w1 with hb := { hb with pub_timer := none } }

/-- Function `update_hb_pub_timer`. -/
def update_hb_pub_timer (hb : mesh_net_heartbeat) : mesh_net_heartbeat :=
  if IS_UNASSIGNED hb.pub_dst || hb.pub_count == 0 then
    { hb with pub_timer := none }
  else if hb.pub_timer.isNone then
    { hb with pub_timer := l_timeout_create hb.pub_period }
  else
    { hb with pub_timer := l_timeout_modify hb.pub_timer hb.pub_period }

/-- Function `hb_sub_timeout_func`, the expiry of the subscription window. -/
def hb_sub_timeout_func (w : World σ) : World σ :=
  { w with hb := { w.hb with sub_timer := none, sub_enabled := false } }

/-- The loop of `uint32_to_log`; `none` when the fuel is used up. -/
def uint32_to_log_loop : Nat → Nat → Nat → Nat → Option Nat
  | 0, _, _, _ => none
  | fuel + 1, value, val, ret =>
    if val < value then
      uint32_to_log_loop fuel value (val * 2 % 4294967296) ((ret + 1) % 256)
    else some ret

/-- Function `uint32_to_log`.  The loop runs at most 16 times for the values
that reach it, so the fuel is never used up. -/
def uint32_to_log (value : Nat) : Nat :=
  if value = 0 then 0
  else if value > 0x10000 then 0xff
  else (uint32_to_log_loop 32 value 1 1).getD 0

/-- Function `log_to_uint32`. -/
def log_to_uint32 (log offset : Nat) : Nat :=
  if log = 0 then 0x0000
  else if log > 0x11 then 0xffff
  else 2 ^ (log - offset)

/-- Function `hb_subscription_set`. -/
def hb_subscription_set (C : Collab σ) (w : World σ) (src dst period_log : Nat) :
    Int × World σ :=
  let hb := w.hb
  if (!IS_UNASSIGNED src && !IS_UNICAST src) || IS_VIRTUAL dst then (-1, w)
  else if IS_UNASSIGNED src || IS_UNASSIGNED dst then
    let w1 := if IS_GROUP hb.sub_dst
              then w.step (.mesh_net_dst_unreg hb.sub_dst)
                     (C.mesh_net_dst_unreg w.ext hb.sub_dst)
              else w
    (MESH_STATUS_SUCCESS,
      { w1 with hb := { hb with sub_timer := none, sub_enabled := false,
                                sub_dst := UNASSIGNED_ADDRESS,
                                sub_src := UNASSIGNED_ADDRESS,
                                sub_count := 0, sub_period := 0,
                                sub_min_hops := 0, sub_max_hops := 0 } })
  else if period_log = 0 ∧ src = hb.sub_src ∧ dst = hb.sub_dst then
    (MESH_STATUS_SUCCESS,
      { w with hb := { hb with sub_timer := none, sub_enabled := false,
                               sub_period := 0 } })
  else
    let w1 :=
      if hb.sub_dst ≠ dst then
        let wa := if IS_GROUP hb.sub_dst
                  then w.step (.mesh_net_dst_unreg hb.sub_dst)
                         (C.mesh_net_dst_unreg w.ext hb.sub_dst)
                  else w
        if IS_GROUP dst
        then wa.step (.mesh_net_dst_reg dst) (C.mesh_net_dst_reg wa.ext dst)
        else wa
      else w
    let hb1 := { hb with sub_enabled := decide (period_log ≠ 0),
                         sub_src := src, sub_dst := dst, sub_count := 0,
                         sub_period := log_to_uint32 period_log 1,
                         sub_min_hops := 0x00, sub_max_hops := 0x00,
                         sub_start := C.gettimeofday w1.ext % 4294967296 }
    if !hb1.sub_enabled then
      (MESH_STATUS_SUCCESS, { w1 with hb := { hb1 with sub_timer := none } })
    else
      let hb2 := { hb1 with sub_min_hops := 0xff }
      if hb2.sub_timer.isNone then
        (MESH_STATUS_SUCCESS,
          { w1 with hb := { hb2 with sub_timer := l_timeout_create hb2.sub_period } })
      else
        (MESH_STATUS_SUCCESS,
          { w1 with hb := { hb2 with sub_timer := l_timeout_modify hb2.sub_timer hb2.sub_period } })

/-! ## Composition -/

/-- The supported composition pages, high to low. -/
def supported_pages : List Nat := [0]

/-- The loop of `get_composition` over the remaining supported pages: the
page chosen and the bytes fetched for it (empty when nothing was fetched). -/
def get_composition_scan (C : Collab σ) (e : σ) : List Nat → Nat → Nat × List Nat
  | [], page => (page, [])
  | p :: rest, page =>
    if page < p then get_composition_scan C e rest page
    else
      let comp := C.node_get_comp e p
      if p = 0 ∨ comp.length ≠ 0 then (p, comp)
      else get_composition_scan C e rest p

/-- Function `get_composition`: the bytes written at `buf`. -/
def get_composition (C : Collab σ) (e : σ) (page : Nat) : List Nat :=
  let r := get_composition_scan C e supported_pages page
  if r.2.length = 0 then [] else (r.1 % 256) :: r.2

/-! ## Dispatcher -/

/-- How a case of the switch of `cfg_srv_pkt` ends: `return b`, or `break`
with the bytes written into the scratch buffer (`n` is their number). -/
inductive Outcome (σ : Type) where
  | ret (b : Bool) (w : World σ)
  | brk (w : World σ) (msg : List Nat)

/-- Case OP_CONFIG_DEFAULT_TTL_GET, also reached by falling through. -/
def default_ttl_get (C : Collab σ) (w : World σ) (opcode : Opcode) (size : Nat) :
    Outcome σ :=
  if opcode = .OP_CONFIG_DEFAULT_TTL_GET ∧ size ≠ 0 then .ret true w
  else .brk w (C.mesh_model_opcode_set .OP_CONFIG_DEFAULT_TTL_STATUS
                ++ [C.node_default_ttl_get w.ext % 256])

/-- Case OP_CONFIG_RELAY_GET, also reached by falling through. -/
def relay_get (C : Collab σ) (w : World σ) (opcode : Opcode) (size : Nat) :
    Outcome σ :=
  if opcode = .OP_CONFIG_RELAY_GET ∧ size ≠ 0 then .ret true w
  else
    let r := C.node_relay_mode_get w.ext
    let count : Int := ((r.2.1 % 256 : Nat) : Int)
    let interval : Int := ((r.2.2 % 65536 : Nat) : Int)
    .brk w (C.mesh_model_opcode_set .OP_CONFIG_RELAY_STATUS
             ++ [r.1 % 256, u8 ((count - 1) + (interval / 10 - 1) * 8)])

/-- Case OP_CONFIG_NETWORK_TRANSMIT_GET, also reached by falling through. -/
def network_transmit_get (C : Collab σ) (w : World σ) (opcode : Opcode)
    (size : Nat) : Outcome σ :=
  if opcode = .OP_CONFIG_NETWORK_TRANSMIT_GET ∧ size ≠ 0 then .ret true w
  else
    let r := C.mesh_net_transmit_params_get w.ext
    let count : Int := ((r.1 % 256 : Nat) : Int)
    let interval : Int := ((r.2 % 65536 : Nat) : Int)
    .brk w (C.mesh_model_opcode_set .OP_CONFIG_NETWORK_TRANSMIT_STATUS
             ++ [u8 ((count - 1) + (interval / 10 - 1) * 8)])

/-- Case OP_CONFIG_PROXY_GET, also reached by falling through. -/
def proxy_get (C : Collab σ) (w : World σ) (opcode : Opcode) (size : Nat) :
    Outcome σ :=
  if opcode = .OP_CONFIG_PROXY_GET ∧ size ≠ 0 then .ret true w
  else .brk w (C.mesh_model_opcode_set .OP_CONFIG_PROXY_STATUS
                ++ [C.node_proxy_mode_get w.ext % 256])

/-- Case OP_NODE_IDENTITY_GET, also reached by falling through. -/
def node_identity_get (C : Collab σ) (w : World σ) (pkt : List Nat) (size : Nat) :
    Outcome σ :=
  if size < 2 then .ret true w
  else
    let n_idx := l_get_le16 pkt 0
    if n_idx > 0xfff then .ret true w
    else
      let r := C.mesh_net_get_identity_mode w.ext n_idx
      .brk w (C.mesh_model_opcode_set .OP_NODE_IDENTITY_STATUS
               ++ [u8 r.1] ++ l_put_le16 n_idx ++ [r.2 % 256])

/-- Case OP_CONFIG_BEACON_GET, also reached by falling through. -/
def beacon_get (C : Collab σ) (w : World σ) (opcode : Opcode) (size : Nat) :
    Outcome σ :=
  if opcode = .OP_CONFIG_BEACON_GET ∧ size ≠ 0 then .ret true w
  else .brk w (C.mesh_model_opcode_set .OP_CONFIG_BEACON_STATUS
                ++ [C.node_beacon_mode_get w.ext % 256])

/-- Case OP_CONFIG_FRIEND_GET, also reached by falling through. -/
def friend_get (C : Collab σ) (w : World σ) (opcode : Opcode) (size : Nat) :
    Outcome σ :=
  if opcode = .OP_CONFIG_FRIEND_GET ∧ size ≠ 0 then .ret true w
  else .brk w (C.mesh_model_opcode_set .OP_CONFIG_FRIEND_STATUS
                ++ [C.node_friend_mode_get w.ext % 256])

/-- Case OP_CONFIG_KEY_REFRESH_PHASE_GET, also reached by falling through
with the setter's result in `b_res` and `size` forced to 2. -/
def key_refresh_phase_get (C : Collab σ) (w : World σ) (pkt : List Nat)
    (size : Nat) (b_res : Int) : Outcome σ :=
  if size ≠ 2 then .ret true w
  else
    let n_idx := l_get_le16 pkt 0
    let r := C.mesh_net_key_refresh_phase_get w.ext n_idx
    let status : Nat := u8 r.1
    let b_res : Int := if (status : Int) ≠ MESH_STATUS_SUCCESS then (status : Int) else b_res
    let phase : Nat := if (status : Int) ≠ MESH_STATUS_SUCCESS
                       then KEY_REFRESH_PHASE_NONE else r.2 % 256
    .brk w (C.mesh_model_opcode_set .OP_CONFIG_KEY_REFRESH_PHASE_STATUS
             ++ [u8 b_res] ++ l_put_le16 n_idx ++ [phase])

/-- Case OP_CONFIG_HEARTBEAT_SUB_GET, also reached by falling through with
the result of `hb_subscription_set` in `b_res`. -/
def heartbeat_sub_get (C : Collab σ) (w : World σ) (opcode : Opcode)
    (size : Nat) (b_res : Int) : Outcome σ :=
  if opcode = .OP_CONFIG_HEARTBEAT_SUB_GET ∧ size ≠ 0 then .ret true w
  else
    let hb := w.hb
    let t0 : Int := (C.gettimeofday w.ext : Int) - (hb.sub_start : Int)
    let t : Int := if t0 ≥ (hb.sub_period : Int) then 0
                   else (hb.sub_period : Int) - t0
    .brk w (C.mesh_model_opcode_set .OP_CONFIG_HEARTBEAT_SUB_STATUS
             ++ [u8 b_res] ++ l_put_le16 hb.sub_src ++ l_put_le16 hb.sub_dst
             ++ [uint32_to_log (t % 4294967296).toNat % 256,
                 uint32_to_log hb.sub_count % 256,
                 (if hb.sub_count ≠ 0 then hb.sub_min_hops else 0) % 256,
                 hb.sub_max_hops % 256])

/-- Case OP_CONFIG_HEARTBEAT_PUB_SET. -/
def heartbeat_pub_set (C : Collab σ) (w : World σ) (pkt : List Nat) (size : Nat) :
    Outcome σ :=
  if size ≠ 9 then .ret true w
  else if byteAt pkt 2 > 0x11 ∨ byteAt pkt 3 > 0x10 ∨ byteAt pkt 4 > 0x7f then
    .ret true w
  else
    let b_res : Int :=
      if IS_VIRTUAL (l_get_le16 pkt 0) then MESH_STATUS_INVALID_ADDRESS
      else if l_get_le16 pkt 7 ≠ C.mesh_net_get_primary_idx w.ext
      then MESH_STATUS_INVALID_NETKEY
      else MESH_STATUS_SUCCESS
    let msg := C.mesh_model_opcode_set .OP_CONFIG_HEARTBEAT_PUB_STATUS
      ++ [u8 b_res]
      ++ [byteAt pkt 0, byteAt pkt 1, byteAt pkt 2, byteAt pkt 3, byteAt pkt 4]
      ++ l_put_le16 (l_get_le16 pkt 5 &&& 0xf)
      ++ [byteAt pkt 7, byteAt pkt 8]
    if b_res ≠ MESH_STATUS_SUCCESS then .brk w msg
    else
      let hb := { w.hb with pub_dst := l_get_le16 pkt 0 }
      let hb :=
        if hb.pub_dst = UNASSIGNED_ADDRESS ∨ byteAt pkt 2 = 0 ∨ byteAt pkt 3 = 0
        then { hb with pub_count := 0, pub_period := 0 }
        else { hb with
                pub_count := (if byteAt pkt 2 ≠ 0xff
                              then log_to_uint32 (byteAt pkt 2) 1 else 0xffff) % 65536,
                pub_period := log_to_uint32 (byteAt pkt 3) 1 }
      let hb := { hb with pub_ttl := byteAt pkt 4,
                          pub_features := l_get_le16 pkt 5 &&& 0xf,
                          pub_net_idx := l_get_le16 pkt 7 }
      .brk { w with hb := update_hb_pub_timer hb } msg

/-- The switch of `cfg_srv_pkt` on the opcode; `pkt` and `size` are the
payload and its length, after the opcode. -/
def cfg_srv_switch (C : Collab σ) (w : World σ) (src dst net_idx : Nat)
    (opcode : Opcode) (pkt : List Nat) (size : Nat) : Outcome σ :=
  match opcode with
  | .OP_DEV_COMP_GET =>
    if size ≠ 1 then .ret true w
    else .brk w (C.mesh_model_opcode_set .OP_DEV_COMP_STATUS
                  ++ get_composition C w.ext (byteAt pkt 0))
  | .OP_CONFIG_DEFAULT_TTL_SET =>
    if size ≠ 1 ∨ byteAt pkt 0 > TTL_MASK ∨ byteAt pkt 0 = 1 then .ret true w
    else
      let w1 := if byteAt pkt 0 ≤ TTL_MASK
                then w.step (.node_default_ttl_set (byteAt pkt 0))
                       (C.node_default_ttl_set w.ext (byteAt pkt 0))
                else w
      default_ttl_get C w1 opcode size
  | .OP_CONFIG_DEFAULT_TTL_GET => default_ttl_get C w opcode size
  | .OP_CONFIG_MODEL_PUB_VIRT_SET =>
    if size ≠ 25 ∧ size ≠ 27 then .ret true w
    else .brk (config_pub_set C w net_idx src dst pkt true
                (decide (size = 13) || decide (size = 27))) []
  | .OP_CONFIG_MODEL_PUB_SET =>
    if size ≠ 11 ∧ size ≠ 13 then .ret true w
    else .brk (config_pub_set C w net_idx src dst pkt false
                (decide (size = 13) || decide (size = 27))) []
  | .OP_CONFIG_MODEL_PUB_GET =>
    if size ≠ 4 ∧ size ≠ 6 then .ret true w
    else .brk (config_pub_get C w net_idx src dst pkt size) []
  | .OP_CONFIG_VEND_MODEL_SUB_GET =>
    if size ≠ 6 then .ret true w
    else .brk (config_sub_get C w net_idx src dst pkt size).2 []
  | .OP_CONFIG_MODEL_SUB_GET =>
    if size ≠ 4 then .ret true w
    else .brk (config_sub_get C w net_idx src dst pkt size).2 []
  | .OP_CONFIG_MODEL_SUB_VIRT_OVERWRITE
  | .OP_CONFIG_MODEL_SUB_VIRT_DELETE
  | .OP_CONFIG_MODEL_SUB_VIRT_ADD =>
    .brk (config_sub_set C w net_idx src dst pkt size true opcode) []
  | .OP_CONFIG_MODEL_SUB_OVERWRITE
  | .OP_CONFIG_MODEL_SUB_DELETE
  | .OP_CONFIG_MODEL_SUB_ADD
  | .OP_CONFIG_MODEL_SUB_DELETE_ALL =>
    .brk (config_sub_set C w net_idx src dst pkt size false opcode) []
  | .OP_CONFIG_RELAY_SET =>
    if size ≠ 2 ∨ byteAt pkt 0 > 0x01 then .ret true w
    else
      let count := ((byteAt pkt 1 &&& 0x7) + 1) % 256
      let interval := (((byteAt pkt 1 >>> 3) + 1) * 10) % 65536
      let w1 := w.step (.node_relay_mode_set (decide (byteAt pkt 0 ≠ 0)) count interval)
                  (C.node_relay_mode_set w.ext (decide (byteAt pkt 0 ≠ 0)) count interval)
      relay_get C w1 opcode size
  | .OP_CONFIG_RELAY_GET => relay_get C w opcode size
  | .OP_CONFIG_NETWORK_TRANSMIT_SET =>
    if size ≠ 1 then .ret true w
    else
      let count := ((byteAt pkt 0 &&& 0x7) + 1) % 256
      let interval := (((byteAt pkt 0 >>> 3) + 1) * 10) % 65536
      let r := C.mesh_config_write_net_transmit w.ext count interval
      let w1 := w.step (.mesh_config_write_net_transmit count interval) r.2
      let w2 := if r.1
                then w1.step (.mesh_net_transmit_params_set count interval)
                       (C.mesh_net_transmit_params_set w1.ext count interval)
                else w1
      network_transmit_get C w2 opcode size
  | .OP_CONFIG_NETWORK_TRANSMIT_GET => network_transmit_get C w opcode size
  | .OP_CONFIG_PROXY_SET =>
    if size ≠ 1 ∨ byteAt pkt 0 > 0x01 then .ret true w
    else
      proxy_get C (w.step (.node_proxy_mode_set (decide (byteAt pkt 0 ≠ 0)))
                    (C.node_proxy_mode_set w.ext (decide (byteAt pkt 0 ≠ 0))))
        opcode size
  | .OP_CONFIG_PROXY_GET => proxy_get C w opcode size
  | .OP_NODE_IDENTITY_SET =>
    if size ≠ 3 ∨ byteAt pkt 2 > 0x01 then .ret true w
    else if l_get_le16 pkt 0 > 0xfff then .ret true w
    else node_identity_get C w pkt size
  | .OP_NODE_IDENTITY_GET => node_identity_get C w pkt size
  | .OP_CONFIG_BEACON_SET =>
    if size ≠ 1 ∨ byteAt pkt 0 > 0x01 then .ret true w
    else
      beacon_get C (w.step (.node_beacon_mode_set (decide (byteAt pkt 0 ≠ 0)))
                     (C.node_beacon_mode_set w.ext (decide (byteAt pkt 0 ≠ 0))))
        opcode size
  | .OP_CONFIG_BEACON_GET => beacon_get C w opcode size
  | .OP_CONFIG_FRIEND_SET =>
    if size ≠ 1 ∨ byteAt pkt 0 > 0x01 then .ret true w
    else
      friend_get C (w.step (.node_friend_mode_set (decide (byteAt pkt 0 ≠ 0)))
                     (C.node_friend_mode_set w.ext (decide (byteAt pkt 0 ≠ 0))))
        opcode size
  | .OP_CONFIG_FRIEND_GET => friend_get C w opcode size
  | .OP_CONFIG_KEY_REFRESH_PHASE_SET =>
    if size ≠ 3 ∨ byteAt pkt 2 > 0x03 then .ret true w
    else
      let r := C.mesh_net_key_refresh_phase_set w.ext (l_get_le16 pkt 0) (byteAt pkt 2)
      let w1 := w.step (.mesh_net_key_refresh_phase_set (l_get_le16 pkt 0) (byteAt pkt 2)) r.2
      key_refresh_phase_get C w1 pkt 2 r.1
  | .OP_CONFIG_KEY_REFRESH_PHASE_GET =>
    key_refresh_phase_get C w pkt size MESH_STATUS_SUCCESS
  | .OP_APPKEY_ADD | .OP_APPKEY_UPDATE =>
    if size ≠ 19 then .ret true w
    else
      let n_idx := l_get_le16 pkt 0 &&& 0xfff
      let a_idx := l_get_le16 pkt 1 >>> 4
      let r := if opcode = .OP_APPKEY_ADD
               then C.appkey_key_add w.ext n_idx a_idx (pkt.drop 3)
               else C.appkey_key_update w.ext n_idx a_idx (pkt.drop 3)
      let w1 := w.step (if opcode = .OP_APPKEY_ADD
                        then .appkey_key_add n_idx a_idx (pkt.drop 3)
                        else .appkey_key_update n_idx a_idx (pkt.drop 3)) r.2
      .brk w1 (C.mesh_model_opcode_set .OP_APPKEY_STATUS
                ++ [u8 r.1, byteAt pkt 0, byteAt pkt 1, byteAt pkt 2])
  | .OP_APPKEY_DELETE =>
    if size ≠ 3 then .ret true w
    else
      let n_idx := l_get_le16 pkt 0 &&& 0xfff
      let a_idx := l_get_le16 pkt 1 >>> 4
      let r := C.appkey_key_delete w.ext n_idx a_idx
      let w1 := w.step (.appkey_key_delete n_idx a_idx) r.2
      .brk w1 (C.mesh_model_opcode_set .OP_APPKEY_STATUS
                ++ [u8 r.1, byteAt pkt 0, byteAt pkt 1, byteAt pkt 2])
  | .OP_APPKEY_GET =>
    if size ≠ 2 then .ret true w
    else
      let n_idx := l_get_le16 pkt 0
      let hdr := C.mesh_model_opcode_set .OP_APPKEY_LIST
      let r := C.appkey_list w.ext n_idx (MAX_MSG_LEN - hdr.length - 3)
      .brk w (hdr ++ [u8 r.1] ++ l_put_le16 n_idx ++ r.2)
  | .OP_NETKEY_ADD | .OP_NETKEY_UPDATE =>
    if size ≠ 18 then .ret true w
    else
      let n_idx := l_get_le16 pkt 0
      let r := if opcode = .OP_NETKEY_ADD
               then C.mesh_net_add_key w.ext n_idx (pkt.drop 2)
               else C.mesh_net_update_key w.ext n_idx (pkt.drop 2)
      let w1 := w.step (if opcode = .OP_NETKEY_ADD
                        then .mesh_net_add_key n_idx (pkt.drop 2)
                        else .mesh_net_update_key n_idx (pkt.drop 2)) r.2
      .brk w1 (C.mesh_model_opcode_set .OP_NETKEY_STATUS
                ++ [u8 r.1] ++ l_put_le16 (l_get_le16 pkt 0))
  | .OP_NETKEY_DELETE =>
    if size ≠ 2 then .ret true w
    else
      let r := C.mesh_net_del_key w.ext (l_get_le16 pkt 0)
      let w1 := w.step (.mesh_net_del_key (l_get_le16 pkt 0)) r.2
      .brk w1 (C.mesh_model_opcode_set .OP_NETKEY_STATUS
                ++ [u8 r.1] ++ l_put_le16 (l_get_le16 pkt 0))
  | .OP_NETKEY_GET =>
    if size ≠ 0 then .ret true w
    else
      let hdr := C.mesh_model_opcode_set .OP_NETKEY_LIST
      let r := C.mesh_net_key_list_get w.ext (MAX_MSG_LEN - hdr.length)
      .brk w (hdr ++ (if r.1 then r.2 else []))
  | .OP_MODEL_APP_BIND | .OP_MODEL_APP_UNBIND =>
    .brk (model_app_bind C w net_idx src dst pkt size
            (decide (opcode ≠ .OP_MODEL_APP_BIND))).2 []
  | .OP_VEND_MODEL_APP_GET =>
    if size ≠ 6 then .ret true w
    else .brk (model_app_list C w net_idx src dst pkt size) []
  | .OP_MODEL_APP_GET =>
    if size ≠ 4 then .ret true w
    else .brk (model_app_list C w net_idx src dst pkt size) []
  | .OP_CONFIG_HEARTBEAT_PUB_SET => heartbeat_pub_set C w pkt size
  | .OP_CONFIG_HEARTBEAT_PUB_GET =>
    if size ≠ 0 then .ret true w
    else
      let hb := w.hb
      .brk w (C.mesh_model_opcode_set .OP_CONFIG_HEARTBEAT_PUB_STATUS
               ++ [u8 MESH_STATUS_SUCCESS] ++ l_put_le16 hb.pub_dst
               ++ [uint32_to_log hb.pub_count % 256,
                   uint32_to_log hb.pub_period % 256, hb.pub_ttl % 256]
               ++ l_put_le16 hb.pub_features ++ l_put_le16 hb.pub_net_idx)
  | .OP_CONFIG_HEARTBEAT_SUB_SET =>
    if size ≠ 5 then .ret true w
    else
      let r := hb_subscription_set C w (l_get_le16 pkt 0) (l_get_le16 pkt 2)
                (byteAt pkt 4)
      if r.1 < 0 then .ret true r.2
      else heartbeat_sub_get C r.2 opcode size r.1
  | .OP_CONFIG_HEARTBEAT_SUB_GET =>
    heartbeat_sub_get C w opcode size MESH_STATUS_SUCCESS
  | .OP_CONFIG_POLL_TIMEOUT_LIST =>
    if size ≠ 2 ∨ l_get_le16 pkt 0 = 0 ∨ l_get_le16 pkt 0 > 0x7fff then .ret true w
    else
      let tmp32 := C.mesh_net_friend_timeout w.ext (l_get_le16 pkt 0) % 4294967296
      .brk w (C.mesh_model_opcode_set .OP_CONFIG_POLL_TIMEOUT_STATUS
               ++ l_put_le16 (l_get_le16 pkt 0)
               ++ [tmp32 % 256, tmp32 / 256 % 256, tmp32 / 65536 % 256])
  | .OP_NODE_RESET =>
    if size ≠ 0 then .ret true w
    else .brk { w with idle := w.idle + 1 }
           (C.mesh_model_opcode_set .OP_NODE_RESET_STATUS)
  | _ => .ret false w

/-- Function `cfg_srv_pkt`: the consumed flag and the world afterwards.
`data` is the inbound access payload, `size` its length; the codec reports
the opcode and the number `n` of bytes it occupies. -/
def cfg_srv_pkt (C : Collab σ) (w : World σ) (src dst app_idx net_idx : Nat)
    (data : List Nat) : Bool × World σ :=
  if app_idx ≠ APP_IDX_DEV_LOCAL then (false, w)
  else
    match C.mesh_model_opcode_get data with
    | none => (false, w)
    | some (opcode, n) =>
      let pkt := data.drop n
      let size := data.length - n
      match cfg_srv_switch C w src dst net_idx opcode pkt size with
      | .ret b w1 => (b, w1)
      | .brk w1 msg =>
        if msg.length ≠ 0 then
          (true, mesh_model_send w1 dst src APP_IDX_DEV_LOCAL net_idx
                   DEFAULT_TTL false msg)
        else (true, w1)

/-- Function `node_reset`, the deferred action of a Node Reset: it runs from
the event loop after the dispatch has returned and removes the node. -/
def node_reset (w : World σ) : World σ :=
  { w with idle := w.idle - 1, calls := w.calls ++ [.node_remove] }

/-- Function `cfgmod_srv_unregister`. -/
def cfgmod_srv_unregister (w : World σ) : World σ :=
  { w with hb := { w.hb with pub_timer := none, sub_timer := none } }

/-! ## Observations used by the statements -/

/-- The case labels of the switch of `cfg_srv_pkt`. -/
def is_cfg_opcode : Opcode → Bool
  | .OP_DEV_COMP_GET
  | .OP_CONFIG_DEFAULT_TTL_SET | .OP_CONFIG_DEFAULT_TTL_GET
  | .OP_CONFIG_MODEL_PUB_VIRT_SET | .OP_CONFIG_MODEL_PUB_SET
  | .OP_CONFIG_MODEL_PUB_GET
  | .OP_CONFIG_VEND_MODEL_SUB_GET | .OP_CONFIG_MODEL_SUB_GET
  | .OP_CONFIG_MODEL_SUB_VIRT_OVERWRITE | .OP_CONFIG_MODEL_SUB_VIRT_DELETE
  | .OP_CONFIG_MODEL_SUB_VIRT_ADD | .OP_CONFIG_MODEL_SUB_OVERWRITE
  | .OP_CONFIG_MODEL_SUB_DELETE | .OP_CONFIG_MODEL_SUB_ADD
  | .OP_CONFIG_MODEL_SUB_DELETE_ALL
  | .OP_CONFIG_RELAY_SET | .OP_CONFIG_RELAY_GET
  | .OP_CONFIG_NETWORK_TRANSMIT_SET | .OP_CONFIG_NETWORK_TRANSMIT_GET
  | .OP_CONFIG_PROXY_SET | .OP_CONFIG_PROXY_GET
  | .OP_NODE_IDENTITY_SET | .OP_NODE_IDENTITY_GET
  | .OP_CONFIG_BEACON_SET | .OP_CONFIG_BEACON_GET
  | .OP_CONFIG_FRIEND_SET | .OP_CONFIG_FRIEND_GET
  | .OP_CONFIG_KEY_REFRESH_PHASE_SET | .OP_CONFIG_KEY_REFRESH_PHASE_GET
  | .OP_APPKEY_ADD | .OP_APPKEY_UPDATE | .OP_APPKEY_DELETE | .OP_APPKEY_GET
  | .OP_NETKEY_ADD | .OP_NETKEY_UPDATE | .OP_NETKEY_DELETE | .OP_NETKEY_GET
  | .OP_MODEL_APP_BIND | .OP_MODEL_APP_UNBIND
  | .OP_VEND_MODEL_APP_GET | .OP_MODEL_APP_GET
  | .OP_CONFIG_HEARTBEAT_PUB_SET | .OP_CONFIG_HEARTBEAT_PUB_GET
  | .OP_CONFIG_HEARTBEAT_SUB_SET | .OP_CONFIG_HEARTBEAT_SUB_GET
  | .OP_CONFIG_POLL_TIMEOUT_LIST
  | .OP_NODE_RESET => true
  | _ => false

/-- The value a case of the switch makes `cfg_srv_pkt` return. -/
def Outcome.consumed : Outcome σ → Bool
  | .ret b _ => b
  | .brk _ _ => true

/-! ## A reference collaborator

The collaborators are out of the module's scope; the statements that speak
about what is stored afterwards need one.  `Sim` follows the spec's data
model: a registry with one publication record and one subscription list per
model, a persistent store whose operations either succeed or change nothing,
the node parameters, and verdicts (`find_model`, `reg_status`, `store_ok`)
that are arbitrary functions of the request. -/

/-- Modelled from the spec: the numeric opcodes of mesh/cfgmod.h (absent),
one to three bytes long on the wire. -/
def opcode_value : Opcode → Nat
  | .OP_APPKEY_ADD => 0x00 | .OP_APPKEY_DELETE => 0x8000
  | .OP_APPKEY_GET => 0x8001 | .OP_APPKEY_LIST => 0x8002
  | .OP_APPKEY_STATUS => 0x8003 | .OP_APPKEY_UPDATE => 0x01
  | .OP_DEV_COMP_GET => 0x8008 | .OP_DEV_COMP_STATUS => 0x02
  | .OP_CONFIG_BEACON_GET => 0x8009 | .OP_CONFIG_BEACON_SET => 0x800A
  | .OP_CONFIG_BEACON_STATUS => 0x800B
  | .OP_CONFIG_DEFAULT_TTL_GET => 0x800C | .OP_CONFIG_DEFAULT_TTL_SET => 0x800D
  | .OP_CONFIG_DEFAULT_TTL_STATUS => 0x800E
  | .OP_CONFIG_FRIEND_GET => 0x800F | .OP_CONFIG_FRIEND_SET => 0x8010
  | .OP_CONFIG_FRIEND_STATUS => 0x8011
  | .OP_CONFIG_PROXY_GET => 0x8012 | .OP_CONFIG_PROXY_SET => 0x8013
  | .OP_CONFIG_PROXY_STATUS => 0x8014
  | .OP_CONFIG_KEY_REFRESH_PHASE_GET => 0x8015
  | .OP_CONFIG_KEY_REFRESH_PHASE_SET => 0x8016
  | .OP_CONFIG_KEY_REFRESH_PHASE_STATUS => 0x8017
  | .OP_CONFIG_MODEL_PUB_GET => 0x8018 | .OP_CONFIG_MODEL_PUB_SET => 0x03
  | .OP_CONFIG_MODEL_PUB_STATUS => 0x8019
  | .OP_CONFIG_MODEL_PUB_VIRT_SET => 0x801A
  | .OP_CONFIG_MODEL_SUB_ADD => 0x801B | .OP_CONFIG_MODEL_SUB_DELETE => 0x801C
  | .OP_CONFIG_MODEL_SUB_DELETE_ALL => 0x801D
  | .OP_CONFIG_MODEL_SUB_OVERWRITE => 0x801E
  | .OP_CONFIG_MODEL_SUB_STATUS => 0x801F
  | .OP_CONFIG_MODEL_SUB_VIRT_ADD => 0x8020
  | .OP_CONFIG_MODEL_SUB_VIRT_DELETE => 0x8021
  | .OP_CONFIG_MODEL_SUB_VIRT_OVERWRITE => 0x8022
  | .OP_CONFIG_NETWORK_TRANSMIT_GET => 0x8023
  | .OP_CONFIG_NETWORK_TRANSMIT_SET => 0x8024
  | .OP_CONFIG_NETWORK_TRANSMIT_STATUS => 0x8025
  | .OP_CONFIG_RELAY_GET => 0x8026 | .OP_CONFIG_RELAY_SET => 0x8027
  | .OP_CONFIG_RELAY_STATUS => 0x8028
  | .OP_CONFIG_MODEL_SUB_GET => 0x8029 | .OP_CONFIG_MODEL_SUB_LIST => 0x802A
  | .OP_CONFIG_VEND_MODEL_SUB_GET => 0x802B
  | .OP_CONFIG_VEND_MODEL_SUB_LIST => 0x802C
  | .OP_CONFIG_POLL_TIMEOUT_LIST => 0x802D
  | .OP_CONFIG_POLL_TIMEOUT_STATUS => 0x802E
  | .OP_CONFIG_HEARTBEAT_PUB_GET => 0x8038
  | .OP_CONFIG_HEARTBEAT_PUB_SET => 0x8039
  | .OP_CONFIG_HEARTBEAT_PUB_STATUS => 0x06
  | .OP_CONFIG_HEARTBEAT_SUB_GET => 0x803A
  | .OP_CONFIG_HEARTBEAT_SUB_SET => 0x803B
  | .OP_CONFIG_HEARTBEAT_SUB_STATUS => 0x803C
  | .OP_MODEL_APP_BIND => 0x803D | .OP_MODEL_APP_STATUS => 0x803E
  | .OP_MODEL_APP_UNBIND => 0x803F
  | .OP_NETKEY_ADD => 0x8040 | .OP_NETKEY_DELETE => 0x8041
  | .OP_NETKEY_GET => 0x8042 | .OP_NETKEY_LIST => 0x8043
  | .OP_NETKEY_STATUS => 0x8044 | .OP_NETKEY_UPDATE => 0x8045
  | .OP_NODE_IDENTITY_GET => 0x8046 | .OP_NODE_IDENTITY_SET => 0x8047
  | .OP_NODE_IDENTITY_STATUS => 0x8048
  | .OP_NODE_RESET => 0x8049 | .OP_NODE_RESET_STATUS => 0x804A
  | .OP_MODEL_APP_GET => 0x804B | .OP_MODEL_APP_LIST => 0x804C
  | .OP_VEND_MODEL_APP_GET => 0x804D | .OP_VEND_MODEL_APP_LIST => 0x804E
  | .OTHER => 0x7f

/-- The named opcodes. -/
def all_opcodes : List Opcode :=
  [.OP_APPKEY_ADD, .OP_APPKEY_DELETE, .OP_APPKEY_GET, .OP_APPKEY_LIST,
   .OP_APPKEY_STATUS, .OP_APPKEY_UPDATE, .OP_DEV_COMP_GET, .OP_DEV_COMP_STATUS,
   .OP_CONFIG_BEACON_GET, .OP_CONFIG_BEACON_SET, .OP_CONFIG_BEACON_STATUS,
   .OP_CONFIG_DEFAULT_TTL_GET, .OP_CONFIG_DEFAULT_TTL_SET,
   .OP_CONFIG_DEFAULT_TTL_STATUS, .OP_CONFIG_FRIEND_GET, .OP_CONFIG_FRIEND_SET,
   .OP_CONFIG_FRIEND_STATUS, .OP_CONFIG_PROXY_GET, .OP_CONFIG_PROXY_SET,
   .OP_CONFIG_PROXY_STATUS, .OP_CONFIG_KEY_REFRESH_PHASE_GET,
   .OP_CONFIG_KEY_REFRESH_PHASE_SET, .OP_CONFIG_KEY_REFRESH_PHASE_STATUS,
   .OP_CONFIG_MODEL_PUB_GET, .OP_CONFIG_MODEL_PUB_SET,
   .OP_CONFIG_MODEL_PUB_STATUS, .OP_CONFIG_MODEL_PUB_VIRT_SET,
   .OP_CONFIG_MODEL_SUB_ADD, .OP_CONFIG_MODEL_SUB_DELETE,
   .OP_CONFIG_MODEL_SUB_DELETE_ALL, .OP_CONFIG_MODEL_SUB_OVERWRITE,
   .OP_CONFIG_MODEL_SUB_STATUS, .OP_CONFIG_MODEL_SUB_VIRT_ADD,
   .OP_CONFIG_MODEL_SUB_VIRT_DELETE, .OP_CONFIG_MODEL_SUB_VIRT_OVERWRITE,
   .OP_CONFIG_NETWORK_TRANSMIT_GET, .OP_CONFIG_NETWORK_TRANSMIT_SET,
   .OP_CONFIG_NETWORK_TRANSMIT_STATUS, .OP_CONFIG_RELAY_GET,
   .OP_CONFIG_RELAY_SET, .OP_CONFIG_RELAY_STATUS, .OP_CONFIG_MODEL_SUB_GET,
   .OP_CONFIG_MODEL_SUB_LIST, .OP_CONFIG_VEND_MODEL_SUB_GET,
   .OP_CONFIG_VEND_MODEL_SUB_LIST, .OP_CONFIG_POLL_TIMEOUT_LIST,
   .OP_CONFIG_POLL_TIMEOUT_STATUS, .OP_CONFIG_HEARTBEAT_PUB_GET,
   .OP_CONFIG_HEARTBEAT_PUB_SET, .OP_CONFIG_HEARTBEAT_PUB_STATUS,
   .OP_CONFIG_HEARTBEAT_SUB_GET, .OP_CONFIG_HEARTBEAT_SUB_SET,
   .OP_CONFIG_HEARTBEAT_SUB_STATUS, .OP_MODEL_APP_BIND, .OP_MODEL_APP_STATUS,
   .OP_MODEL_APP_UNBIND, .OP_NETKEY_ADD, .OP_NETKEY_DELETE, .OP_NETKEY_GET,
   .OP_NETKEY_LIST, .OP_NETKEY_STATUS, .OP_NETKEY_UPDATE,
   .OP_NODE_IDENTITY_GET, .OP_NODE_IDENTITY_SET, .OP_NODE_IDENTITY_STATUS,
   .OP_NODE_RESET, .OP_NODE_RESET_STATUS, .OP_MODEL_APP_GET,
   .OP_MODEL_APP_LIST, .OP_VEND_MODEL_APP_GET, .OP_VEND_MODEL_APP_LIST]

/-- The name of a numeric opcode, `OTHER` when it has none. -/
def opcode_of_value (v : Nat) : Opcode :=
  (all_opcodes.find? (fun o => opcode_value o == v)).getD .OTHER

/-- Modelled from the spec: the external opcode parser.  An opcode is one
byte (top bit clear), two bytes (top bits 10) or three bytes (top bits 11),
big-endian; 0x7f is reserved. -/
def sim_opcode_get (data : List Nat) : Option (Opcode × Nat) :=
  match data with
  | [] => none
  | b0 :: rest =>
    if b0 % 256 < 0x80 then
      if b0 % 256 = 0x7f then none else some (opcode_of_value (b0 % 256), 1)
    else if b0 % 256 < 0xc0 then
      match rest with
      | b1 :: _ => some (opcode_of_value (b0 % 256 * 256 + b1 % 256), 2)
      | [] => none
    else
      match rest with
      | b1 :: b2 :: _ =>
        some (opcode_of_value (b0 % 256 * 65536 + b1 % 256 * 256 + b2 % 256), 3)
      | _ => none

/-- Modelled from the spec: the external opcode writer. -/
def sim_opcode_set (op : Opcode) : List Nat :=
  let v := opcode_value op
  if v < 0x80 then [v]
  else if v < 0x10000 then [v / 256, v % 256]
  else [v / 65536, v / 256 % 256, v % 256]

/-- Modelled from the spec: the state of the reference collaborators. -/
structure Sim where
  /-- Node parameters. -/
  ttl : Nat
  relay : Nat × Nat × Nat
  transmit : Nat × Nat
  proxy : Nat
  beacon : Nat
  friend_mode : Nat
  comp : Nat → List Nat
  primary_idx : Nat
  now : Nat
  /-- Registry: status of looking up (element address, model identifier),
  0 when the model exists. -/
  find_model : Nat → Nat → Int
  /-- Registry and key stores: the verdict on a request to an existing model. -/
  reg_status : Call → Int
  /-- Registry: the 16-bit address a virtual label resolves to. -/
  virt_ota : List Nat → Nat
  /-- Registry: publication records, subscription lists and bindings. -/
  pubs : List ((Nat × Nat) × mesh_model_pub)
  subs : List ((Nat × Nat) × Nat)
  bindings : List ((Nat × Nat) × Nat)
  /-- Persistent store: whether it carries out a request. -/
  store_ok : Call → Bool
  /-- Persistent store: the records kept per (element, model, vendor flag). -/
  store_pubs : List ((Nat × Nat × Bool) × mesh_config_pub)
  store_subs : List ((Nat × Nat × Bool) × mesh_config_sub)
  /-- Network layer: answers of the key refresh and identity getters. -/
  phase : Nat → Int × Nat
  identity : Nat → Int × Nat
  friend_timeout : Nat → Nat

/-- The registry's verdict on a request about model (ele, id). -/
def Sim.verdict (s : Sim) (ele id : Nat) (c : Call) : Int :=
  if s.find_model ele id ≠ MESH_STATUS_SUCCESS then s.find_model ele id
  else s.reg_status c

/-- The on-air address of a publish or subscription address field. -/
def Sim.resolve (s : Sim) (addr : List Nat) (virt : Bool) : Nat :=
  if virt then s.virt_ota (addr.take 16) else l_get_le16 addr 0

/-- Modelled from the spec: the registry's publication setter.  An accepted
request with the unassigned address clears the model's publication, any
other accepted request creates or overwrites it; a rejected one changes
nothing. -/
def Sim.pub_set (s : Sim) (ele id : Nat) (pub_addr : List Nat) (idx : Nat)
    (cred : Bool) (ttl period retransmit : Nat) (virt : Bool) :
    Int × Option Nat × Sim :=
  let st := s.verdict ele id
    (.mesh_model_pub_set ele id pub_addr idx cred ttl period retransmit virt)
  if st ≠ MESH_STATUS_SUCCESS then (st, none, s)
  else if !virt && IS_UNASSIGNED (l_get_le16 pub_addr 0) then
    (MESH_STATUS_SUCCESS, none,
      { s with pubs := s.pubs.filter (fun e => e.1 != (ele, id)) })
  else
    let ota := s.resolve pub_addr virt
    (MESH_STATUS_SUCCESS, some ota,
      { s with pubs := ((ele, id), ⟨ota, idx, cred, ttl, period, retransmit⟩)
                  :: s.pubs.filter (fun e => e.1 != (ele, id)) })

/-- Modelled from the spec: the registry's publication getter. -/
def Sim.pub_get (s : Sim) (ele id : Nat) : Option mesh_model_pub × Int :=
  if s.find_model ele id ≠ MESH_STATUS_SUCCESS then (none, s.find_model ele id)
  else (s.pubs.lookup (ele, id), MESH_STATUS_SUCCESS)

/-- Modelled from the spec: the registry's subscription operations; `op` is
what an accepted request does to the model's list. -/
def Sim.sub_op (s : Sim) (ele id : Nat) (addr : List Nat) (virt : Bool)
    (c : Call) (op : Nat → List ((Nat × Nat) × Nat) → List ((Nat × Nat) × Nat)) :
    Int × Option Nat × Sim :=
  let st := s.verdict ele id c
  if st ≠ MESH_STATUS_SUCCESS then (st, none, s)
  else
    let grp := s.resolve addr virt
    (MESH_STATUS_SUCCESS, some grp, { s with subs := op grp s.subs })

/-- Modelled from the spec: a store request is carried out, or fails and
changes nothing. -/
def Sim.store (s : Sim) (c : Call) (s1 : Sim) : Bool × Sim :=
  if s.store_ok c then (true, s1) else (false, s)

/-- Modelled from the spec: the reference collaborators. -/
def sim : Collab Sim where
  mesh_model_opcode_get := sim_opcode_get
  mesh_model_opcode_set := sim_opcode_set
  node_get_comp := fun s page => s.comp page
  node_default_ttl_set := fun s ttl => { s with ttl := ttl }
  node_default_ttl_get := fun s => s.ttl
  node_relay_mode_set := fun s en cnt interval =>
    { s with relay := (if en then 1 else 0, cnt, interval) }
  node_relay_mode_get := fun s => s.relay
  node_proxy_mode_set := fun s en => { s with proxy := if en then 1 else 0 }
  node_proxy_mode_get := fun s => s.proxy
  node_beacon_mode_set := fun s en => { s with beacon := if en then 1 else 0 }
  node_beacon_mode_get := fun s => s.beacon
  node_friend_mode_set := fun s en => { s with friend_mode := if en then 1 else 0 }
  node_friend_mode_get := fun s => s.friend_mode
  mesh_config_write_net_transmit := fun s cnt interval =>
    s.store (.mesh_config_write_net_transmit cnt interval) s
  mesh_net_transmit_params_set := fun s cnt interval =>
    { s with transmit := (cnt, interval) }
  mesh_net_transmit_params_get := fun s => s.transmit
  mesh_net_get_identity_mode := fun s idx => s.identity idx
  mesh_net_key_refresh_phase_set := fun s idx ph =>
    (s.reg_status (.mesh_net_key_refresh_phase_set idx ph), s)
  mesh_net_key_refresh_phase_get := fun s idx => s.phase idx
  mesh_model_pub_get := Sim.pub_get
  mesh_model_pub_set := Sim.pub_set
  mesh_config_model_pub_del := fun s ele key vendor =>
    s.store (.mesh_config_model_pub_del ele key vendor)
      { s with store_pubs := s.store_pubs.filter (fun e => e.1 != (ele, key, vendor)) }
  mesh_config_model_pub_add := fun s ele key vendor pub =>
    s.store (.mesh_config_model_pub_add ele key vendor pub)
      { s with store_pubs := ((ele, key, vendor), pub)
                 :: s.store_pubs.filter (fun e => e.1 != (ele, key, vendor)) }
  mesh_model_sub_get := fun s ele id _ =>
    if s.find_model ele id ≠ MESH_STATUS_SUCCESS then (s.find_model ele id, [])
    else (MESH_STATUS_SUCCESS,
      ((s.subs.filter (fun e => e.1 == (ele, id))).map (fun e => l_put_le16 e.2)).flatten)
  mesh_model_sub_del_all := fun s ele id =>
    let st := s.verdict ele id (.mesh_model_sub_del_all ele id)
    if st ≠ MESH_STATUS_SUCCESS then (st, s)
    else (MESH_STATUS_SUCCESS,
      { s with subs := s.subs.filter (fun e => e.1 != (ele, id)) })
  mesh_model_sub_ovr := fun s ele id addr virt =>
    s.sub_op ele id addr virt (.mesh_model_sub_ovr ele id addr virt)
      (fun grp l => l.filter (fun e => e.1 != (ele, id)) ++ [((ele, id), grp)])
  mesh_model_sub_add := fun s ele id addr virt =>
    s.sub_op ele id addr virt (.mesh_model_sub_add ele id addr virt)
      (fun grp l => if l.contains ((ele, id), grp) then l else l ++ [((ele, id), grp)])
  mesh_model_sub_del := fun s ele id addr virt =>
    s.sub_op ele id addr virt (.mesh_model_sub_del ele id addr virt)
      (fun grp l => l.filter (fun e => e != ((ele, id), grp)))
  mesh_config_model_sub_del_all := fun s ele key vendor =>
    s.store (.mesh_config_model_sub_del_all ele key vendor)
      { s with store_subs := s.store_subs.filter (fun e => e.1 != (ele, key, vendor)) }
  mesh_config_model_sub_add := fun s ele key vendor sub =>
    s.store (.mesh_config_model_sub_add ele key vendor sub)
      { s with store_subs := s.store_subs ++ [((ele, key, vendor), sub)] }
  mesh_config_model_sub_del := fun s ele key vendor sub =>
    s.store (.mesh_config_model_sub_del ele key vendor sub)
      { s with store_subs := s.store_subs.filter (fun e => e != ((ele, key, vendor), sub)) }
  mesh_model_binding_add := fun s ele id idx =>
    let st := s.verdict ele id (.mesh_model_binding_add ele id idx)
    if st ≠ MESH_STATUS_SUCCESS then (st, s)
    else (MESH_STATUS_SUCCESS, { s with bindings := s.bindings ++ [((ele, id), idx)] })
  mesh_model_binding_del := fun s ele id idx =>
    let st := s.verdict ele id (.mesh_model_binding_del ele id idx)
    if st ≠ MESH_STATUS_SUCCESS then (st, s)
    else (MESH_STATUS_SUCCESS,
      { s with bindings := s.bindings.filter (fun e => e != ((ele, id), idx)) })
  mesh_model_get_bindings := fun s ele id _ => (s.find_model ele id, [])
  appkey_key_add := fun s n a key => (s.reg_status (.appkey_key_add n a key), s)
  appkey_key_update := fun s n a key => (s.reg_status (.appkey_key_update n a key), s)
  appkey_key_delete := fun s n a => (s.reg_status (.appkey_key_delete n a), s)
  appkey_list := fun _ _ _ => (MESH_STATUS_SUCCESS, [])
  mesh_net_add_key := fun s n key => (s.reg_status (.mesh_net_add_key n key), s)
  mesh_net_update_key := fun s n key => (s.reg_status (.mesh_net_update_key n key), s)
  mesh_net_del_key := fun s n => (s.reg_status (.mesh_net_del_key n), s)
  mesh_net_key_list_get := fun s _ => (true, l_put_le16 s.primary_idx)
  mesh_net_get_primary_idx := fun s => s.primary_idx
  mesh_net_friend_timeout := fun s addr => s.friend_timeout addr
  mesh_net_dst_reg := fun s _ => s
  mesh_net_dst_unreg := fun s _ => s
  mesh_net_heartbeat_send := fun s => s
  gettimeofday := fun s => s.now

/-- A reference state: default TTL 5, one SIG model 0x1000 and one vendor
model (company 0x05f1, model 0x0001) on element 0x0100, every request
accepted, a store that works. -/
def sim0 : Sim where
  ttl := 5
  relay := (0, 1, 10)
  transmit := (1, 10)
  proxy := 0
  beacon := 0
  friend_mode := 0
  comp := fun _ => []
  primary_idx := 0
  now := 0
  find_model := fun ele id =>
    if ele = 0x0100 ∧ (id = 0xffff1000 ∨ id = 0x05f10001) then 0 else 2
  reg_status := fun _ => 0
  virt_ota := fun _ => 0x8abc
  pubs := []
  subs := []
  bindings := []
  store_ok := fun _ => true
  store_pubs := []
  store_subs := []
  phase := fun _ => (0, 0)
  identity := fun _ => (0, 0)
  friend_timeout := fun _ => 0

/-- A heartbeat record with nothing configured. -/
def hb0 : mesh_net_heartbeat :=
  { pub_timer := none, sub_timer := none, sub_enabled := false, sub_period := 0,
    sub_start := 0, pub_period := 0, pub_dst := 0, pub_count := 0,
    pub_features := 0, pub_net_idx := 0, sub_src := 0, sub_dst := 0,
    sub_count := 0, pub_ttl := 0, sub_min_hops := 0, sub_max_hops := 0 }

/-- The world around a state of the reference collaborators, before any
dispatch. -/
def world_of (s : Sim) : World Sim :=
  { ext := s, hb := hb0, sent := [], calls := [], idle := 0 }

/-- Modelled from the spec: the node applies the default TTL it is given, so
reading it back returns that value. -/
def NodeKeepsTtl (C : Collab σ) : Prop :=
  ∀ e v, C.node_default_ttl_get (C.node_default_ttl_set e v) = v

/-- The reference state with SIG model 0x1000 of element 0x0100 subscribed to
group 0xC001, in the registry and in the store, and a store that fails every
request. -/
def sim_store_down : Sim :=
  { sim0 with
    store_ok := fun _ => false
    subs := [((0x0100, 0xffff1000), 0xC001)]
    store_subs := [((0x0100, 0x1000, false), ⟨false, .addr 0xC001⟩)] }

/-- The reference state with the vendor model (company 0x05f1, model 0x0001)
of element 0x0100 subscribed to group 0xC001, in the registry and in the
store. -/
def sim_vendor_sub : Sim :=
  { sim0 with
    subs := [((0x0100, 0x05f10001), 0xC001)]
    store_subs := [((0x0100, 0x05f10001, true), ⟨false, .addr 0xC001⟩)] }

/-- The records the store keeps for a model. -/
def Sim.persisted_subs (s : Sim) (ele key : Nat) (vendor : Bool) :
    List mesh_config_sub :=
  (s.store_subs.filter (fun e => e.1 == (ele, key, vendor))).map (fun e => e.2)

/-- The reference state with two groups persisted for SIG model 0x1000 of
element 0x0100. -/
def sim_two_subs : Sim :=
  { sim0 with
    subs := [((0x0100, 0xffff1000), 0xC001), ((0x0100, 0xffff1000), 0xC002)]
    store_subs := [((0x0100, 0x1000, false), ⟨false, .addr 0xC001⟩),
                   ((0x0100, 0x1000, false), ⟨false, .addr 0xC002⟩)] }

/-- The request fields that `config_pub_set` reads from its payload. -/
structure PubSetReq where
  ele : Nat
  id : Nat
  idx : Nat
  cred : Bool
  ttl : Nat
  period : Nat
  retransmit : Nat
  deriving DecidableEq, Repr

/-- The decoding done at the head of `config_pub_set`: with the virtual
variant the fields after the address sit 14 bytes further. -/
def pub_set_req (pkt : List Nat) (virt vendor : Bool) : PubSetReq :=
  let off := if virt then 14 else 0
  { ele := l_get_le16 pkt 0
    id := if !vendor then SET_ID SIG_VENDOR (l_get_le16 pkt (off + 9))
          else SET_ID (l_get_le16 pkt (off + 9)) (l_get_le16 pkt (off + 11))
    idx := l_get_le16 pkt (off + 4) &&& APP_IDX_MASK
    cred := (CREDFLAG_MASK &&& l_get_le16 pkt (off + 4)) != 0
    ttl := byteAt pkt (off + 6)
    period := byteAt pkt (off + 7)
    retransmit := byteAt pkt (off + 8) }

/-- The payload of the Model Publication Get that names the element and the
model of a Model Publication Set payload. -/
def pub_get_payload (pkt : List Nat) (virt vendor : Bool) : List Nat :=
  let off := if virt then 14 else 0
  [byteAt pkt 0, byteAt pkt 1, byteAt pkt (off + 9), byteAt pkt (off + 10)]
    ++ (if vendor then [byteAt pkt (off + 11), byteAt pkt (off + 12)] else [])

/-- The reference state with composition page 0 = 0A 0B 0C (and nothing on
other pages). -/
def sim_comp : Sim :=
  { sim0 with comp := fun page => if page = 0 then [0x0A, 0x0B, 0x0C] else [] }

/-- The reference world with heartbeat publication running: destination
0x0001, 3 heartbeats left, period 4 seconds, timer armed. -/
def world_pub_armed : World Sim :=
  { world_of sim0 with
    hb := { hb0 with pub_timer := some 4, pub_count := 3, pub_period := 4,
                     pub_dst := 0x0001 } }

/-- The publish timer firing `k` times in a row (each fire is one call of
`hb_pub_timeout_func` by the event loop). -/
def hb_pub_fires (C : Collab σ) : Nat → World σ → World σ
  | 0, w => w
  | k + 1, w => hb_pub_timeout_func C (hb_pub_fires C k w)

/-- A world with an active heartbeat subscription: source 0x0001, group
destination 0xC000, window of 8 seconds started at second 96 of a clock that
now reads 100, three heartbeats received with 1 to 4 hops. -/
def world_sub_active : World Sim :=
  { world_of { sim0 with now := 100 } with
    hb := { hb0 with sub_timer := some 8, sub_enabled := true, sub_period := 8,
                     sub_start := 96, sub_src := 0x0001, sub_dst := 0xC000,
                     sub_count := 3, sub_min_hops := 1, sub_max_hops := 4 } }

/-- The active subscription of `world_sub_active` with a window start that
lies ahead of the clock: the window starts at second 200 while the clock reads
100 (the clock was set back after the subscription began). -/
def world_sub_clock_behind : World Sim :=
  { world_sub_active with hb := { world_sub_active.hb with sub_start := 200 } }

/-- The state `hb_subscription_set` leaves right after enabling a subscription
(source 0x0001, group 0xC000, window of 8 seconds) at second 100: no heartbeat
counted, minimum hops 0xff, maximum hops 0. -/
def world_sub_fresh : World Sim :=
  { world_sub_active with
    hb := { world_sub_active.hb with sub_start := 100, sub_count := 0,
                                     sub_min_hops := 0xff, sub_max_hops := 0 } }

/-- A state of the reference collaborators in which net-key 0 is in key
refresh phase 2 and the setter answers with success. -/
def sim_phase2 : Sim := { sim0 with phase := fun _ => (0, 2) }

/-- A state of the reference collaborators in which the key refresh phase
cannot be read: the getter answers status 4 (invalid net-key). -/
def sim_phase_unreadable : Sim := { sim0 with phase := fun _ => (4, 1) }

/-! ## Observations on the responses -/

/-- The response opcodes whose payload starts with a status byte: the
messages the module builds with the status (or `b_res`) right after the
opcode header. -/
def has_status_byte : Opcode → Bool
  | .OP_CONFIG_MODEL_PUB_STATUS | .OP_CONFIG_MODEL_SUB_STATUS
  | .OP_CONFIG_MODEL_SUB_LIST | .OP_CONFIG_VEND_MODEL_SUB_LIST
  | .OP_MODEL_APP_STATUS | .OP_MODEL_APP_LIST | .OP_VEND_MODEL_APP_LIST
  | .OP_APPKEY_STATUS | .OP_APPKEY_LIST | .OP_NETKEY_STATUS
  | .OP_CONFIG_KEY_REFRESH_PHASE_STATUS | .OP_NODE_IDENTITY_STATUS
  | .OP_CONFIG_HEARTBEAT_PUB_STATUS | .OP_CONFIG_HEARTBEAT_SUB_STATUS => true
  | _ => false

/-- The status codes the module writes of its own accord wherever a response
carries a status: success (the initial value of `b_res` and `status`) and
storage-fail.  The two further codes, invalid-address and invalid-netkey, are
written by the Heartbeat Publication Set case only. -/
def local_status (c : Int) : Prop :=
  c = MESH_STATUS_SUCCESS ∨ c = MESH_STATUS_STORAGE_FAIL

/-- Every status code the collaborators return when called on the state `e`
(and, for the key refresh phase, when read back after the setter ran on `e`)
satisfies `P`. -/
structure StatusAt (C : Collab σ) (P : Int → Prop) (e : σ) : Prop where
  identity : ∀ i, P (C.mesh_net_get_identity_mode e i).1
  phase_set : ∀ i p, P (C.mesh_net_key_refresh_phase_set e i p).1
  phase_get : ∀ i, P (C.mesh_net_key_refresh_phase_get e i).1
  phase_back : ∀ i p j,
    P (C.mesh_net_key_refresh_phase_get (C.mesh_net_key_refresh_phase_set e i p).2 j).1
  pub_get : ∀ ele id, P (C.mesh_model_pub_get e ele id).2
  pub_set : ∀ ele id addr idx cred ttl period rt virt,
    P (C.mesh_model_pub_set e ele id addr idx cred ttl period rt virt).1
  sub_get : ∀ ele id n, P (C.mesh_model_sub_get e ele id n).1
  sub_del_all : ∀ ele id, P (C.mesh_model_sub_del_all e ele id).1
  sub_ovr : ∀ ele id addr virt, P (C.mesh_model_sub_ovr e ele id addr virt).1
  sub_add : ∀ ele id addr virt, P (C.mesh_model_sub_add e ele id addr virt).1
  sub_del : ∀ ele id addr virt, P (C.mesh_model_sub_del e ele id addr virt).1
  binding_add : ∀ ele id idx, P (C.mesh_model_binding_add e ele id idx).1
  binding_del : ∀ ele id idx, P (C.mesh_model_binding_del e ele id idx).1
  get_bindings : ∀ ele id n, P (C.mesh_model_get_bindings e ele id n).1
  key_add : ∀ n a k, P (C.appkey_key_add e n a k).1
  key_update : ∀ n a k, P (C.appkey_key_update e n a k).1
  key_delete : ∀ n a, P (C.appkey_key_delete e n a).1
  key_list : ∀ n m, P (C.appkey_list e n m).1
  net_add : ∀ n k, P (C.mesh_net_add_key e n k).1
  net_update : ∀ n k, P (C.mesh_net_update_key e n k).1
  net_del : ∀ n, P (C.mesh_net_del_key e n).1

/-- A response payload: an opcode header followed by the message's fields,
and, when the opcode is one with a status byte, a first field that is the
`uint8_t` of a code with the property `P` (the codes of a given origin) or
of success or storage-fail. -/
def StatusMsg (C : Collab σ) (P : Int → Prop) (msg : List Nat) : Prop :=
  ∃ op rest, msg = C.mesh_model_opcode_set op ++ rest ∧
    (has_status_byte op = true →
      ∃ c tail, rest = u8 c :: tail ∧ (P c ∨ local_status c))

/-- A message sent in answer to an inbound message from `src` to `dst` on
`net_idx`: addressed back, with the local device key and the default TTL. -/
def Reply (C : Collab σ) (P : Int → Prop) (src dst net_idx : Nat) (m : Sent) : Prop :=
  m.src = dst ∧ m.dst = src ∧ m.app_idx = APP_IDX_DEV_LOCAL ∧ m.net_idx = net_idx
    ∧ m.ttl = DEFAULT_TTL ∧ m.segmented = false ∧ StatusMsg C P m.msg

/-- What a handler may do to the sent list: nothing, or append one reply. -/
def Sends (C : Collab σ) (P : Int → Prop) (src dst net_idx : Nat)
    (w w1 : World σ) : Prop :=
  w1.sent = w.sent ∨ ∃ m, w1.sent = w.sent ++ [m] ∧ Reply C P src dst net_idx m

/-- What a case of the switch may leave: on `return`, the sent list as it
was; on `break`, either a payload for the common send with the sent list as
it was, or no payload after a handler that did its own send. -/
def OutcomeOk (C : Collab σ) (P : Int → Prop) (src dst net_idx : Nat)
    (w : World σ) : Outcome σ → Prop
  | .ret _ w1 => w1.sent = w.sent
  | .brk w1 msg =>
    (w1.sent = w.sent ∧ StatusMsg C P msg) ∨ (msg = [] ∧ Sends C P src dst net_idx w w1)

/-- The payload of an inbound message that the codec decodes as a Heartbeat
Publication Set, the one case that writes the invalid-address and the
invalid-netkey code itself. -/
def heartbeat_pub_set_payload (C : Collab σ) (data : List Nat) : Option (List Nat) :=
  match C.mesh_model_opcode_get data with
  | some (.OP_CONFIG_HEARTBEAT_PUB_SET, n) => some (data.drop n)
  | _ => none

/-- The status code `config_pub_get` receives: one call of
`mesh_model_pub_get` when the payload has 4 or 6 bytes, none otherwise. -/
def config_pub_get_returns (C : Collab σ) (e : σ) (pkt : List Nat) (size : Nat) :
    List Int :=
  if size = 4 then
    [(C.mesh_model_pub_get e (l_get_le16 pkt 0)
        (SET_ID SIG_VENDOR (l_get_le16 pkt 2))).2]
  else if size = 6 then
    [(C.mesh_model_pub_get e (l_get_le16 pkt 0)
        (SET_ID (l_get_le16 pkt 2) (l_get_le16 pkt 4))).2]
  else []

/-- The status code `config_pub_set` receives: one call of
`mesh_model_pub_set` with the decoded request, none when the message is
dropped for a virtual-looking address in the non-virtual variant. -/
def config_pub_set_returns (C : Collab σ) (e : σ) (pkt : List Nat)
    (virt vendor : Bool) : List Int :=
  if !virt && IS_VIRTUAL (l_get_le16 (pkt.drop 2) 0) then []
  else
    let q := pub_set_req pkt virt vendor
    [(C.mesh_model_pub_set e q.ele q.id (pkt.drop 2) q.idx q.cred q.ttl q.period
        q.retransmit virt).1]

/-- The status code `config_sub_get` receives: one call of
`mesh_model_sub_get` when the payload has 4 or 6 bytes, none otherwise. -/
def config_sub_get_returns (C : Collab σ) (e : σ) (pkt : List Nat) (size : Nat) :
    List Int :=
  if size = 4 then
    [(C.mesh_model_sub_get e (l_get_le16 pkt 0)
        (SET_ID SIG_VENDOR (l_get_le16 pkt 2)) (2 * MAX_GRP_PER_MOD)).1]
  else if size = 6 then
    [(C.mesh_model_sub_get e (l_get_le16 pkt 0)
        (SET_ID (l_get_le16 pkt 2) (l_get_le16 pkt 4)) (2 * MAX_GRP_PER_MOD)).1]
  else []

/-- The status code `config_sub_set` receives: one call of the registry
function chosen by the opcode (delete-all, overwrite, add or delete), none
when the first switch returns. -/
def config_sub_set_returns (C : Collab σ) (e : σ) (pkt : List Nat) (size : Nat)
    (virt : Bool) (opcode : Opcode) : List Int :=
  match config_sub_set_id pkt size virt opcode with
  | none => []
  | some (id, _) =>
    let ele_addr := l_get_le16 pkt 0
    let addr : List Nat :=
      if opcode ≠ .OP_CONFIG_MODEL_SUB_DELETE_ALL then pkt.drop 2 else []
    if opcode = .OP_CONFIG_MODEL_SUB_DELETE_ALL then
      [(C.mesh_model_sub_del_all e ele_addr id).1]
    else if opcode = .OP_CONFIG_MODEL_SUB_VIRT_OVERWRITE
        ∨ opcode = .OP_CONFIG_MODEL_SUB_OVERWRITE then
      [(C.mesh_model_sub_ovr e ele_addr id addr virt).1]
    else if opcode = .OP_CONFIG_MODEL_SUB_VIRT_ADD
        ∨ opcode = .OP_CONFIG_MODEL_SUB_ADD then
      [(C.mesh_model_sub_add e ele_addr id addr virt).1]
    else if opcode = .OP_CONFIG_MODEL_SUB_VIRT_DELETE
        ∨ opcode = .OP_CONFIG_MODEL_SUB_DELETE then
      [(C.mesh_model_sub_del e ele_addr id addr virt).1]
    else []

/-- The status code `model_app_list` receives: one call of
`mesh_model_get_bindings` when the payload has 4 or 6 bytes, none
otherwise. -/
def model_app_list_returns (C : Collab σ) (e : σ) (pkt : List Nat) (size : Nat) :
    List Int :=
  let ele_addr := l_get_le16 pkt 0
  if size = 4 then
    let op := C.mesh_model_opcode_set .OP_MODEL_APP_LIST
    let fields := l_put_le16 ele_addr ++ l_put_le16 (l_get_le16 pkt 2)
    [(C.mesh_model_get_bindings e ele_addr (SET_ID SIG_VENDOR (l_get_le16 pkt 2))
        (MAX_MSG_LEN - (op.length + 1 + fields.length))).1]
  else if size = 6 then
    let id := SET_ID (l_get_le16 pkt 2) (l_get_le16 pkt 4)
    let op := C.mesh_model_opcode_set .OP_VEND_MODEL_APP_LIST
    let fields := l_put_le16 ele_addr ++ l_put_le16 (VENDOR_ID id)
                    ++ l_put_le16 (MODEL_ID id)
    [(C.mesh_model_get_bindings e ele_addr id
        (MAX_MSG_LEN - (op.length + 1 + fields.length))).1]
  else []

/-- The status code `model_app_bind` receives: one call of
`mesh_model_binding_del` (unbind) or `mesh_model_binding_add` (bind) when the
payload has 6 or 8 bytes and the key index is at most 0xfff, none
otherwise. -/
def model_app_bind_returns (C : Collab σ) (e : σ) (pkt : List Nat) (size : Nat)
    (unbind : Bool) : List Int :=
  let oid : Option Nat :=
    if size = 6 then some (SET_ID SIG_VENDOR (l_get_le16 pkt 4))
    else if size = 8 then some (SET_ID (l_get_le16 pkt 4) (l_get_le16 pkt 6))
    else none
  match oid with
  | none => []
  | some id =>
    if l_get_le16 pkt 2 > 0xfff then []
    else if unbind then
      [(C.mesh_model_binding_del e (l_get_le16 pkt 0) id (l_get_le16 pkt 2)).1]
    else
      [(C.mesh_model_binding_add e (l_get_le16 pkt 0) id (l_get_le16 pkt 2)).1]

/-- The status code the case OP_NODE_IDENTITY_GET receives: one call of
`mesh_net_get_identity_mode` when the payload has at least 2 bytes and the
net-key index is at most 0xfff, none otherwise. -/
def node_identity_returns (C : Collab σ) (e : σ) (pkt : List Nat) (size : Nat) :
    List Int :=
  if size < 2 then []
  else if l_get_le16 pkt 0 > 0xfff then []
  else [(C.mesh_net_get_identity_mode e (l_get_le16 pkt 0)).1]

/-- The status code the case OP_CONFIG_KEY_REFRESH_PHASE_GET receives: one
call of `mesh_net_key_refresh_phase_get` when the size is 2, none
otherwise. -/
def key_refresh_phase_returns (C : Collab σ) (e : σ) (pkt : List Nat) (size : Nat) :
    List Int :=
  if size ≠ 2 then []
  else [(C.mesh_net_key_refresh_phase_get e (l_get_le16 pkt 0)).1]

/-- The status codes the collaborators return to one run of the switch of
`cfg_srv_pkt`: for each case, the result of every status-returning
collaborator call the case makes for this payload, with the arguments and on
the state it makes it (the key refresh getter after the setter runs on the
state the setter left).  Cases and payloads that call no such function give
the empty list. -/
def status_returns (C : Collab σ) (e : σ) (opcode : Opcode) (pkt : List Nat)
    (size : Nat) : List Int :=
  match opcode with
  | .OP_CONFIG_MODEL_PUB_VIRT_SET =>
    if size ≠ 25 ∧ size ≠ 27 then []
    else config_pub_set_returns C e pkt true (decide (size = 13) || decide (size = 27))
  | .OP_CONFIG_MODEL_PUB_SET =>
    if size ≠ 11 ∧ size ≠ 13 then []
    else config_pub_set_returns C e pkt false (decide (size = 13) || decide (size = 27))
  | .OP_CONFIG_MODEL_PUB_GET =>
    if size ≠ 4 ∧ size ≠ 6 then [] else config_pub_get_returns C e pkt size
  | .OP_CONFIG_VEND_MODEL_SUB_GET =>
    if size ≠ 6 then [] else config_sub_get_returns C e pkt size
  | .OP_CONFIG_MODEL_SUB_GET =>
    if size ≠ 4 then [] else config_sub_get_returns C e pkt size
  | .OP_CONFIG_MODEL_SUB_VIRT_OVERWRITE
  | .OP_CONFIG_MODEL_SUB_VIRT_DELETE
  | .OP_CONFIG_MODEL_SUB_VIRT_ADD =>
    config_sub_set_returns C e pkt size true opcode
  | .OP_CONFIG_MODEL_SUB_OVERWRITE
  | .OP_CONFIG_MODEL_SUB_DELETE
  | .OP_CONFIG_MODEL_SUB_ADD
  | .OP_CONFIG_MODEL_SUB_DELETE_ALL =>
    config_sub_set_returns C e pkt size false opcode
  | .OP_NODE_IDENTITY_SET =>
    if size ≠ 3 ∨ byteAt pkt 2 > 0x01 then []
    else if l_get_le16 pkt 0 > 0xfff then []
    else node_identity_returns C e pkt size
  | .OP_NODE_IDENTITY_GET => node_identity_returns C e pkt size
  | .OP_CONFIG_KEY_REFRESH_PHASE_SET =>
    if size ≠ 3 ∨ byteAt pkt 2 > 0x03 then []
    else
      let r := C.mesh_net_key_refresh_phase_set e (l_get_le16 pkt 0) (byteAt pkt 2)
      r.1 :: key_refresh_phase_returns C r.2 pkt 2
  | .OP_CONFIG_KEY_REFRESH_PHASE_GET => key_refresh_phase_returns C e pkt size
  | .OP_APPKEY_ADD =>
    if size ≠ 19 then []
    else [(C.appkey_key_add e (l_get_le16 pkt 0 &&& 0xfff) (l_get_le16 pkt 1 >>> 4)
            (pkt.drop 3)).1]
  | .OP_APPKEY_UPDATE =>
    if size ≠ 19 then []
    else [(C.appkey_key_update e (l_get_le16 pkt 0 &&& 0xfff) (l_get_le16 pkt 1 >>> 4)
            (pkt.drop 3)).1]
  | .OP_APPKEY_DELETE =>
    if size ≠ 3 then []
    else [(C.appkey_key_delete e (l_get_le16 pkt 0 &&& 0xfff)
            (l_get_le16 pkt 1 >>> 4)).1]
  | .OP_APPKEY_GET =>
    if size ≠ 2 then []
    else [(C.appkey_list e (l_get_le16 pkt 0)
            (MAX_MSG_LEN - (C.mesh_model_opcode_set .OP_APPKEY_LIST).length - 3)).1]
  | .OP_NETKEY_ADD =>
    if size ≠ 18 then [] else [(C.mesh_net_add_key e (l_get_le16 pkt 0) (pkt.drop 2)).1]
  | .OP_NETKEY_UPDATE =>
    if size ≠ 18 then []
    else [(C.mesh_net_update_key e (l_get_le16 pkt 0) (pkt.drop 2)).1]
  | .OP_NETKEY_DELETE =>
    if size ≠ 2 then [] else [(C.mesh_net_del_key e (l_get_le16 pkt 0)).1]
  | .OP_MODEL_APP_BIND | .OP_MODEL_APP_UNBIND =>
    model_app_bind_returns C e pkt size (decide (opcode ≠ .OP_MODEL_APP_BIND))
  | .OP_VEND_MODEL_APP_GET =>
    if size ≠ 6 then [] else model_app_list_returns C e pkt size
  | .OP_MODEL_APP_GET =>
    if size ≠ 4 then [] else model_app_list_returns C e pkt size
  | _ => []

/-- The status codes the collaborators return during one dispatch of
`cfg_srv_pkt`: those of the switch for the decoded opcode and payload, and
none when the message is not under the local device key or not decoded. -/
def dispatch_status_returns (C : Collab σ) (w : World σ) (app_idx : Nat)
    (data : List Nat) : List Int :=
  if app_idx ≠ APP_IDX_DEV_LOCAL then []
  else
    match C.mesh_model_opcode_get data with
    | none => []
    | some (opcode, n) => status_returns C w.ext opcode (data.drop n) (data.length - n)

/-- Modelled from the spec: the node stores the relay retransmit pair it is
given, so reading the relay mode back returns that count and interval. -/
def NodeKeepsRelay (C : Collab σ) : Prop :=
  ∀ e en count interval,
    (C.node_relay_mode_get (C.node_relay_mode_set e en count interval)).2
      = (count, interval)

/-- Modelled from the spec: the network layer stores the transmit parameters
it is given, so reading them back returns that count and interval. -/
def NetKeepsTransmit (C : Collab σ) : Prop :=
  ∀ e count interval,
    C.mesh_net_transmit_params_get (C.mesh_net_transmit_params_set e count interval)
      = (count, interval)

/-- The invariant of the heartbeat publish side: an armed publish timer
implies a remaining count other than 0 and a publish destination other than
the unassigned address. -/
def HbPubInv (hb : mesh_net_heartbeat) : Prop :=
  hb.pub_timer.isSome = true → hb.pub_count ≠ 0 ∧ hb.pub_dst ≠ UNASSIGNED_ADDRESS

/-! ## Lemmas on the dispatcher and on bytes -/

theorem cfg_srv_pkt_fst (C : Collab σ) (w : World σ) (src dst app_idx net_idx : Nat)
    (data : List Nat) (opcode : Opcode) (n : Nat)
    (happ : app_idx = APP_IDX_DEV_LOCAL)
    (hop : C.mesh_model_opcode_get data = some (opcode, n)) :
    (cfg_srv_pkt C w src dst app_idx net_idx data).1
      = (cfg_srv_switch C w src dst net_idx opcode (data.drop n)
          (data.length - n)).consumed := by
  unfold cfg_srv_pkt
  rw [if_neg (by simpa using happ), hop]
  dsimp only
  cases cfg_srv_switch C w src dst net_idx opcode (data.drop n) (data.length - n) with
  | ret b w1 => rfl
  | brk w1 msg => dsimp only [Outcome.consumed]; split <;> rfl

theorem cfg_srv_switch_consumed (C : Collab σ) (w : World σ) (src dst net_idx : Nat)
    (opcode : Opcode) (pkt : List Nat) (size : Nat) :
    (cfg_srv_switch C w src dst net_idx opcode pkt size).consumed
      = is_cfg_opcode opcode := by
  cases opcode <;>
    simp only [cfg_srv_switch, is_cfg_opcode, default_ttl_get, relay_get,
      network_transmit_get, proxy_get, node_identity_get, beacon_get, friend_get,
      key_refresh_phase_get, heartbeat_sub_get, heartbeat_pub_set] <;>
    (repeat (first | rfl | split))

theorem cfg_srv_switch_not_consumed (C : Collab σ) (w : World σ)
    (src dst net_idx : Nat) (opcode : Opcode) (pkt : List Nat) (size : Nat)
    (h : is_cfg_opcode opcode = false) :
    cfg_srv_switch C w src dst net_idx opcode pkt size = .ret false w := by
  cases opcode <;> first | rfl | exact absurd h (by decide)

theorem cfg_srv_pkt_not_consumed (C : Collab σ) (w : World σ)
    (src dst app_idx net_idx : Nat) (data : List Nat)
    (h : (cfg_srv_pkt C w src dst app_idx net_idx data).1 = false) :
    (cfg_srv_pkt C w src dst app_idx net_idx data).2 = w := by
  unfold cfg_srv_pkt at h ⊢
  split
  · rfl
  · rename_i happ
    split
    · rfl
    · rename_i opcode n hop
      rw [if_neg happ, hop] at h
      by_cases hk : is_cfg_opcode opcode = false
      · dsimp only
        rw [cfg_srv_switch_not_consumed C w src dst net_idx opcode _ _ hk]
      · have hc := cfg_srv_switch_consumed C w src dst net_idx opcode
          (data.drop n) (data.length - n)
        rw [Bool.not_eq_false] at hk
        rw [hk] at hc
        dsimp only at h ⊢
        cases hsw : cfg_srv_switch C w src dst net_idx opcode (data.drop n)
            (data.length - n) with
        | ret b w1 =>
          rw [hsw] at h hc
          simp only [Outcome.consumed] at hc
          simp only at h
          rw [hc] at h
          exact absurd h (by decide)
        | brk w1 msg =>
          rw [hsw] at h
          dsimp only at h
          split at h <;> simp at h

theorem cfg_srv_pkt_eq (C : Collab σ) (w : World σ) (src dst net_idx : Nat)
    (data : List Nat) (opcode : Opcode) (n : Nat)
    (hop : C.mesh_model_opcode_get data = some (opcode, n)) :
    cfg_srv_pkt C w src dst APP_IDX_DEV_LOCAL net_idx data =
      match cfg_srv_switch C w src dst net_idx opcode (data.drop n)
          (data.length - n) with
      | .ret b w1 => (b, w1)
      | .brk w1 msg =>
        if msg.length ≠ 0 then
          (true, mesh_model_send w1 dst src APP_IDX_DEV_LOCAL net_idx
                   DEFAULT_TTL false msg)
        else (true, w1) := by
  unfold cfg_srv_pkt
  rw [if_neg (by simp), hop]

theorem byteAt_mod (pkt : List Nat) (i : Nat) : byteAt pkt i % 256 = byteAt pkt i := by
  unfold byteAt; exact Nat.mod_mod _ _

theorem byteAt_lt (pkt : List Nat) (i : Nat) : byteAt pkt i < 256 := by
  unfold byteAt; exact Nat.mod_lt _ (by decide)

theorem byteAt_drop (pkt : List Nat) (k i : Nat) :
    byteAt (pkt.drop k) i = byteAt pkt (k + i) := by
  simp [byteAt, List.getD_eq_getElem?_getD, List.getElem?_drop]

theorem l_get_le16_drop (pkt : List Nat) (k i : Nat) :
    l_get_le16 (pkt.drop k) i = l_get_le16 pkt (k + i) := by
  simp [l_get_le16, byteAt_drop, Nat.add_assoc]

theorem l_get_le16_lt (pkt : List Nat) (i : Nat) : l_get_le16 pkt i < 65536 := by
  have h0 := byteAt_lt pkt i
  have h1 := byteAt_lt pkt (i + 1)
  unfold l_get_le16
  omega

theorem l_put_get_le16 (pkt : List Nat) (i : Nat) :
    l_put_le16 (l_get_le16 pkt i) = [byteAt pkt i, byteAt pkt (i + 1)] := by
  have h0 := byteAt_lt pkt i
  have h1 := byteAt_lt pkt (i + 1)
  unfold l_put_le16 l_get_le16
  congr 1
  · omega
  · congr 1; omega

theorem SET_ID_eq (c m : Nat) (hc : c < 65536) (hm : m < 65536) :
    SET_ID c m = c * 65536 + m := by
  unfold SET_ID
  rw [Nat.mod_eq_of_lt (by omega)]
  have := Nat.mul_add_lt_is_or (i := 16) (b := m) (by simpa using hm) c
  simp only [Nat.reducePow] at this
  rw [Nat.mul_comm c 65536, this]

theorem put_model_id_sig (m : Nat) (hm : m < 65536) :
    put_model_id (SET_ID SIG_VENDOR m) = l_put_le16 m := by
  rw [SET_ID_eq _ _ (by decide) hm]
  have hv : IS_VENDOR (SIG_VENDOR * 65536 + m) = false := by
    simp only [IS_VENDOR, SIG_VENDOR, decide_eq_false_iff_not]; omega
  have hmod : MODEL_ID (SIG_VENDOR * 65536 + m) = m := by
    unfold MODEL_ID
    rw [show (0xffff : Nat) = 2 ^ 16 - 1 from rfl, Nat.and_pow_two_sub_one_eq_mod]
    simp only [SIG_VENDOR]; omega
  simp [put_model_id, hv, hmod]

theorem put_model_id_vendor (c m : Nat) (hc : c < 65535) (hm : m < 65536) :
    put_model_id (SET_ID c m) = l_put_le16 c ++ l_put_le16 m := by
  rw [SET_ID_eq _ _ (by omega) hm]
  have hv : IS_VENDOR (c * 65536 + m) = true := by
    simp only [IS_VENDOR, decide_eq_true_eq]; omega
  have hmod : MODEL_ID (c * 65536 + m) = m := by
    unfold MODEL_ID
    rw [show (0xffff : Nat) = 2 ^ 16 - 1 from rfl, Nat.and_pow_two_sub_one_eq_mod]
    omega
  have hven : VENDOR_ID (c * 65536 + m) = c := by
    unfold VENDOR_ID
    rw [Nat.shiftRight_eq_div_pow]
    simp only [Nat.reducePow]; omega
  simp [put_model_id, hv, hmod, hven]

theorem filter_ne_filter_eq {α β : Type} [BEq α] [LawfulBEq α] (l : List (α × β)) (k : α) :
    (l.filter (fun e => e.1 != k)).filter (fun e => e.1 == k) = [] := by
  rw [List.filter_filter, List.filter_eq_nil_iff]
  intro a _
  cases h : a.1 == k <;> simp [bne, h]

theorem sent_status_cases {α : Type} (b : Bool) (f : Nat → α) (l : List α) :
    l ++ [f (if b = true then 0 else 9)] = l ++ [f 0]
      ∨ l ++ [f (if b = true then 0 else 9)] = l ++ [f 9] := by
  cases b <;> simp

/-! ## Lemmas on the handlers -/

theorem config_pub_set_real (C : Collab σ) (w : World σ) (net_idx src dst : Nat)
    (pkt : List Nat) (virt vendor : Bool)
    (hnv : (!virt && IS_VIRTUAL (l_get_le16 pkt 2)) = false)
    (hnu : (IS_UNASSIGNED (l_get_le16 pkt 2) && !virt) = false)
    (hacc : (C.mesh_model_pub_set w.ext (pub_set_req pkt virt vendor).ele
              (pub_set_req pkt virt vendor).id (pkt.drop 2)
              (pub_set_req pkt virt vendor).idx (pub_set_req pkt virt vendor).cred
              (pub_set_req pkt virt vendor).ttl (pub_set_req pkt virt vendor).period
              (pub_set_req pkt virt vendor).retransmit virt).1 = MESH_STATUS_SUCCESS) :
    config_pub_set C w net_idx src dst pkt virt vendor =
      (let q := pub_set_req pkt virt vendor
       let reg := C.mesh_model_pub_set w.ext q.ele q.id (pkt.drop 2) q.idx q.cred
                    q.ttl q.period q.retransmit virt
       let ota := reg.2.1.getD UNASSIGNED_ADDRESS
       let db_pub : mesh_config_pub :=
         { virt := virt, addr := ota, idx := q.idx, ttl := q.ttl,
           credential := q.cred, period := q.period,
           count := q.retransmit &&& 0x7,
           interval := ((q.retransmit >>> 3) + 1) * 50,
           virt_addr := if virt then (pkt.drop 2).take 16 else [] }
       let key := if vendor then q.id else MODEL_ID q.id
       let w1 := w.step (.mesh_model_pub_set q.ele q.id (pkt.drop 2) q.idx q.cred
                   q.ttl q.period q.retransmit virt) reg.2.2
       let a := C.mesh_config_model_pub_add w1.ext q.ele key vendor db_pub
       let w2 := w1.step (.mesh_config_model_pub_add q.ele key vendor db_pub) a.2
       send_pub_status C w2 net_idx src dst (if a.1 then 0 else 9) q.ele q.id ota
         q.idx q.cred q.ttl q.period q.retransmit) := by
  unfold config_pub_set
  simp only [pub_set_req] at hacc ⊢
  simp only [l_get_le16_drop, Nat.add_zero, hnv, hnu, Bool.false_eq_true, if_false, hacc,
    ne_eq, not_true_eq_false]
  cases h : (C.mesh_config_model_pub_add _ _ _ _ _).1 <;> simp [h] <;> rfl

theorem pub_get_payload_decode (pkt : List Nat) (virt vendor : Bool) :
    l_get_le16 (pub_get_payload pkt virt vendor) 0 = (pub_set_req pkt virt vendor).ele
    ∧ (vendor = false →
        (pub_get_payload pkt virt vendor).length = 4 ∧
        SET_ID SIG_VENDOR (l_get_le16 (pub_get_payload pkt virt vendor) 2)
          = (pub_set_req pkt virt vendor).id)
    ∧ (vendor = true →
        (pub_get_payload pkt virt vendor).length = 6 ∧
        SET_ID (l_get_le16 (pub_get_payload pkt virt vendor) 2)
            (l_get_le16 (pub_get_payload pkt virt vendor) 4)
          = (pub_set_req pkt virt vendor).id) := by
  refine ⟨?_, ?_, ?_⟩
  · simp [pub_get_payload, pub_set_req, l_get_le16, byteAt]
  · intro h; subst h
    cases virt <;> simp [pub_get_payload, pub_set_req, l_get_le16, byteAt]
  · intro h; subst h
    cases virt <;> simp [pub_get_payload, pub_set_req, l_get_le16, byteAt]

theorem config_pub_get_of_payload (C : Collab σ) (w : World σ) (net_idx src dst : Nat)
    (pkt : List Nat) (virt vendor : Bool) :
    config_pub_get C w net_idx src dst (pub_get_payload pkt virt vendor)
        (pub_get_payload pkt virt vendor).length =
      (let q := pub_set_req pkt virt vendor
       let r := C.mesh_model_pub_get w.ext q.ele q.id
       match r.1 with
       | some pub =>
         if r.2 = MESH_STATUS_SUCCESS then
           send_pub_status C w net_idx src dst (u8 r.2) q.ele q.id pub.addr
             pub.idx pub.credential pub.ttl pub.period pub.retransmit
         else
           send_pub_status C w net_idx src dst (u8 r.2) q.ele q.id 0 0 false 0 0 0
       | none =>
         send_pub_status C w net_idx src dst (u8 r.2) q.ele q.id 0 0 false 0 0 0) := by
  obtain ⟨he, hs, hv⟩ := pub_get_payload_decode pkt virt vendor
  unfold config_pub_get
  cases vendor with
  | false =>
    obtain ⟨hl, hid⟩ := hs rfl
    simp only [hl, if_true, he, hid]
  | true =>
    obtain ⟨hl, hid⟩ := hv rfl
    simp only [hl, he, hid]
    rfl

theorem config_sub_set_overwrite (C : Collab σ) (w : World σ)
    (net_idx src dst : Nat) (pkt : List Nat) (virt : Bool) (opcode : Opcode)
    (id : Nat) (vendor : Bool)
    (hopc : opcode = .OP_CONFIG_MODEL_SUB_OVERWRITE
              ∨ opcode = .OP_CONFIG_MODEL_SUB_VIRT_OVERWRITE)
    (hid : config_sub_set_id pkt pkt.length virt opcode = some (id, vendor))
    (hacc : (C.mesh_model_sub_ovr w.ext (l_get_le16 pkt 0) id (pkt.drop 2) virt).1
              = MESH_STATUS_SUCCESS) :
    config_sub_set C w net_idx src dst pkt pkt.length virt opcode =
      (let ele := l_get_le16 pkt 0
       let r := C.mesh_model_sub_ovr w.ext ele id (pkt.drop 2) virt
       let grp := r.2.1.getD (if opcode = .OP_CONFIG_MODEL_SUB_VIRT_OVERWRITE
                              then UNASSIGNED_ADDRESS else l_get_le16 pkt 2)
       let key := if vendor then id else MODEL_ID id
       let db_sub : mesh_config_sub :=
         ⟨virt, if virt then .virt_addr ((pkt.drop 2).take 16) else .addr grp⟩
       let w1 := w.step (.mesh_model_sub_ovr ele id (pkt.drop 2) virt) r.2.2
       let w2 := w1.step (.mesh_config_model_sub_del_all ele key vendor)
                   (C.mesh_config_model_sub_del_all w1.ext ele key vendor).2
       let w3 := w2.step (.mesh_config_model_sub_add ele key vendor db_sub)
                   (C.mesh_config_model_sub_add w2.ext ele key vendor db_sub).2
       send_sub_status C w3 net_idx src dst 0 ele grp id) := by
  have hne : opcode ≠ .OP_CONFIG_MODEL_SUB_DELETE_ALL := by
    rcases hopc with h | h <;> subst h <;> decide
  have hor : opcode = .OP_CONFIG_MODEL_SUB_VIRT_OVERWRITE
      ∨ opcode = .OP_CONFIG_MODEL_SUB_OVERWRITE := hopc.symm
  have hnd : opcode ≠ .OP_CONFIG_MODEL_SUB_VIRT_DELETE
      ∧ opcode ≠ .OP_CONFIG_MODEL_SUB_DELETE := by
    rcases hopc with h | h <;> subst h <;> decide
  unfold config_sub_set
  rw [hid]
  simp only [if_pos hne, if_neg hne, if_pos hor, hacc, if_true, save_config_sub,
    if_pos hnd, l_get_le16_drop, Nat.add_zero]
  rfl

theorem sim_pub_get_store (s s1 : Sim) (c : Call) (ele id : Nat)
    (h1 : s1.pubs = s.pubs) (h2 : s1.find_model = s.find_model) :
    Sim.pub_get (s.store c s1).2 ele id = Sim.pub_get s ele id := by
  unfold Sim.store
  split <;> simp [Sim.pub_get, h1, h2]

theorem sim_verdict_find (s : Sim) (ele id : Nat) (c : Call)
    (h : s.verdict ele id c = MESH_STATUS_SUCCESS) :
    s.find_model ele id = MESH_STATUS_SUCCESS := by
  unfold Sim.verdict at h
  by_cases hf : s.find_model ele id ≠ MESH_STATUS_SUCCESS
  · rw [if_pos hf] at h; exact absurd h hf
  · exact not_not.mp hf

theorem save_config_sub_calls (C : Collab σ) (w : World σ) (ele id : Nat)
    (vendor : Bool) (addr : List Nat) (virt : Bool) (grp : Nat) (opcode : Opcode) :
    ∃ rest, (save_config_sub C w ele id vendor addr virt grp opcode).2.calls
      = w.calls ++ rest := by
  unfold save_config_sub
  dsimp only
  split <;> split <;> simp [World.step]

/-- The period byte of a Heartbeat Subscription Status when the stored period
is 0: it is 0 when the clock is not behind the window start, and otherwise the
log of the number of seconds (as `uint32_t`) by which the clock is behind. -/
theorem sub_period_byte_zero (now start : Nat) :
    uint32_to_log ((if ((now : Int) - (start : Int)) ≥ ((0 : Nat) : Int) then (0 : Int)
        else ((0 : Nat) : Int) - ((now : Int) - (start : Int))) % 4294967296).toNat % 256
      = if start ≤ now then 0
        else uint32_to_log ((start - now) % 4294967296) % 256 := by
  by_cases h : start ≤ now
  · have h1 : ((now : Int) - (start : Int)) ≥ ((0 : Nat) : Int) := by omega
    rw [if_pos h1, if_pos h]; decide
  · have h1 : ¬ ((now : Int) - (start : Int)) ≥ ((0 : Nat) : Int) := by omega
    rw [if_neg h1, if_neg h]
    have h2 : ((((0 : Nat) : Int) - ((now : Int) - (start : Int))) % 4294967296).toNat
        = (start - now) % 4294967296 := by omega
    rw [h2]

/-! ## C1: consumed or not consumed -/

/-- C1: `cfg_srv_pkt` reports "consumed" exactly when the app-key index is
the local device-key index, the codec extracts an opcode and that opcode is a
case label of the switch, whatever the payload; and whenever it reports "not
consumed" nothing was sent and nothing else changed. -/
theorem cfg_srv_pkt_consumed_iff (C : Collab σ) (w : World σ)
    (src dst app_idx net_idx : Nat) (data : List Nat) :
    ((cfg_srv_pkt C w src dst app_idx net_idx data).1 = true ↔
        (app_idx = APP_IDX_DEV_LOCAL ∧
          ∃ opcode n, C.mesh_model_opcode_get data = some (opcode, n) ∧
            is_cfg_opcode opcode = true))
    ∧ ((cfg_srv_pkt C w src dst app_idx net_idx data).1 = false →
        (cfg_srv_pkt C w src dst app_idx net_idx data).2.sent = w.sent ∧
        (cfg_srv_pkt C w src dst app_idx net_idx data).2 = w) := by
  refine ⟨?_, fun h => ?_⟩
  · by_cases happ : app_idx = APP_IDX_DEV_LOCAL
    · cases hop : C.mesh_model_opcode_get data with
      | none =>
        have : (cfg_srv_pkt C w src dst app_idx net_idx data).1 = false := by
          unfold cfg_srv_pkt
          rw [if_neg (by simpa using happ), hop]
        rw [this]
        simp
      | some p =>
        obtain ⟨opcode, n⟩ := p
        rw [cfg_srv_pkt_fst C w src dst app_idx net_idx data opcode n happ hop,
          cfg_srv_switch_consumed]
        constructor
        · intro h
          exact ⟨happ, opcode, n, rfl, h⟩
        · rintro ⟨_, op2, n2, h2, h3⟩
          cases h2
          exact h3
    · have : (cfg_srv_pkt C w src dst app_idx net_idx data).1 = false := by
        unfold cfg_srv_pkt
        rw [if_pos happ]
      rw [this]
      simp [happ]
  · have := cfg_srv_pkt_not_consumed C w src dst app_idx net_idx data h
    exact ⟨by rw [this], this⟩

/-- Witness for C1 on the reference collaborators: a Default TTL Set with a
two-byte payload is consumed (and dropped); an inbound AppKey Status, which
is no case label, is not consumed and leaves the world unchanged. -/
theorem cfg_srv_pkt_consumed_iff_witness :
    (cfg_srv_pkt sim (world_of sim0) 1 2 APP_IDX_DEV_LOCAL 0 [0x80, 0x0D, 0x20, 0x00]).1 = true
    ∧ (cfg_srv_pkt sim (world_of sim0) 1 2 APP_IDX_DEV_LOCAL 0 [0x80, 0x03, 0x00]).1 = false
    ∧ (cfg_srv_pkt sim (world_of sim0) 1 2 APP_IDX_DEV_LOCAL 0 [0x80, 0x03, 0x00]).2
        = world_of sim0 :=
  ⟨(cfg_srv_pkt_consumed_iff sim (world_of sim0) 1 2 APP_IDX_DEV_LOCAL 0
      [0x80, 0x0D, 0x20, 0x00]).1.2 ⟨rfl, .OP_CONFIG_DEFAULT_TTL_SET, 2, by decide, by decide⟩,
   by decide,
   ((cfg_srv_pkt_consumed_iff sim (world_of sim0) 1 2 APP_IDX_DEV_LOCAL 0
      [0x80, 0x03, 0x00]).2 (by decide)).2⟩

/-! ## C2: Default TTL Set -/

/-- C2: a Default TTL Set is applied exactly when its payload is one byte
with value 0 or 2..127.  Then the node's setter is called with that value,
the status response carries it, and so does the response to a Default TTL
Get that follows (on a node that keeps the TTL it is given).  For value 1, a
value above 127 or another payload length nothing changes and nothing is
sent, the message still being consumed. -/
theorem default_ttl_set_iff (C : Collab σ) (hnode : NodeKeepsTtl C)
    (w : World σ) (src dst net_idx : Nat) (data get_data : List Nat) (n m : Nat)
    (hset : C.mesh_model_opcode_get data = some (.OP_CONFIG_DEFAULT_TTL_SET, n))
    (hget : C.mesh_model_opcode_get get_data = some (.OP_CONFIG_DEFAULT_TTL_GET, m))
    (hm : get_data.length - m = 0) :
    let pkt := data.drop n
    let v := byteAt pkt 0
    let r := cfg_srv_pkt C w src dst APP_IDX_DEV_LOCAL net_idx data
    let status : Sent :=
      ⟨dst, src, APP_IDX_DEV_LOCAL, net_idx, DEFAULT_TTL, false,
        C.mesh_model_opcode_set .OP_CONFIG_DEFAULT_TTL_STATUS ++ [v]⟩
    ((pkt.length = 1 ∧ (v = 0 ∨ (2 ≤ v ∧ v ≤ 127))) →
        r.1 = true ∧
        r.2.calls = w.calls ++ [.node_default_ttl_set v] ∧
        r.2.ext = C.node_default_ttl_set w.ext v ∧
        C.node_default_ttl_get r.2.ext = v ∧
        r.2.sent = w.sent ++ [status] ∧
        (cfg_srv_pkt C r.2 src dst APP_IDX_DEV_LOCAL net_idx get_data).2.sent
          = r.2.sent ++ [status])
    ∧ (¬ (pkt.length = 1 ∧ (v = 0 ∨ (2 ≤ v ∧ v ≤ 127))) → r = (true, w)) := by
  intro pkt v r status
  have hlen : data.length - n = pkt.length := by simp [pkt]
  have hr : r = _ := cfg_srv_pkt_eq C w src dst net_idx data _ n hset
  rw [hlen] at hr
  have hv : v < 256 := byteAt_lt _ _
  constructor
  · rintro ⟨h1, h2⟩
    have hc : ¬ (pkt.length ≠ 1 ∨ byteAt pkt 0 > TTL_MASK ∨ byteAt pkt 0 = 1) := by
      simp only [TTL_MASK]; change ¬ (pkt.length ≠ 1 ∨ v > 127 ∨ v = 1); omega
    have hle : byteAt pkt 0 ≤ TTL_MASK := by
      simp only [TTL_MASK]; change v ≤ 127; omega
    have hvm : v % 256 = v := Nat.mod_eq_of_lt hv
    simp only [cfg_srv_switch, if_neg hc, if_pos hle, default_ttl_get] at hr
    simp only [reduceCtorEq, false_and, if_false] at hr
    rw [if_pos (by simp)] at hr
    have hg := cfg_srv_pkt_eq C r.2 src dst net_idx get_data _ m hget
    rw [hm] at hg
    simp only [cfg_srv_switch, default_ttl_get] at hg
    simp only [ne_eq, not_true_eq_false, and_false, if_false] at hg
    rw [if_pos (by simp)] at hg
    rw [hg, hr]
    simp [mesh_model_send, World.step, hnode w.ext (byteAt pkt 0), status, v, byteAt_mod]
  · intro h
    have hc : (pkt.length ≠ 1 ∨ byteAt pkt 0 > TTL_MASK ∨ byteAt pkt 0 = 1) := by
      simp only [TTL_MASK]; change (pkt.length ≠ 1 ∨ v > 127 ∨ v = 1); omega
    simp only [cfg_srv_switch, if_pos hc] at hr
    exact hr

/-- Witness for C2 on the reference node: Default TTL Set 0x20 is answered
with 0x20 and so is the Get that follows; Default TTL Set 1 changes nothing
and is not answered. -/
theorem default_ttl_set_iff_witness :
    ((cfg_srv_pkt sim (world_of sim0) 1 2 APP_IDX_DEV_LOCAL 0 [0x80, 0x0D, 0x20]).2.sent
        = [⟨2, 1, 0x7fff, 0, 0xff, false, [0x80, 0x0E, 0x20]⟩])
    ∧ ((cfg_srv_pkt sim
          (cfg_srv_pkt sim (world_of sim0) 1 2 APP_IDX_DEV_LOCAL 0 [0x80, 0x0D, 0x20]).2
          1 2 APP_IDX_DEV_LOCAL 0 [0x80, 0x0C]).2.sent
        = [⟨2, 1, 0x7fff, 0, 0xff, false, [0x80, 0x0E, 0x20]⟩,
           ⟨2, 1, 0x7fff, 0, 0xff, false, [0x80, 0x0E, 0x20]⟩])
    ∧ (cfg_srv_pkt sim (world_of sim0) 1 2 APP_IDX_DEV_LOCAL 0 [0x80, 0x0D, 0x01]
        = (true, world_of sim0)) := by
  have h1 := default_ttl_set_iff sim (fun _ _ => rfl) (world_of sim0) 1 2 0
    [0x80, 0x0D, 0x20] [0x80, 0x0C] 2 2 (by decide) (by decide) (by decide)
  have h2 := default_ttl_set_iff sim (fun _ _ => rfl) (world_of sim0) 1 2 0
    [0x80, 0x0D, 0x01] [0x80, 0x0C] 2 2 (by decide) (by decide) (by decide)
  have h3 := h1.1 (by decide)
  refine ⟨h3.2.2.2.2.1, ?_, h2.2 (by decide)⟩
  rw [h3.2.2.2.2.2, h3.2.2.2.2.1]
  rfl

/-! ## C3: Publication Get after Set -/

/-- C3, counterexample: on the reference collaborators a Model Publication
Set for SIG model 0x1000 on element 0x0100 with index 5, the credential
flag, TTL 7, period 9, retransmit 0x0b and the unassigned publish address is
answered with status success; the Model Publication Get that follows is
answered with index, flag, TTL, period and retransmit all 0, not with the
values of the request. -/
theorem pub_get_after_unassigned_set :
    (cfg_srv_pkt sim (world_of sim0) 1 2 APP_IDX_DEV_LOCAL 0
        [0x03, 0x00, 0x01, 0x00, 0x00, 0x05, 0x10, 7, 9, 0x0b, 0x00, 0x10]).2.sent
      = [⟨2, 1, 0x7fff, 0, 0xff, false,
          [0x80, 0x19, 0x00, 0x00, 0x01, 0, 0, 0x00, 0x10, 0, 0, 0x0b, 0x00, 0x10]⟩]
    ∧ (cfg_srv_pkt sim
        (cfg_srv_pkt sim (world_of sim0) 1 2 APP_IDX_DEV_LOCAL 0
          [0x03, 0x00, 0x01, 0x00, 0x00, 0x05, 0x10, 7, 9, 0x0b, 0x00, 0x10]).2
        1 2 APP_IDX_DEV_LOCAL 0 [0x80, 0x18, 0x00, 0x01, 0x00, 0x10]).2.sent.getLast?
      = some ⟨2, 1, 0x7fff, 0, 0xff, false,
          [0x80, 0x19, 0x00, 0x00, 0x01, 0, 0, 0, 0, 0, 0, 0, 0x00, 0x10]⟩
    ∧ pub_status_body 0 0x0100 0xffff1000 0 0 false 0 0 0
        ≠ pub_status_body 0 0x0100 0xffff1000 0 5 true 7 9 0x0b := by
  refine ⟨?_, ?_, ?_⟩ <;> decide

theorem pub_get_after_set_aux (w : World Sim) (net_idx src dst : Nat)
    (pkt : List Nat) (virt vendor : Bool) (q : PubSetReq) (ota : Nat)
    (hq : pub_set_req pkt virt vendor = q)
    (hota : w.ext.resolve (pkt.drop 2) virt = ota)
    (hnv : (!virt && IS_VIRTUAL (l_get_le16 pkt 2)) = false)
    (hnu : (IS_UNASSIGNED (l_get_le16 pkt 2) && !virt) = false)
    (hacc : w.ext.verdict q.ele q.id (.mesh_model_pub_set q.ele q.id (pkt.drop 2)
        q.idx q.cred q.ttl q.period q.retransmit virt) = MESH_STATUS_SUCCESS) :
    ((config_pub_set sim w net_idx src dst pkt virt vendor).sent = w.sent ++
        [⟨dst, src, APP_IDX_DEV_LOCAL, net_idx, DEFAULT_TTL, false,
          sim_opcode_set .OP_CONFIG_MODEL_PUB_STATUS ++
            pub_status_body 0 q.ele q.id ota q.idx q.cred q.ttl q.period q.retransmit⟩]
      ∨ (config_pub_set sim w net_idx src dst pkt virt vendor).sent = w.sent ++
        [⟨dst, src, APP_IDX_DEV_LOCAL, net_idx, DEFAULT_TTL, false,
          sim_opcode_set .OP_CONFIG_MODEL_PUB_STATUS ++
            pub_status_body 9 q.ele q.id ota q.idx q.cred q.ttl q.period q.retransmit⟩])
    ∧ (config_pub_get sim (config_pub_set sim w net_idx src dst pkt virt vendor)
        net_idx src dst (pub_get_payload pkt virt vendor)
        (pub_get_payload pkt virt vendor).length).sent
      = (config_pub_set sim w net_idx src dst pkt virt vendor).sent ++
        [⟨dst, src, APP_IDX_DEV_LOCAL, net_idx, DEFAULT_TTL, false,
          sim_opcode_set .OP_CONFIG_MODEL_PUB_STATUS ++
            pub_status_body 0 q.ele q.id ota q.idx q.cred q.ttl q.period q.retransmit⟩] := by
  have hnu2 : (!virt && IS_UNASSIGNED (l_get_le16 (pkt.drop 2) 0)) = false := by
    rw [l_get_le16_drop, Bool.and_comm]; exact hnu
  have hsim : sim.mesh_model_pub_set w.ext q.ele q.id (pkt.drop 2) q.idx q.cred q.ttl
      q.period q.retransmit virt
      = (MESH_STATUS_SUCCESS, some ota,
          { w.ext with pubs := ((q.ele, q.id),
              ⟨ota, q.idx, q.cred, q.ttl, q.period, q.retransmit⟩)
              :: w.ext.pubs.filter (fun e => e.1 != (q.ele, q.id)) }) := by
    simp only [sim, Sim.pub_set, hacc, ne_eq, not_true_eq_false, if_false, hnu2,
      Bool.false_eq_true, hota]
  have hset := config_pub_set_real sim w net_idx src dst pkt virt vendor hnv hnu
    (by rw [hq, hsim])
  rw [hq] at hset
  simp only [hsim, Option.getD_some] at hset
  have hfind : w.ext.find_model q.ele q.id = MESH_STATUS_SUCCESS :=
    sim_verdict_find _ _ _ _ hacc
  generalize hw1 : config_pub_set sim w net_idx src dst pkt virt vendor = w1 at hset ⊢
  have hget1 : sim.mesh_model_pub_get w1.ext q.ele q.id
      = (some ⟨ota, q.idx, q.cred, q.ttl, q.period, q.retransmit⟩, MESH_STATUS_SUCCESS) := by
    rw [hset]
    simp only [send_pub_status, mesh_model_send, World.step]
    show Sim.pub_get (Sim.store _ _ _).2 q.ele q.id = _
    refine (sim_pub_get_store _ _ _ _ _ ?_ ?_).trans ?_
    · rfl
    · rfl
    · simp [Sim.pub_get, hfind, List.lookup]
  constructor
  · rw [hset]
    simp only [send_pub_status, mesh_model_send, World.step]
    exact sent_status_cases _ (fun st => (⟨dst, src, APP_IDX_DEV_LOCAL, net_idx,
      DEFAULT_TTL, false, sim_opcode_set .OP_CONFIG_MODEL_PUB_STATUS ++
        pub_status_body st q.ele q.id ota q.idx q.cred q.ttl q.period q.retransmit⟩ : Sent)) _
  · rw [config_pub_get_of_payload, hq]
    simp only [hget1, if_true, send_pub_status, mesh_model_send]
    rfl

/-- C3, amended: on the reference registry, for a Model Publication Set or
Virtual Set that the handler passes on and the registry accepts, with a
publish address other than the unassigned address, the Model Publication Get
for the same element and model that follows is answered with status success
and exactly the fields of the Set's own status: the resolved publish
address, the app-key index (low 12 bits of the index field), the credential
flag (bit 0x1000), and the TTL, period and retransmit bytes of the request,
and the model identifier, which is the request's model identifier field
(a vendor identifier with company 0xFFFF excepted, which is a SIG
identifier). -/
theorem pub_get_after_set (w : World Sim) (src dst net_idx : Nat)
    (data get_data : List Nat) (opcode : Opcode) (n m : Nat)
    (hop : sim_opcode_get data = some (opcode, n))
    (hopc : opcode = .OP_CONFIG_MODEL_PUB_SET ∨ opcode = .OP_CONFIG_MODEL_PUB_VIRT_SET)
    (hget : sim_opcode_get get_data = some (.OP_CONFIG_MODEL_PUB_GET, m)) :
    let pkt := data.drop n
    let virt := decide (opcode = .OP_CONFIG_MODEL_PUB_VIRT_SET)
    let vendor := decide (pkt.length = 13) || decide (pkt.length = 27)
    let q := pub_set_req pkt virt vendor
    let ota := w.ext.resolve (pkt.drop 2) virt
    let w1 := (cfg_srv_pkt sim w src dst APP_IDX_DEV_LOCAL net_idx data).2
    let w2 := (cfg_srv_pkt sim w1 src dst APP_IDX_DEV_LOCAL net_idx get_data).2
    let status : Nat → Sent := fun st =>
      ⟨dst, src, APP_IDX_DEV_LOCAL, net_idx, DEFAULT_TTL, false,
        sim_opcode_set .OP_CONFIG_MODEL_PUB_STATUS ++
          pub_status_body st q.ele q.id ota q.idx q.cred q.ttl q.period q.retransmit⟩
    (if virt then pkt.length = 25 ∨ pkt.length = 27
      else pkt.length = 11 ∨ pkt.length = 13) →
    get_data.drop m = pub_get_payload pkt virt vendor →
    (virt = false →
      IS_VIRTUAL (l_get_le16 pkt 2) = false ∧ l_get_le16 pkt 2 ≠ UNASSIGNED_ADDRESS) →
    w.ext.verdict q.ele q.id (.mesh_model_pub_set q.ele q.id (pkt.drop 2) q.idx q.cred
        q.ttl q.period q.retransmit virt) = MESH_STATUS_SUCCESS →
      (w1.sent = w.sent ++ [status 0] ∨ w1.sent = w.sent ++ [status 9])
      ∧ w2.sent = w1.sent ++ [status 0]
      ∧ q.idx ≤ 0xfff
      ∧ ((vendor = false ∨ l_get_le16 pkt ((if virt then 14 else 0) + 9) ≠ 0xffff) →
          put_model_id q.id = (pub_get_payload pkt virt vendor).drop 2) := by
  intro pkt virt vendor q ota w1 w2 status hlen hpay hdst hacc
  -- the Set
  have hsz : data.length - n = pkt.length := by simp [pkt]
  have hr := cfg_srv_pkt_eq sim w src dst net_idx data _ n hop
  rw [hsz] at hr
  have hsw : cfg_srv_switch sim w src dst net_idx opcode (data.drop n) pkt.length
      = .brk (config_pub_set sim w net_idx src dst pkt virt vendor) [] := by
    rcases hopc with h | h <;> subst h
    · have hl : ¬ (pkt.length ≠ 11 ∧ pkt.length ≠ 13) := by
        have : pkt.length = 11 ∨ pkt.length = 13 := by simpa [virt] using hlen
        omega
      simp only [cfg_srv_switch, if_neg hl]
      rfl
    · have hl : ¬ (pkt.length ≠ 25 ∧ pkt.length ≠ 27) := by
        have : pkt.length = 25 ∨ pkt.length = 27 := by simpa [virt] using hlen
        omega
      simp only [cfg_srv_switch, if_neg hl]
      rfl
  rw [hsw] at hr
  have hw1 : w1 = config_pub_set sim w net_idx src dst pkt virt vendor :=
    congrArg Prod.snd hr
  have hnv : (!virt && IS_VIRTUAL (l_get_le16 pkt 2)) = false := by
    cases hv : virt with
    | false => simp [(hdst hv).1]
    | true => rfl
  have hnu : (IS_UNASSIGNED (l_get_le16 pkt 2) && !virt) = false := by
    cases hv : virt with
    | true => simp
    | false =>
      have := (hdst hv).2
      simp only [IS_UNASSIGNED, Bool.not_false, Bool.and_true, beq_eq_false_iff_ne]
      exact this
  have haux := pub_get_after_set_aux w net_idx src dst pkt virt vendor q ota rfl rfl
    hnv hnu hacc
  -- the Get
  have hg := cfg_srv_pkt_eq sim w1 src dst net_idx get_data _ m hget
  have hgl : get_data.length - m = (pub_get_payload pkt virt vendor).length := by
    rw [← hpay]; simp
  rw [hgl, hpay] at hg
  have hgs : ¬ ((pub_get_payload pkt virt vendor).length ≠ 4
      ∧ (pub_get_payload pkt virt vendor).length ≠ 6) := by
    cases vendor <;> simp [pub_get_payload]
  simp only [cfg_srv_switch, if_neg hgs, List.length_nil, ne_eq, not_true_eq_false,
    if_false] at hg
  have hw2 : w2 = config_pub_get sim w1 net_idx src dst (pub_get_payload pkt virt vendor)
      (pub_get_payload pkt virt vendor).length := congrArg Prod.snd hg
  refine ⟨?_, ?_, ?_, ?_⟩
  · rw [hw1]; exact haux.1
  · rw [hw2, hw1]; exact haux.2
  · show l_get_le16 pkt _ &&& APP_IDX_MASK ≤ 0xfff
    exact Nat.and_le_right
  · intro hv
    have hlt := l_get_le16_lt pkt
    rcases hv with hv | hv
    · simp only [q, pub_set_req, hv, Bool.not_false, if_true, pub_get_payload]
      rw [put_model_id_sig _ (hlt _), l_put_get_le16]
      simp [Nat.add_assoc]
    · cases hvd : vendor with
      | false =>
        simp only [q, pub_set_req, hvd, Bool.not_false, if_true, pub_get_payload]
        rw [put_model_id_sig _ (hlt _), l_put_get_le16]
        simp [Nat.add_assoc]
      | true =>
        simp only [q, pub_set_req, hvd, Bool.not_true, Bool.false_eq_true, if_false,
          pub_get_payload, if_true]
        have hc := hlt ((if virt then 14 else 0) + 9)
        rw [put_model_id_vendor _ _ (by omega) (hlt _), l_put_get_le16, l_put_get_le16]
        simp [Nat.add_assoc]

/-- Witness for the amended C3 on the reference collaborators: a Publication
Set to group 0xC000 with index 5, the credential flag, TTL 7, period 9 and
retransmit 0x0b for SIG model 0x1000 on element 0x0100, then the Get: both
status messages carry these values. -/
theorem pub_get_after_set_witness :
    (cfg_srv_pkt sim
        (cfg_srv_pkt sim (world_of sim0) 1 2 APP_IDX_DEV_LOCAL 0
          [0x03, 0x00, 0x01, 0x00, 0xC0, 0x05, 0x10, 7, 9, 0x0b, 0x00, 0x10]).2
        1 2 APP_IDX_DEV_LOCAL 0 [0x80, 0x18, 0x00, 0x01, 0x00, 0x10]).2.sent
      = [⟨2, 1, 0x7fff, 0, 0xff, false,
          [0x80, 0x19, 0x00, 0x00, 0x01, 0x00, 0xC0, 0x05, 0x10, 7, 9, 0x0b, 0x00, 0x10]⟩,
         ⟨2, 1, 0x7fff, 0, 0xff, false,
          [0x80, 0x19, 0x00, 0x00, 0x01, 0x00, 0xC0, 0x05, 0x10, 7, 9, 0x0b, 0x00, 0x10]⟩] := by
  have h := pub_get_after_set (world_of sim0) 1 2 0
    [0x03, 0x00, 0x01, 0x00, 0xC0, 0x05, 0x10, 7, 9, 0x0b, 0x00, 0x10]
    [0x80, 0x18, 0x00, 0x01, 0x00, 0x10] .OP_CONFIG_MODEL_PUB_SET 1 2
    (by decide) (by decide) (by decide) (by decide) (by decide) (by decide) (by decide)
  exact h.2.1.trans (by decide)

/-! ## C4: Publication Set to the unassigned address -/

/-- C4: a (non-virtual) Model Publication Set whose publish address field is
the unassigned address and which the registry accepts is answered with a
status whose app-key index, TTL and period are 0, and the only request made
to the persistent store is the deletion of the model's publication record
(no record is added).  The status byte is success, or storage-fail when the
store reports that the deletion failed. -/
theorem pub_set_unassigned (C : Collab σ) (w : World σ) (src dst net_idx : Nat)
    (data : List Nat) (n : Nat)
    (hop : C.mesh_model_opcode_get data = some (.OP_CONFIG_MODEL_PUB_SET, n)) :
    let pkt := data.drop n
    let vendor := decide (pkt.length = 13)
    let ele_addr := l_get_le16 pkt 0
    let id := if vendor then SET_ID (l_get_le16 pkt 9) (l_get_le16 pkt 11)
              else SET_ID SIG_VENDOR (l_get_le16 pkt 9)
    let cred := (CREDFLAG_MASK &&& l_get_le16 pkt 4) != 0
    let idx := l_get_le16 pkt 4 &&& APP_IDX_MASK
    let retransmit := byteAt pkt 8
    let reg := C.mesh_model_pub_set w.ext ele_addr id (pkt.drop 2) idx cred
                 (byteAt pkt 6) (byteAt pkt 7) retransmit false
    let key := if vendor then id else MODEL_ID id
    let del := C.mesh_config_model_pub_del reg.2.2 ele_addr key vendor
    let r := cfg_srv_pkt C w src dst APP_IDX_DEV_LOCAL net_idx data
    (pkt.length = 11 ∨ pkt.length = 13) →
    l_get_le16 pkt 2 = UNASSIGNED_ADDRESS →
    reg.1 = MESH_STATUS_SUCCESS →
      r.1 = true ∧
      r.2.calls = w.calls ++
        [.mesh_model_pub_set ele_addr id (pkt.drop 2) idx cred (byteAt pkt 6)
           (byteAt pkt 7) retransmit false,
         .mesh_config_model_pub_del ele_addr key vendor] ∧
      r.2.ext = del.2 ∧
      r.2.sent = w.sent ++
        [⟨dst, src, APP_IDX_DEV_LOCAL, net_idx, DEFAULT_TTL, false,
          C.mesh_model_opcode_set .OP_CONFIG_MODEL_PUB_STATUS ++
            pub_status_body (if del.1 then 0 else 9) ele_addr id
              (reg.2.1.getD UNASSIGNED_ADDRESS) 0 cred 0 0 retransmit⟩] := by
  intro pkt vendor ele_addr id cred idx retransmit reg key del r hlen haddr hacc
  have hsz : data.length - n = pkt.length := by simp [pkt]
  have hr : r = _ := cfg_srv_pkt_eq C w src dst net_idx data _ n hop
  rw [hsz] at hr
  have hnv : IS_VIRTUAL (l_get_le16 pkt 2) = false := by rw [haddr]; rfl
  have hun : IS_UNASSIGNED (l_get_le16 pkt 2) = true := by rw [haddr]; rfl
  have hsize : ¬ (pkt.length ≠ 11 ∧ pkt.length ≠ 13) := by omega
  simp only [cfg_srv_switch, if_neg hsize] at hr
  have hv : (decide (pkt.length = 13) || decide (pkt.length = 27)) = vendor := by
    rcases hlen with h | h <;> simp [vendor, h]
  rw [hv] at hr
  have hcfg : config_pub_set C w net_idx src dst pkt false vendor =
      send_pub_status C
        ((w.step (.mesh_model_pub_set ele_addr id (pkt.drop 2) idx cred (byteAt pkt 6)
           (byteAt pkt 7) retransmit false) reg.2.2).step
           (.mesh_config_model_pub_del ele_addr key vendor) del.2)
        net_idx src dst (u8 (if !del.1 then MESH_STATUS_STORAGE_FAIL else MESH_STATUS_SUCCESS))
        ele_addr id (reg.2.1.getD UNASSIGNED_ADDRESS) 0 cred 0 0 retransmit := by
    have hid : (if (!vendor) = true then SET_ID SIG_VENDOR (l_get_le16 pkt 9)
        else SET_ID (l_get_le16 pkt 9) (l_get_le16 pkt 11)) = id := by
      simp only [id]
      by_cases hvd : vendor = true <;> simp [hvd]
    unfold config_pub_set
    simp only [l_get_le16_drop, Nat.add_zero, Nat.zero_add, Bool.false_eq_true, if_false,
      Bool.not_false, Bool.true_and, hnv, hun, hid, if_true, Bool.and_self,
      Bool.and_true]
    have hacc2 : (C.mesh_model_pub_set w.ext (l_get_le16 pkt 0) id (pkt.drop 2)
        (l_get_le16 pkt 4 &&& APP_IDX_MASK) ((CREDFLAG_MASK &&& l_get_le16 pkt 4) != 0)
        (byteAt pkt 6) (byteAt pkt 7) (byteAt pkt 8) false).1 = MESH_STATUS_SUCCESS := hacc
    simp only [hacc2, ne_eq, not_true_eq_false, if_false]
    rfl
  have hst : u8 (if !del.1 then MESH_STATUS_STORAGE_FAIL else MESH_STATUS_SUCCESS)
      = if del.1 then 0 else 9 := by
    cases del.1 <;> rfl
  rw [hst] at hcfg
  rw [hcfg] at hr
  rw [hr]
  simp [send_pub_status, mesh_model_send, World.step]

/-- Witness for C4 on the reference collaborators: a Publication Set for SIG
model 0x1000 on element 0x0100 with publish address 0x0000, request TTL 7 and
period 9, is answered with index, TTL and period 0, and the store is asked to
delete the record. -/
theorem pub_set_unassigned_witness :
    (cfg_srv_pkt sim (world_of sim0) 1 2 APP_IDX_DEV_LOCAL 0
        [0x03, 0x00, 0x01, 0x00, 0x00, 0x05, 0x10, 7, 9, 0x0b, 0x00, 0x10]).2.sent
      = [⟨2, 1, 0x7fff, 0, 0xff, false,
          [0x80, 0x19, 0, 0x00, 0x01, 0, 0, 0x00, 0x10, 0, 0, 0x0b, 0x00, 0x10]⟩]
    ∧ (cfg_srv_pkt sim (world_of sim0) 1 2 APP_IDX_DEV_LOCAL 0
        [0x03, 0x00, 0x01, 0x00, 0x00, 0x05, 0x10, 7, 9, 0x0b, 0x00, 0x10]).2.calls
      = [.mesh_model_pub_set 0x0100 0xffff1000 [0x00, 0x00, 0x05, 0x10, 7, 9, 0x0b, 0x00, 0x10]
           5 true 7 9 0x0b false,
         .mesh_config_model_pub_del 0x0100 0x1000 false] := by
  have h := pub_set_unassigned sim (world_of sim0) 1 2 0
    [0x03, 0x00, 0x01, 0x00, 0x00, 0x05, 0x10, 7, 9, 0x0b, 0x00, 0x10] 1
    (by decide) (by decide) (by decide) (by decide)
  exact ⟨h.2.2.2.trans (by decide), h.2.1.trans (by decide)⟩

/-! ## C5: Subscription Overwrite -/

/-- C5, counterexample: Model Subscription Overwrite to group 0xC000 for SIG
model 0x1000 on element 0x0100, accepted by the registry (status success),
when the store fails its requests: the persisted list of the model is still
the old entry 0xC001, not the one-element list with the new address. -/
theorem sub_overwrite_store_failure :
    (cfg_srv_pkt sim (world_of sim_store_down) 1 2 APP_IDX_DEV_LOCAL 0
        [0x80, 0x1E, 0x00, 0x01, 0x00, 0xC0, 0x00, 0x10]).2.sent
      = [⟨2, 1, 0x7fff, 0, 0xff, false,
          [0x80, 0x1F, 0x00, 0x00, 0x01, 0x00, 0xC0, 0x00, 0x10]⟩]
    ∧ (cfg_srv_pkt sim (world_of sim_store_down) 1 2 APP_IDX_DEV_LOCAL 0
        [0x80, 0x1E, 0x00, 0x01, 0x00, 0xC0, 0x00, 0x10]).2.ext.persisted_subs
          0x0100 0x1000 false = [⟨false, .addr 0xC001⟩]
    ∧ ¬ ((cfg_srv_pkt sim (world_of sim_store_down) 1 2 APP_IDX_DEV_LOCAL 0
        [0x80, 0x1E, 0x00, 0x01, 0x00, 0xC0, 0x00, 0x10]).2.ext.persisted_subs
          0x0100 0x1000 false = [⟨false, .addr 0xC000⟩]) := by
  refine ⟨?_, ?_, ?_⟩ <;> decide

/-- C5, amended: for a Model Subscription Overwrite or Virtual Overwrite
that the registry accepts, the handler asks the store first to delete all
persisted entries of the model and then to add the new one, in this order
and nothing else; when the store carries out both requests, the persisted
subscription list of the model is exactly the new entry, whatever it
contained before. -/
theorem sub_overwrite_persisted (w : World Sim) (src dst net_idx : Nat)
    (data : List Nat) (opcode : Opcode) (n : Nat) (id : Nat) (vendor : Bool)
    (hop : sim_opcode_get data = some (opcode, n))
    (hopc : opcode = .OP_CONFIG_MODEL_SUB_OVERWRITE
              ∨ opcode = .OP_CONFIG_MODEL_SUB_VIRT_OVERWRITE) :
    let pkt := data.drop n
    let virt := decide (opcode = .OP_CONFIG_MODEL_SUB_VIRT_OVERWRITE)
    let ele := l_get_le16 pkt 0
    let key := if vendor then id else MODEL_ID id
    let db_sub : mesh_config_sub :=
      ⟨virt, if virt then .virt_addr ((pkt.drop 2).take 16)
             else .addr (l_get_le16 pkt 2)⟩
    let r := cfg_srv_pkt sim w src dst APP_IDX_DEV_LOCAL net_idx data
    config_sub_set_id pkt pkt.length virt opcode = some (id, vendor) →
    w.ext.verdict ele id (.mesh_model_sub_ovr ele id (pkt.drop 2) virt)
      = MESH_STATUS_SUCCESS →
      r.2.calls = w.calls ++
        [.mesh_model_sub_ovr ele id (pkt.drop 2) virt,
         .mesh_config_model_sub_del_all ele key vendor,
         .mesh_config_model_sub_add ele key vendor db_sub]
      ∧ (w.ext.store_ok (.mesh_config_model_sub_del_all ele key vendor) = true →
         w.ext.store_ok (.mesh_config_model_sub_add ele key vendor db_sub) = true →
         r.2.ext.persisted_subs ele key vendor = [db_sub]) := by
  intro pkt virt ele key db_sub r hid hacc
  have hsz : data.length - n = pkt.length := by simp [pkt]
  have hr : r = _ := cfg_srv_pkt_eq sim w src dst net_idx data _ n hop
  rw [hsz] at hr
  have hsw : cfg_srv_switch sim w src dst net_idx opcode (data.drop n) pkt.length
      = .brk (config_sub_set sim w net_idx src dst pkt pkt.length virt opcode) [] := by
    rcases hopc with h | h <;> subst h <;> rfl
  rw [hsw] at hr
  have hsim : sim.mesh_model_sub_ovr w.ext (l_get_le16 pkt 0) id (pkt.drop 2) virt
      = (MESH_STATUS_SUCCESS, some (Sim.resolve w.ext (pkt.drop 2) virt),
          { w.ext with subs := (w.ext.subs.filter (fun e => e.1 != (l_get_le16 pkt 0, id)))
              ++ [((l_get_le16 pkt 0, id), Sim.resolve w.ext (pkt.drop 2) virt)] }) := by
    have hacc2 : w.ext.verdict (l_get_le16 pkt 0) id
        (.mesh_model_sub_ovr (l_get_le16 pkt 0) id (pkt.drop 2) virt)
        = MESH_STATUS_SUCCESS := hacc
    simp only [sim, Sim.sub_op, hacc2, ne_eq, not_true_eq_false, if_false]
  have hcs := config_sub_set_overwrite sim w net_idx src dst pkt virt opcode id vendor
    hopc hid (by rw [hsim])
  rw [hcs] at hr
  have hdb : (⟨virt, if virt then SubSrc.virt_addr ((pkt.drop 2).take 16)
        else SubSrc.addr ((some (Sim.resolve w.ext (pkt.drop 2) virt)).getD
          (if opcode = .OP_CONFIG_MODEL_SUB_VIRT_OVERWRITE then UNASSIGNED_ADDRESS
            else l_get_le16 pkt 2))⟩ : mesh_config_sub) = db_sub := by
    simp only [db_sub, Option.getD_some, Sim.resolve, l_get_le16_drop]
    cases virt <;> simp
  simp only [hsim, hdb] at hr
  rw [hr]
  constructor
  · simp [send_sub_status, mesh_model_send, World.step, key, ele]
  · intro h1 h2
    have h1b : w.ext.store_ok (.mesh_config_model_sub_del_all (l_get_le16 pkt 0)
        (if vendor then id else MODEL_ID id) vendor) = true := h1
    have h2b : w.ext.store_ok (.mesh_config_model_sub_add (l_get_le16 pkt 0)
        (if vendor then id else MODEL_ID id) vendor db_sub) = true := h2
    simp only [send_sub_status, mesh_model_send, World.step, sim, Sim.store, h1b, h2b,
      List.length_nil, ne_eq, not_true_eq_false, if_false, if_true, Sim.persisted_subs,
      List.filter_append, filter_ne_filter_eq, List.nil_append, key, ele]
    simp

/-- Witness for the amended C5 on the reference collaborators: with two
entries persisted for SIG model 0x1000 on element 0x0100, an Overwrite to
group 0xC000 leaves exactly the entry 0xC000. -/
theorem sub_overwrite_persisted_witness :
    (cfg_srv_pkt sim (world_of sim_two_subs) 1 2 APP_IDX_DEV_LOCAL 0
        [0x80, 0x1E, 0x00, 0x01, 0x00, 0xC0, 0x00, 0x10]).2.ext.persisted_subs
          0x0100 0x1000 false = [⟨false, .addr 0xC000⟩] :=
  (sub_overwrite_persisted (world_of sim_two_subs) 1 2 0
    [0x80, 0x1E, 0x00, 0x01, 0x00, 0xC0, 0x00, 0x10]
    .OP_CONFIG_MODEL_SUB_OVERWRITE 2 0xffff1000 false (by decide) (by decide)
    (by decide) (by decide)).2 (by decide) (by decide)

/-! ## C6: store failure after Subscription Add and Delete -/

/-- For every collaborator: when the registry accepts
a Model Subscription Add or Virtual Add, the status byte sent is success if
the store's add succeeds and storage-fail (0x09) if it fails; when the
registry accepts a Model Subscription Delete or Virtual Delete, the status
byte sent is success whatever `save_config_sub` returns. -/
theorem sub_add_delete_status (C : Collab σ) (w : World σ)
    (net_idx src dst : Nat) (pkt : List Nat) (virt : Bool) (opcode : Opcode)
    (id : Nat) (vendor : Bool)
    (hid : config_sub_set_id pkt pkt.length virt opcode = some (id, vendor)) :
    (opcode = .OP_CONFIG_MODEL_SUB_ADD ∨ opcode = .OP_CONFIG_MODEL_SUB_VIRT_ADD →
      (C.mesh_model_sub_add w.ext (l_get_le16 pkt 0) id (pkt.drop 2) virt).1
        = MESH_STATUS_SUCCESS →
      config_sub_set C w net_idx src dst pkt pkt.length virt opcode =
        (let ele := l_get_le16 pkt 0
         let r := C.mesh_model_sub_add w.ext ele id (pkt.drop 2) virt
         let grp := r.2.1.getD (if opcode = .OP_CONFIG_MODEL_SUB_VIRT_ADD
                                then UNASSIGNED_ADDRESS else l_get_le16 pkt 2)
         let s := save_config_sub C
                    (w.step (.mesh_model_sub_add ele id (pkt.drop 2) virt) r.2.2)
                    ele id vendor (pkt.drop 2) virt grp opcode
         send_sub_status C s.2 net_idx src dst (if s.1 then 0 else 9) ele grp id))
    ∧ (opcode = .OP_CONFIG_MODEL_SUB_DELETE ∨ opcode = .OP_CONFIG_MODEL_SUB_VIRT_DELETE →
      (C.mesh_model_sub_del w.ext (l_get_le16 pkt 0) id (pkt.drop 2) virt).1
        = MESH_STATUS_SUCCESS →
      config_sub_set C w net_idx src dst pkt pkt.length virt opcode =
        (let ele := l_get_le16 pkt 0
         let r := C.mesh_model_sub_del w.ext ele id (pkt.drop 2) virt
         let grp := r.2.1.getD (if opcode = .OP_CONFIG_MODEL_SUB_VIRT_DELETE
                                then UNASSIGNED_ADDRESS else l_get_le16 pkt 2)
         let s := save_config_sub C
                    (w.step (.mesh_model_sub_del ele id (pkt.drop 2) virt) r.2.2)
                    ele id vendor (pkt.drop 2) virt grp opcode
         send_sub_status C s.2 net_idx src dst 0 ele grp id)) := by
  constructor
  · intro hopc hacc
    have hne : opcode ≠ .OP_CONFIG_MODEL_SUB_DELETE_ALL := by
      rcases hopc with h | h <;> subst h <;> decide
    have h1 : ¬ (opcode = .OP_CONFIG_MODEL_SUB_VIRT_OVERWRITE
        ∨ opcode = .OP_CONFIG_MODEL_SUB_OVERWRITE) := by
      rcases hopc with h | h <;> subst h <;> decide
    have h2 : opcode = .OP_CONFIG_MODEL_SUB_VIRT_ADD
        ∨ opcode = .OP_CONFIG_MODEL_SUB_ADD := hopc.symm
    unfold config_sub_set
    rw [hid]
    simp only [if_pos hne, if_neg hne, if_neg h1, if_pos h2, hacc, if_true,
      l_get_le16_drop, Nat.add_zero]
    cases (save_config_sub C _ _ _ _ _ _ _ _).1 <;> rfl
  · intro hopc hacc
    have hne : opcode ≠ .OP_CONFIG_MODEL_SUB_DELETE_ALL := by
      rcases hopc with h | h <;> subst h <;> decide
    have h1 : ¬ (opcode = .OP_CONFIG_MODEL_SUB_VIRT_OVERWRITE
        ∨ opcode = .OP_CONFIG_MODEL_SUB_OVERWRITE) := by
      rcases hopc with h | h <;> subst h <;> decide
    have h2 : ¬ (opcode = .OP_CONFIG_MODEL_SUB_VIRT_ADD
        ∨ opcode = .OP_CONFIG_MODEL_SUB_ADD) := by
      rcases hopc with h | h <;> subst h <;> decide
    have h3 : opcode = .OP_CONFIG_MODEL_SUB_VIRT_DELETE
        ∨ opcode = .OP_CONFIG_MODEL_SUB_DELETE := hopc.symm
    unfold config_sub_set
    rw [hid]
    simp only [if_pos hne, if_neg hne, if_neg h1, if_neg h2, if_pos h3, hacc, if_true,
      l_get_le16_drop, Nat.add_zero]
    rfl

/-- C6, evaluation at the failing input: Model Subscription Delete of group
0xC001 for SIG model 0x1000 on element 0x0100, when the registry accepts and
the store fails.  The store reports the failure and keeps the record, the
registry has dropped the address, and the status sent is success (0x00).  A
Model Subscription Add on the same node is answered with storage-fail
(0x09). -/
theorem sub_delete_store_failure :
    (sim.mesh_config_model_sub_del sim_store_down 0x0100 0x1000 false
        ⟨false, .addr 0xC001⟩).1 = false
    ∧ (cfg_srv_pkt sim (world_of sim_store_down) 1 2 APP_IDX_DEV_LOCAL 0
        [0x80, 0x1C, 0x00, 0x01, 0x01, 0xC0, 0x00, 0x10]).2.sent
      = [⟨2, 1, 0x7fff, 0, 0xff, false,
          [0x80, 0x1F, 0x00, 0x00, 0x01, 0x01, 0xC0, 0x00, 0x10]⟩]
    ∧ (cfg_srv_pkt sim (world_of sim_store_down) 1 2 APP_IDX_DEV_LOCAL 0
        [0x80, 0x1C, 0x00, 0x01, 0x01, 0xC0, 0x00, 0x10]).2.calls
      = [.mesh_model_sub_del 0x0100 0xffff1000 [0x01, 0xC0, 0x00, 0x10] false,
         .mesh_config_model_sub_del 0x0100 0x1000 false ⟨false, .addr 0xC001⟩]
    ∧ (cfg_srv_pkt sim (world_of sim_store_down) 1 2 APP_IDX_DEV_LOCAL 0
        [0x80, 0x1C, 0x00, 0x01, 0x01, 0xC0, 0x00, 0x10]).2.ext.subs = []
    ∧ (cfg_srv_pkt sim (world_of sim_store_down) 1 2 APP_IDX_DEV_LOCAL 0
        [0x80, 0x1C, 0x00, 0x01, 0x01, 0xC0, 0x00, 0x10]).2.ext.persisted_subs
          0x0100 0x1000 false = [⟨false, .addr 0xC001⟩]
    ∧ (cfg_srv_pkt sim (world_of sim_store_down) 1 2 APP_IDX_DEV_LOCAL 0
        [0x80, 0x1B, 0x00, 0x01, 0x02, 0xC0, 0x00, 0x10]).2.sent
      = [⟨2, 1, 0x7fff, 0, 0xff, false,
          [0x80, 0x1F, 0x09, 0x00, 0x01, 0x02, 0xC0, 0x00, 0x10]⟩] := by
  refine ⟨?_, ?_, ?_, ?_, ?_, ?_⟩ <;> decide

/-! ## C7: virtual-looking address in a non-virtual subscription message -/

/-- For every collaborator: a non-virtual Model
Subscription Add with a 6- or 8-byte payload is handed to the registry
whatever its address field is; the handler makes no test on the address. -/
theorem sub_add_reaches_registry (C : Collab σ) (w : World σ)
    (net_idx src dst : Nat) (pkt : List Nat)
    (hlen : pkt.length = 6 ∨ pkt.length = 8) :
    ∃ id rest,
      (config_sub_set C w net_idx src dst pkt pkt.length false
          .OP_CONFIG_MODEL_SUB_ADD).calls
        = w.calls ++ .mesh_model_sub_add (l_get_le16 pkt 0) id (pkt.drop 2) false :: rest := by
  have hid : ∃ id vendor, config_sub_set_id pkt pkt.length false .OP_CONFIG_MODEL_SUB_ADD
      = some (id, vendor) := by
    rcases hlen with h | h <;> rw [h] <;> exact ⟨_, _, rfl⟩
  obtain ⟨id, vendor, hid⟩ := hid
  refine ⟨id, ?_⟩
  unfold config_sub_set
  rw [hid]
  simp only [ne_eq, reduceCtorEq, not_false_eq_true, if_true, if_false, false_or, or_false,
    or_true]
  split
  · obtain ⟨rest, hrest⟩ := save_config_sub_calls C
      (w.step (.mesh_model_sub_add (l_get_le16 pkt 0) id (pkt.drop 2) false)
        (C.mesh_model_sub_add w.ext (l_get_le16 pkt 0) id (pkt.drop 2) false).2.2)
      (l_get_le16 pkt 0) id vendor (pkt.drop 2) false
      ((C.mesh_model_sub_add w.ext (l_get_le16 pkt 0) id (pkt.drop 2) false).2.1.getD
        (l_get_le16 (pkt.drop 2) 0)) .OP_CONFIG_MODEL_SUB_ADD
    refine ⟨rest, ?_⟩
    simp only [send_sub_status, mesh_model_send]
    rw [hrest]
    simp [World.step]
  · exact ⟨[], by simp [send_sub_status, mesh_model_send, World.step]⟩

/-- C7, evaluation at the failing input: a non-virtual Model Subscription
Add whose address field is 0x8001, inside the virtual range.  The handler
hands the address to the registry as a subscription change and, the registry
accepting, writes it to the persistent store and answers with success. -/
theorem sub_add_virtual_looking :
    IS_VIRTUAL 0x8001 = true
    ∧ (cfg_srv_pkt sim (world_of sim0) 1 2 APP_IDX_DEV_LOCAL 0
        [0x80, 0x1B, 0x00, 0x01, 0x01, 0x80, 0x00, 0x10]).2.calls
      = [.mesh_model_sub_add 0x0100 0xffff1000 [0x01, 0x80, 0x00, 0x10] false,
         .mesh_config_model_sub_add 0x0100 0x1000 false ⟨false, .addr 0x8001⟩]
    ∧ (cfg_srv_pkt sim (world_of sim0) 1 2 APP_IDX_DEV_LOCAL 0
        [0x80, 0x1B, 0x00, 0x01, 0x01, 0x80, 0x00, 0x10]).2.ext.persisted_subs
          0x0100 0x1000 false = [⟨false, .addr 0x8001⟩]
    ∧ (cfg_srv_pkt sim (world_of sim0) 1 2 APP_IDX_DEV_LOCAL 0
        [0x80, 0x1B, 0x00, 0x01, 0x01, 0x80, 0x00, 0x10]).2.sent
      = [⟨2, 1, 0x7fff, 0, 0xff, false,
          [0x80, 0x1F, 0x00, 0x00, 0x01, 0x01, 0x80, 0x00, 0x10]⟩] := by
  refine ⟨?_, ?_, ?_, ?_⟩ <;> decide

/-! ## C8: Subscription Delete-All payload length -/

/-- For every collaborator: a Model Subscription
Delete-All whose payload length is none of 4, 6 and 8 is dropped, the world
is unchanged; with length 8 the size switch accepts it and takes bytes 4..7
as a vendor model identifier. -/
theorem sub_delete_all_sizes (C : Collab σ) (w : World σ)
    (net_idx src dst : Nat) (pkt : List Nat) (size : Nat) :
    (size ≠ 4 → size ≠ 6 → size ≠ 8 →
      config_sub_set C w net_idx src dst pkt size false
        .OP_CONFIG_MODEL_SUB_DELETE_ALL = w)
    ∧ config_sub_set_id pkt 8 false .OP_CONFIG_MODEL_SUB_DELETE_ALL
        = some (SET_ID (l_get_le16 pkt 4) (l_get_le16 pkt 6), true) := by
  refine ⟨fun h4 h6 h8 => ?_, rfl⟩
  have hid : config_sub_set_id pkt size false .OP_CONFIG_MODEL_SUB_DELETE_ALL = none := by
    unfold config_sub_set_id
    simp [h4, h6, h8]
  unfold config_sub_set
  rw [hid]

/-- C8, evaluation at the failing input: a Model Subscription Delete-All
with an 8-byte payload (element 0x0100, two more bytes AA BB, then F1 05 01
00).  It is not dropped: bytes 4..7 are taken as a vendor model identifier,
the registry and the store are asked to delete all subscriptions of that
model, and a status is sent. -/
theorem sub_delete_all_eight_bytes :
    (cfg_srv_pkt sim (world_of sim_vendor_sub) 1 2 APP_IDX_DEV_LOCAL 0
        [0x80, 0x1D, 0x00, 0x01, 0xAA, 0xBB, 0xF1, 0x05, 0x01, 0x00]).2.calls
      = [.mesh_model_sub_del_all 0x0100 0x05f10001,
         .mesh_config_model_sub_del_all 0x0100 0x05f10001 true]
    ∧ (cfg_srv_pkt sim (world_of sim_vendor_sub) 1 2 APP_IDX_DEV_LOCAL 0
        [0x80, 0x1D, 0x00, 0x01, 0xAA, 0xBB, 0xF1, 0x05, 0x01, 0x00]).2.ext.subs = []
    ∧ (cfg_srv_pkt sim (world_of sim_vendor_sub) 1 2 APP_IDX_DEV_LOCAL 0
        [0x80, 0x1D, 0x00, 0x01, 0xAA, 0xBB, 0xF1, 0x05, 0x01, 0x00]).2.ext.store_subs = []
    ∧ (cfg_srv_pkt sim (world_of sim_vendor_sub) 1 2 APP_IDX_DEV_LOCAL 0
        [0x80, 0x1D, 0x00, 0x01, 0xAA, 0xBB, 0xF1, 0x05, 0x01, 0x00]).2.sent
      = [⟨2, 1, 0x7fff, 0, 0xff, false,
          [0x80, 0x1F, 0x00, 0x00, 0x01, 0x00, 0x00, 0xF1, 0x05, 0x01, 0x00]⟩] := by
  refine ⟨?_, ?_, ?_, ?_⟩ <;> decide

/-! ## C9: Model App Bind with an index above 0xFFF -/

/-- C9: for a Model App Bind or Unbind whose app-key index field exceeds
0xFFF, `model_app_bind` returns false without calling the registry and
without sending a status, and the dispatcher reports the message as
consumed: the world after the dispatch is the world before it. -/
theorem model_app_bind_idx_rejected (C : Collab σ) (w : World σ)
    (src dst net_idx : Nat) (data : List Nat) (opcode : Opcode) (n : Nat)
    (hop : C.mesh_model_opcode_get data = some (opcode, n))
    (hopc : opcode = .OP_MODEL_APP_BIND ∨ opcode = .OP_MODEL_APP_UNBIND)
    (hidx : l_get_le16 (data.drop n) 2 > 0xfff) :
    model_app_bind C w net_idx src dst (data.drop n) (data.length - n)
        (decide (opcode ≠ .OP_MODEL_APP_BIND)) = (false, w)
    ∧ cfg_srv_pkt C w src dst APP_IDX_DEV_LOCAL net_idx data = (true, w)
    ∧ (cfg_srv_pkt C w src dst APP_IDX_DEV_LOCAL net_idx data).2.calls = w.calls
    ∧ (cfg_srv_pkt C w src dst APP_IDX_DEV_LOCAL net_idx data).2.sent = w.sent := by
  have hb : ∀ unbind, model_app_bind C w net_idx src dst (data.drop n)
      (data.length - n) unbind = (false, w) := by
    intro unbind
    unfold model_app_bind
    simp only [if_pos hidx]
    split <;> rfl
  have hr := cfg_srv_pkt_eq C w src dst net_idx data _ n hop
  have hsw : cfg_srv_switch C w src dst net_idx opcode (data.drop n) (data.length - n)
      = .brk w [] := by
    rcases hopc with h | h <;> subst h <;> simp only [cfg_srv_switch, hb]
  rw [hsw] at hr
  simp only [List.length_nil, ne_eq, not_true_eq_false, if_false] at hr
  exact ⟨hb _, hr, by rw [hr], by rw [hr]⟩

/-- Witness for C9 on the reference collaborators: Model App Bind of
app-key index 0x1000 to SIG model 0x1000 on element 0x0100. -/
theorem model_app_bind_idx_rejected_witness :
    cfg_srv_pkt sim (world_of sim0) 1 2 APP_IDX_DEV_LOCAL 0
        [0x80, 0x3D, 0x00, 0x01, 0x00, 0x10, 0x00, 0x10] = (true, world_of sim0) :=
  (model_app_bind_idx_rejected sim (world_of sim0) 1 2 0
    [0x80, 0x3D, 0x00, 0x01, 0x00, 0x10, 0x00, 0x10] .OP_MODEL_APP_BIND 2
    (by decide) (by decide) (by decide)).2.1

/-! ## C10: AppKey index packing -/

theorem appkey_unpack (b0 b1 b2 : Nat) (h0 : b0 < 256) (h1 : b1 < 256) (h2 : b2 < 256) :
    (b0 + 256 * b1) &&& 0xfff = (b0 + 256 * b1 + 65536 * b2) % 4096
    ∧ (b1 + 256 * b2) >>> 4 = (b0 + 256 * b1 + 65536 * b2) / 4096
    ∧ (b0 + 256 * b1 + 65536 * b2) % 4096 ≤ 0xfff
    ∧ (b0 + 256 * b1 + 65536 * b2) / 4096 ≤ 0xfff := by
  have e1 : (b0 + 256 * b1) &&& 0xfff = (b0 + 256 * b1) % 4096 :=
    Nat.and_pow_two_sub_one_eq_mod _ 12
  have e2 : (b1 + 256 * b2) >>> 4 = (b1 + 256 * b2) / 16 :=
    Nat.shiftRight_eq_div_pow _ 4
  rw [e1, e2]
  omega

/-- C10: for an AppKey Add or Update with a 19-byte payload and an AppKey
Delete with a 3-byte payload, leading bytes b0 b1 b2, the key store is called
with net-key index = low 12 bits and app-key index = high 12 bits of
b0 + 256*b1 + 65536*b2 (both at most 0xFFF), and the response is the opcode
header, the key store's status byte and b0 b1 b2 verbatim, whatever the key
store answered; so a Delete carrying the bytes of an Add echoes the same
three bytes. -/
theorem appkey_indices (C : Collab σ) (w : World σ) (src dst net_idx : Nat)
    (data : List Nat) (opcode : Opcode) (n : Nat)
    (hop : C.mesh_model_opcode_get data = some (opcode, n)) :
    let pkt := data.drop n
    let b0 := byteAt pkt 0
    let b1 := byteAt pkt 1
    let b2 := byteAt pkt 2
    let v := b0 + 256 * b1 + 65536 * b2
    let n_idx := v % 4096
    let a_idx := v / 4096
    let r := cfg_srv_pkt C w src dst APP_IDX_DEV_LOCAL net_idx data
    let reply : Int → Sent := fun status =>
      ⟨dst, src, APP_IDX_DEV_LOCAL, net_idx, DEFAULT_TTL, false,
        C.mesh_model_opcode_set .OP_APPKEY_STATUS ++ [u8 status, b0, b1, b2]⟩
    n_idx ≤ 0xfff ∧ a_idx ≤ 0xfff
    ∧ (opcode = .OP_APPKEY_ADD → pkt.length = 19 →
        r.2.calls = w.calls ++ [.appkey_key_add n_idx a_idx (pkt.drop 3)] ∧
        r.2.ext = (C.appkey_key_add w.ext n_idx a_idx (pkt.drop 3)).2 ∧
        r.2.sent = w.sent ++
          [reply (C.appkey_key_add w.ext n_idx a_idx (pkt.drop 3)).1])
    ∧ (opcode = .OP_APPKEY_UPDATE → pkt.length = 19 →
        r.2.calls = w.calls ++ [.appkey_key_update n_idx a_idx (pkt.drop 3)] ∧
        r.2.ext = (C.appkey_key_update w.ext n_idx a_idx (pkt.drop 3)).2 ∧
        r.2.sent = w.sent ++
          [reply (C.appkey_key_update w.ext n_idx a_idx (pkt.drop 3)).1])
    ∧ (opcode = .OP_APPKEY_DELETE → pkt.length = 3 →
        r.2.calls = w.calls ++ [.appkey_key_delete n_idx a_idx] ∧
        r.2.ext = (C.appkey_key_delete w.ext n_idx a_idx).2 ∧
        r.2.sent = w.sent ++ [reply (C.appkey_key_delete w.ext n_idx a_idx).1]) := by
  intro pkt b0 b1 b2 v n_idx a_idx r reply
  have hu := appkey_unpack b0 b1 b2 (byteAt_lt _ _) (byteAt_lt _ _) (byteAt_lt _ _)
  have hsz : data.length - n = pkt.length := by simp [pkt]
  have hr : r = _ := cfg_srv_pkt_eq C w src dst net_idx data _ n hop
  rw [hsz] at hr
  have hn : l_get_le16 pkt 0 &&& 0xfff = n_idx := hu.1
  have ha : l_get_le16 pkt 1 >>> 4 = a_idx := hu.2.1
  refine ⟨hu.2.2.1, hu.2.2.2, ?_, ?_, ?_⟩
  · intro ho hl
    subst ho
    simp only [cfg_srv_switch, hl, ne_eq, not_true_eq_false, if_false, if_true, hn, ha] at hr
    rw [hr]
    simp [mesh_model_send, World.step, reply, b0, b1, b2, pkt]
  · intro ho hl
    subst ho
    simp only [cfg_srv_switch, hl, ne_eq, not_true_eq_false, if_false, reduceCtorEq, hn, ha] at hr
    rw [hr]
    simp [mesh_model_send, World.step, reply, b0, b1, b2, pkt]
  · intro ho hl
    subst ho
    simp only [cfg_srv_switch, hl, ne_eq, not_true_eq_false, if_false, hn, ha] at hr
    rw [hr]
    simp [mesh_model_send, World.step, reply, b0, b1, b2, pkt]

/-- Witness for C10 on the reference collaborators: AppKey Add and AppKey
Delete with packed bytes 23 61 45 (net-key index 0x123, app-key index 0x456)
reach the key store with these indices and both echo 23 61 45. -/
theorem appkey_indices_witness :
    ((cfg_srv_pkt sim (world_of sim0) 1 2 APP_IDX_DEV_LOCAL 0
        [0x00, 0x23, 0x61, 0x45, 1, 2, 3, 4, 5, 6, 7, 8, 9, 10, 11, 12, 13, 14, 15, 16]).2.calls
      = [.appkey_key_add 0x123 0x456 [1, 2, 3, 4, 5, 6, 7, 8, 9, 10, 11, 12, 13, 14, 15, 16]])
    ∧ ((cfg_srv_pkt sim (world_of sim0) 1 2 APP_IDX_DEV_LOCAL 0
        [0x00, 0x23, 0x61, 0x45, 1, 2, 3, 4, 5, 6, 7, 8, 9, 10, 11, 12, 13, 14, 15, 16]).2.sent
      = [⟨2, 1, 0x7fff, 0, 0xff, false, [0x80, 0x03, 0x00, 0x23, 0x61, 0x45]⟩])
    ∧ ((cfg_srv_pkt sim (world_of sim0) 1 2 APP_IDX_DEV_LOCAL 0
        [0x80, 0x00, 0x23, 0x61, 0x45]).2.sent
      = [⟨2, 1, 0x7fff, 0, 0xff, false, [0x80, 0x03, 0x00, 0x23, 0x61, 0x45]⟩]) := by
  have h1 := (appkey_indices sim (world_of sim0) 1 2 0
    [0x00, 0x23, 0x61, 0x45, 1, 2, 3, 4, 5, 6, 7, 8, 9, 10, 11, 12, 13, 14, 15, 16]
    .OP_APPKEY_ADD 1 (by decide)).2.2.1 rfl (by decide)
  have h2 := (appkey_indices sim (world_of sim0) 1 2 0
    [0x80, 0x00, 0x23, 0x61, 0x45] .OP_APPKEY_DELETE 2 (by decide)).2.2.2.2 rfl (by decide)
  exact ⟨h1.1.trans (by decide), h1.2.2.trans (by decide), h2.2.2.trans (by decide)⟩

/-! ## C11: Composition Get -/

theorem get_composition_page0 (C : Collab σ) (e : σ) (page : Nat) :
    get_composition C e page
      = if (C.node_get_comp e 0).length = 0 then [] else 0 :: C.node_get_comp e 0 := by
  simp [get_composition, supported_pages, get_composition_scan]

/-- C11: for a one-byte Composition Get, whatever page it asks for, page 0
being the only supported page: when page 0's composition data is non-empty
the response is the Composition Status opcode header, the page byte 0 and
page 0's bytes; when it is empty `get_composition` returns nothing (length 0)
and the response that is sent is the opcode header alone (the codec's header
being non-empty). -/
theorem composition_get_response (C : Collab σ) (w : World σ) (src dst net_idx : Nat)
    (data : List Nat) (n : Nat)
    (hop : C.mesh_model_opcode_get data = some (.OP_DEV_COMP_GET, n))
    (hlen : (data.drop n).length = 1)
    (hhdr : C.mesh_model_opcode_set .OP_DEV_COMP_STATUS ≠ []) :
    let page := byteAt (data.drop n) 0
    let comp := C.node_get_comp w.ext 0
    let r := cfg_srv_pkt C w src dst APP_IDX_DEV_LOCAL net_idx data
    r.1 = true ∧ r.2.ext = w.ext ∧ r.2.calls = w.calls
    ∧ (comp ≠ [] →
        get_composition C w.ext page = 0 :: comp ∧
        r.2.sent = w.sent ++
          [⟨dst, src, APP_IDX_DEV_LOCAL, net_idx, DEFAULT_TTL, false,
            C.mesh_model_opcode_set .OP_DEV_COMP_STATUS ++ 0 :: comp⟩])
    ∧ (comp = [] →
        (get_composition C w.ext page).length = 0 ∧
        r.2.sent = w.sent ++
          [⟨dst, src, APP_IDX_DEV_LOCAL, net_idx, DEFAULT_TTL, false,
            C.mesh_model_opcode_set .OP_DEV_COMP_STATUS⟩]) := by
  intro page comp r
  have hsz : data.length - n = 1 := by rw [← hlen]; simp
  have hr : r = _ := cfg_srv_pkt_eq C w src dst net_idx data _ n hop
  rw [hsz] at hr
  simp only [cfg_srv_switch, ne_eq, not_true_eq_false, if_false, get_composition_page0] at hr
  have hne : ¬ (C.mesh_model_opcode_set .OP_DEV_COMP_STATUS ++
      if (C.node_get_comp w.ext 0).length = 0 then [] else 0 :: C.node_get_comp w.ext 0).length
        = 0 := by
    intro h
    rw [List.length_eq_zero, List.append_eq_nil] at h
    exact hhdr h.1
  rw [if_pos hne] at hr
  rw [hr]
  refine ⟨rfl, rfl, rfl, ?_, ?_⟩
  · intro hc
    have hl : ¬ (C.node_get_comp w.ext 0).length = 0 := by
      rw [List.length_eq_zero]; exact hc
    simp [get_composition_page0, hl, mesh_model_send, comp]
  · intro hc
    have hl : (C.node_get_comp w.ext 0).length = 0 := by
      rw [List.length_eq_zero]; exact hc
    simp [get_composition_page0, hl, mesh_model_send]

/-- Witness for C11 on the reference collaborators: Composition Get for page
5 on a node whose page 0 is the bytes 0A 0B 0C is answered with page 0 and
these bytes; on a node with an empty page 0 it is answered with the header
alone. -/
theorem composition_get_response_witness :
    ((cfg_srv_pkt sim (world_of sim_comp) 1 2 APP_IDX_DEV_LOCAL 0 [0x80, 0x08, 0x05]).2.sent
        = [⟨2, 1, 0x7fff, 0, 0xff, false, [0x02, 0x00, 0x0A, 0x0B, 0x0C]⟩])
    ∧ ((cfg_srv_pkt sim (world_of sim0) 1 2 APP_IDX_DEV_LOCAL 0 [0x80, 0x08, 0x05]).2.sent
        = [⟨2, 1, 0x7fff, 0, 0xff, false, [0x02]⟩]) := by
  have h1 := composition_get_response sim (world_of sim_comp) 1 2 0 [0x80, 0x08, 0x05] 2
    (by decide) (by decide) (by decide)
  have h2 := composition_get_response sim (world_of sim0) 1 2 0 [0x80, 0x08, 0x05] 2
    (by decide) (by decide) (by decide)
  exact ⟨(h1.2.2.2.1 (by decide)).2.trans (by decide),
    (h2.2.2.2.2 (by decide)).2.trans (by decide)⟩

/-! ## C12: Heartbeat Publication Set with count-log 0 -/

theorem heartbeat_pub_set_success (C : Collab σ) (w : World σ) (pkt : List Nat)
    (h2 : byteAt pkt 2 ≤ 0x11) (h3 : byteAt pkt 3 ≤ 0x10) (h4 : byteAt pkt 4 ≤ 0x7f)
    (hv : IS_VIRTUAL (l_get_le16 pkt 0) = false)
    (hn : l_get_le16 pkt 7 = C.mesh_net_get_primary_idx w.ext) :
    heartbeat_pub_set C w pkt 9 =
      .brk { w with hb := (update_hb_pub_timer
              { w.hb with
                pub_dst := l_get_le16 pkt 0,
                pub_count :=
                  if l_get_le16 pkt 0 = UNASSIGNED_ADDRESS ∨ byteAt pkt 2 = 0
                      ∨ byteAt pkt 3 = 0 then 0
                  else log_to_uint32 (byteAt pkt 2) 1 % 65536,
                pub_period :=
                  if l_get_le16 pkt 0 = UNASSIGNED_ADDRESS ∨ byteAt pkt 2 = 0
                      ∨ byteAt pkt 3 = 0 then 0
                  else log_to_uint32 (byteAt pkt 3) 1,
                pub_ttl := byteAt pkt 4,
                pub_features := l_get_le16 pkt 5 &&& 0xf,
                pub_net_idx := l_get_le16 pkt 7 }) }
        (C.mesh_model_opcode_set .OP_CONFIG_HEARTBEAT_PUB_STATUS
          ++ [0, byteAt pkt 0, byteAt pkt 1, byteAt pkt 2, byteAt pkt 3, byteAt pkt 4]
          ++ l_put_le16 (l_get_le16 pkt 5 &&& 0xf)
          ++ [byteAt pkt 7, byteAt pkt 8]) := by
  have hg : ¬ (byteAt pkt 2 > 0x11 ∨ byteAt pkt 3 > 0x10 ∨ byteAt pkt 4 > 0x7f) := by omega
  have hff : byteAt pkt 2 ≠ 0xff := by omega
  unfold heartbeat_pub_set
  simp only [ne_eq, not_true_eq_false, if_false, if_neg hg, hv, Bool.false_eq_true, hn,
    hff, not_false_eq_true, if_true]
  congr 1
  · congr 1
    congr 1
    split <;> rfl
  · have : u8 MESH_STATUS_SUCCESS = 0 := rfl
    simp [this]

/-- C12: a Heartbeat Publication Set with count-log 0 that is answered with
status success (9-byte payload, period-log at most 0x10, TTL at most 0x7F, a
destination that is not virtual and the primary net-key index) leaves the
stored remaining count and period 0 and the publish timer disarmed, and the
Heartbeat Publication Get that follows reports count-log 0. -/
theorem heartbeat_pub_set_count_zero (C : Collab σ) (w : World σ)
    (src dst net_idx : Nat) (data get_data : List Nat) (n m : Nat)
    (hset : C.mesh_model_opcode_get data = some (.OP_CONFIG_HEARTBEAT_PUB_SET, n))
    (hget : C.mesh_model_opcode_get get_data = some (.OP_CONFIG_HEARTBEAT_PUB_GET, m))
    (hm : get_data.length - m = 0)
    (hlen : (data.drop n).length = 9)
    (hc : byteAt (data.drop n) 2 = 0)
    (hp : byteAt (data.drop n) 3 ≤ 0x10)
    (ht : byteAt (data.drop n) 4 ≤ 0x7f)
    (hv : IS_VIRTUAL (l_get_le16 (data.drop n) 0) = false)
    (hn : l_get_le16 (data.drop n) 7 = C.mesh_net_get_primary_idx w.ext) :
    let pkt := data.drop n
    let r := cfg_srv_pkt C w src dst APP_IDX_DEV_LOCAL net_idx data
    let g := cfg_srv_pkt C r.2 src dst APP_IDX_DEV_LOCAL net_idx get_data
    r.2.hb.pub_count = 0 ∧ r.2.hb.pub_period = 0 ∧ r.2.hb.pub_timer = none
    ∧ r.2.sent = w.sent ++
        [⟨dst, src, APP_IDX_DEV_LOCAL, net_idx, DEFAULT_TTL, false,
          C.mesh_model_opcode_set .OP_CONFIG_HEARTBEAT_PUB_STATUS
            ++ [0, byteAt pkt 0, byteAt pkt 1, 0, byteAt pkt 3, byteAt pkt 4]
            ++ l_put_le16 (l_get_le16 pkt 5 &&& 0xf)
            ++ [byteAt pkt 7, byteAt pkt 8]⟩]
    ∧ g.2.sent = r.2.sent ++
        [⟨dst, src, APP_IDX_DEV_LOCAL, net_idx, DEFAULT_TTL, false,
          C.mesh_model_opcode_set .OP_CONFIG_HEARTBEAT_PUB_STATUS
            ++ [0] ++ l_put_le16 (l_get_le16 pkt 0) ++ [0, 0, byteAt pkt 4]
            ++ l_put_le16 (l_get_le16 pkt 5 &&& 0xf)
            ++ l_put_le16 (l_get_le16 pkt 7)⟩]
    ∧ g.2.hb = r.2.hb := by
  intro pkt r g
  have hsz : data.length - n = 9 := by rw [← hlen]; simp
  have hr : r = _ := cfg_srv_pkt_eq C w src dst net_idx data _ n hset
  rw [hsz] at hr
  have hs := heartbeat_pub_set_success C w pkt (by rw [hc]; decide) hp ht hv hn
  simp only [cfg_srv_switch] at hr
  rw [hs] at hr
  simp only [hc, or_true, true_or, if_true] at hr
  rw [if_pos (by simp)] at hr
  have hg : g = _ := cfg_srv_pkt_eq C r.2 src dst net_idx get_data _ m hget
  rw [hm] at hg
  simp only [cfg_srv_switch, ne_eq, not_true_eq_false, if_false] at hg
  rw [if_pos (by simp)] at hg
  have hu : u8 MESH_STATUS_SUCCESS = 0 := rfl
  have hl0 : uint32_to_log 0 = 0 := rfl
  rw [hg, hr]
  simp [mesh_model_send, update_hb_pub_timer, hu, hl0, byteAt_mod, pkt, hc]

/-- Witness for C12 on the reference collaborators: with publication running
(3 heartbeats left, timer armed), a Heartbeat Publication Set with count-log
0 is answered with success, count and period become 0 and the timer is
disarmed; the Get that follows reports count-log 0. -/
theorem heartbeat_pub_set_count_zero_witness :
    ((cfg_srv_pkt sim world_pub_armed 1 2 APP_IDX_DEV_LOCAL 0
        [0x80, 0x39, 0x01, 0x00, 0x00, 0x02, 0x05, 0x03, 0x00, 0x00, 0x00]).2.hb.pub_timer
      = none)
    ∧ ((cfg_srv_pkt sim world_pub_armed 1 2 APP_IDX_DEV_LOCAL 0
        [0x80, 0x39, 0x01, 0x00, 0x00, 0x02, 0x05, 0x03, 0x00, 0x00, 0x00]).2.hb.pub_count
      = 0)
    ∧ ((cfg_srv_pkt sim
          (cfg_srv_pkt sim world_pub_armed 1 2 APP_IDX_DEV_LOCAL 0
            [0x80, 0x39, 0x01, 0x00, 0x00, 0x02, 0x05, 0x03, 0x00, 0x00, 0x00]).2
          1 2 APP_IDX_DEV_LOCAL 0 [0x80, 0x38]).2.sent
      = [⟨2, 1, 0x7fff, 0, 0xff, false,
          [0x06, 0x00, 0x01, 0x00, 0x00, 0x02, 0x05, 0x03, 0x00, 0x00, 0x00]⟩,
         ⟨2, 1, 0x7fff, 0, 0xff, false,
          [0x06, 0x00, 0x01, 0x00, 0x00, 0x00, 0x05, 0x03, 0x00, 0x00, 0x00]⟩]) := by
  have h := heartbeat_pub_set_count_zero sim world_pub_armed 1 2 0
    [0x80, 0x39, 0x01, 0x00, 0x00, 0x02, 0x05, 0x03, 0x00, 0x00, 0x00] [0x80, 0x38] 2 2
    (by decide) (by decide) (by decide) (by decide) (by decide) (by decide) (by decide)
    (by decide) (by decide)
  refine ⟨h.2.2.1, h.1, ?_⟩
  rw [h.2.2.2.2.1, h.2.2.2.1]
  decide

/-! ## C13: Heartbeat Publication Set with a nonzero count-log -/

/-- For every collaborator: a Heartbeat Publication Set answered with success,
with an assigned destination, count-log c in 1..0x10 and period-log p in
1..0x10, stores the remaining count 2^(c-1) and the period 2^(p-1) and arms
the publish timer with that period. -/
theorem heartbeat_pub_set_arms (C : Collab σ) (w : World σ)
    (src dst net_idx : Nat) (data : List Nat) (n : Nat)
    (hset : C.mesh_model_opcode_get data = some (.OP_CONFIG_HEARTBEAT_PUB_SET, n))
    (hlen : (data.drop n).length = 9)
    (hc1 : 1 ≤ byteAt (data.drop n) 2) (hc2 : byteAt (data.drop n) 2 ≤ 0x10)
    (hp1 : 1 ≤ byteAt (data.drop n) 3) (hp2 : byteAt (data.drop n) 3 ≤ 0x10)
    (ht : byteAt (data.drop n) 4 ≤ 0x7f)
    (hd : l_get_le16 (data.drop n) 0 ≠ UNASSIGNED_ADDRESS)
    (hv : IS_VIRTUAL (l_get_le16 (data.drop n) 0) = false)
    (hn : l_get_le16 (data.drop n) 7 = C.mesh_net_get_primary_idx w.ext) :
    let pkt := data.drop n
    let r := cfg_srv_pkt C w src dst APP_IDX_DEV_LOCAL net_idx data
    r.2.hb.pub_count = 2 ^ (byteAt pkt 2 - 1)
    ∧ r.2.hb.pub_period = 2 ^ (byteAt pkt 3 - 1)
    ∧ r.2.hb.pub_timer = some (2 ^ (byteAt pkt 3 - 1))
    ∧ r.2.hb.pub_dst = l_get_le16 pkt 0
    ∧ r.2.calls = w.calls := by
  intro pkt r
  have hc1 : 1 ≤ byteAt pkt 2 := hc1
  have hc2 : byteAt pkt 2 ≤ 0x10 := hc2
  have hp1 : 1 ≤ byteAt pkt 3 := hp1
  have hp2 : byteAt pkt 3 ≤ 0x10 := hp2
  have hd : l_get_le16 pkt 0 ≠ UNASSIGNED_ADDRESS := hd
  have hsz : data.length - n = 9 := by rw [← hlen]; simp
  have hr : r = _ := cfg_srv_pkt_eq C w src dst net_idx data _ n hset
  rw [hsz] at hr
  have hs := heartbeat_pub_set_success C w pkt (by omega) hp2 ht hv hn
  simp only [cfg_srv_switch] at hr
  rw [hs] at hr
  have hcond : ¬ (l_get_le16 pkt 0 = UNASSIGNED_ADDRESS ∨ byteAt pkt 2 = 0
      ∨ byteAt pkt 3 = 0) := by
    rintro (h | h | h)
    · exact hd h
    · omega
    · omega
  simp only [if_neg hcond] at hr
  rw [if_pos (by simp)] at hr
  have hlc : log_to_uint32 (byteAt pkt 2) 1 = 2 ^ (byteAt pkt 2 - 1) := by
    unfold log_to_uint32
    rw [if_neg (by omega), if_neg (by omega)]
  have hlp : log_to_uint32 (byteAt pkt 3) 1 = 2 ^ (byteAt pkt 3 - 1) := by
    unfold log_to_uint32
    rw [if_neg (by omega), if_neg (by omega)]
  have hpow : 2 ^ (byteAt pkt 2 - 1) < 65536 := by
    calc 2 ^ (byteAt pkt 2 - 1) ≤ 2 ^ 15 := Nat.pow_le_pow_right (by decide) (by omega)
      _ < 65536 := by decide
  have hpos : 0 < 2 ^ (byteAt pkt 2 - 1) := Nat.pow_pos (by decide)
  have hun : IS_UNASSIGNED (l_get_le16 pkt 0) = false := by
    simp only [IS_UNASSIGNED, beq_eq_false_iff_ne]; exact hd
  rw [hr]
  simp only [mesh_model_send, hlc, hlp, Nat.mod_eq_of_lt hpow, update_hb_pub_timer, hun,
    Bool.false_or]
  have hne : (2 ^ (byteAt pkt 2 - 1) == 0) = false := by
    simp only [beq_eq_false_iff_ne]; omega
  simp only [hne, Bool.false_eq_true, if_false]
  cases w.hb.pub_timer <;> simp [l_timeout_create, l_timeout_modify]

/-- For every collaborator: from a world whose publish timer is armed with a
remaining count k other than 0xffff, after j ≤ k fires the remaining count is
k - j, one heartbeat was sent per fire, the period is unchanged, and the
timer is still armed exactly when j < k. -/
theorem hb_pub_fires_count (C : Collab σ) (w : World σ) (k : Nat)
    (hk : w.hb.pub_count = k) (hlt : k < 0xffff) (harm : w.hb.pub_timer.isSome = true)
    (j : Nat) (hj : j ≤ k) :
    (hb_pub_fires C j w).hb.pub_count = k - j
    ∧ (hb_pub_fires C j w).calls = w.calls ++ List.replicate j Call.mesh_net_heartbeat_send
    ∧ (hb_pub_fires C j w).hb.pub_period = w.hb.pub_period
    ∧ (hb_pub_fires C j w).hb.pub_timer.isSome = decide (j < k ∨ j = 0) := by
  induction j with
  | zero => simp [hb_pub_fires, harm, hk]
  | succ j ih =>
    obtain ⟨h1, h2, h3, h4⟩ := ih (by omega)
    have hjk : j < k := by omega
    have harm1 : (hb_pub_fires C j w).hb.pub_timer.isSome = true := by
      rw [h4]; simp [hjk]
    have hne : (hb_pub_fires C j w).hb.pub_count ≠ 0xffff := by omega
    have hdec : ((hb_pub_fires C j w).hb.pub_count + 65535) % 65536 = k - (j + 1) := by
      omega
    simp only [hb_pub_fires, hb_pub_timeout_func, World.step, ne_eq, hne, not_false_eq_true,
      if_true, hdec]
    by_cases hz : k - (j + 1) > 0
    · simp only [hz, if_true]
      refine ⟨trivial, ?_, h3, ?_⟩
      · rw [h2, List.replicate_succ', List.append_assoc]
      · obtain ⟨t, ht⟩ := Option.isSome_iff_exists.mp harm1
        have : j + 1 < k := by omega
        simp [l_timeout_modify, ht, this]
    · simp only [hz, if_false]
      refine ⟨trivial, ?_, h3, ?_⟩
      · rw [h2, List.replicate_succ', List.append_assoc]
      · have : ¬ (j + 1 < k) := by omega
        simp [this]

/-- C13 at the accepted count-log 0x11: `log_to_uint32` gives 0x10000, the
16-bit field keeps 0, and the Set (answered with success, echoing count-log
0x11) leaves the remaining count 0 and the publish timer disarmed instead
of armed with 2^16 heartbeats to send; the Get that follows reports
count-log 0. -/
theorem heartbeat_pub_set_count_log_0x11 :
    log_to_uint32 0x11 1 = 0x10000
    ∧ (cfg_srv_pkt sim (world_of sim0) 1 2 APP_IDX_DEV_LOCAL 0
        [0x80, 0x39, 0x01, 0x00, 0x11, 0x02, 0x05, 0x03, 0x00, 0x00, 0x00]).1 = true
    ∧ (cfg_srv_pkt sim (world_of sim0) 1 2 APP_IDX_DEV_LOCAL 0
        [0x80, 0x39, 0x01, 0x00, 0x11, 0x02, 0x05, 0x03, 0x00, 0x00, 0x00]).2.hb.pub_count = 0
    ∧ (cfg_srv_pkt sim (world_of sim0) 1 2 APP_IDX_DEV_LOCAL 0
        [0x80, 0x39, 0x01, 0x00, 0x11, 0x02, 0x05, 0x03, 0x00, 0x00, 0x00]).2.hb.pub_timer
        = none
    ∧ (cfg_srv_pkt sim
          (cfg_srv_pkt sim (world_of sim0) 1 2 APP_IDX_DEV_LOCAL 0
            [0x80, 0x39, 0x01, 0x00, 0x11, 0x02, 0x05, 0x03, 0x00, 0x00, 0x00]).2
          1 2 APP_IDX_DEV_LOCAL 0 [0x80, 0x38]).2.sent
      = [⟨2, 1, 0x7fff, 0, 0xff, false,
          [0x06, 0x00, 0x01, 0x00, 0x11, 0x02, 0x05, 0x03, 0x00, 0x00, 0x00]⟩,
         ⟨2, 1, 0x7fff, 0, 0xff, false,
          [0x06, 0x00, 0x01, 0x00, 0x00, 0x02, 0x05, 0x03, 0x00, 0x00, 0x00]⟩] := by
  refine ⟨?_, ?_, ?_, ?_, ?_⟩ <;> decide

/-! ## C14: Heartbeat Publication Set with a count-log above 0x11 -/

/-- For every collaborator: a Heartbeat Publication Set whose count-log is
above 0x11 is consumed and changes nothing: no state is stored, no timer is
touched and no response is sent. -/
theorem heartbeat_pub_set_count_log_above (C : Collab σ) (w : World σ)
    (src dst net_idx : Nat) (data : List Nat) (n : Nat)
    (hset : C.mesh_model_opcode_get data = some (.OP_CONFIG_HEARTBEAT_PUB_SET, n))
    (hc : byteAt (data.drop n) 2 > 0x11) :
    cfg_srv_pkt C w src dst APP_IDX_DEV_LOCAL net_idx data = (true, w) := by
  rw [cfg_srv_pkt_eq C w src dst net_idx data _ n hset]
  simp only [cfg_srv_switch, heartbeat_pub_set]
  by_cases hsz : data.length - n ≠ 9
  · simp [hsz]
  · simp [hsz, hc]

/-- Instance of the lemma on the reference collaborator: count-log 0x12. -/
theorem heartbeat_pub_set_count_log_above_witness :
    cfg_srv_pkt sim (world_of sim0) 1 2 APP_IDX_DEV_LOCAL 0
        [0x80, 0x39, 0x01, 0x00, 0x12, 0x02, 0x05, 0x03, 0x00, 0x00, 0x00]
      = (true, world_of sim0) :=
  heartbeat_pub_set_count_log_above sim (world_of sim0) 1 2 0
    [0x80, 0x39, 0x01, 0x00, 0x12, 0x02, 0x05, 0x03, 0x00, 0x00, 0x00] 2
    (by decide) (by decide)

/-- C14 at count-log 0xFF (destination 0x0001, period-log 2, TTL 5, primary
net-key index): `log_to_uint32` is never reached, because the validity guard
of the Set case returns first; the remaining count stays what it was (0, not
0xFFFF), the publish timer stays disarmed and no response is sent, while the
message is consumed. -/
theorem heartbeat_pub_set_count_log_0xff :
    (cfg_srv_pkt sim (world_of sim0) 1 2 APP_IDX_DEV_LOCAL 0
        [0x80, 0x39, 0x01, 0x00, 0xff, 0x02, 0x05, 0x03, 0x00, 0x00, 0x00]).1 = true
    ∧ (cfg_srv_pkt sim (world_of sim0) 1 2 APP_IDX_DEV_LOCAL 0
        [0x80, 0x39, 0x01, 0x00, 0xff, 0x02, 0x05, 0x03, 0x00, 0x00, 0x00]).2.hb.pub_count = 0
    ∧ (cfg_srv_pkt sim (world_of sim0) 1 2 APP_IDX_DEV_LOCAL 0
        [0x80, 0x39, 0x01, 0x00, 0xff, 0x02, 0x05, 0x03, 0x00, 0x00, 0x00]).2.hb.pub_timer
        = none
    ∧ (cfg_srv_pkt sim (world_of sim0) 1 2 APP_IDX_DEV_LOCAL 0
        [0x80, 0x39, 0x01, 0x00, 0xff, 0x02, 0x05, 0x03, 0x00, 0x00, 0x00]).2.hb.pub_dst
        = UNASSIGNED_ADDRESS
    ∧ (cfg_srv_pkt sim (world_of sim0) 1 2 APP_IDX_DEV_LOCAL 0
        [0x80, 0x39, 0x01, 0x00, 0xff, 0x02, 0x05, 0x03, 0x00, 0x00, 0x00]).2.sent = [] := by
  refine ⟨?_, ?_, ?_, ?_, ?_⟩ <;> decide

/-! ## C15: Heartbeat Subscription Set with both addresses unassigned -/

/-- C15, as written, fails on the reference collaborator: the active
subscription whose window start (second 200) lies ahead of the clock (second
100) is cleared by a Set with both addresses unassigned (count and period are
0 afterwards, the window start stays 200), but the status response does not
report the period as zero: its period byte is 8, the log of the 100 seconds
by which the clock is behind the window start. -/
theorem heartbeat_sub_set_unassigned_clock_behind :
    (cfg_srv_pkt sim world_sub_clock_behind 1 2 APP_IDX_DEV_LOCAL 0
        [0x80, 0x3B, 0x00, 0x00, 0x00, 0x00, 0x00]).1 = true
    ∧ (cfg_srv_pkt sim world_sub_clock_behind 1 2 APP_IDX_DEV_LOCAL 0
        [0x80, 0x3B, 0x00, 0x00, 0x00, 0x00, 0x00]).2.hb.sub_period = 0
    ∧ (cfg_srv_pkt sim world_sub_clock_behind 1 2 APP_IDX_DEV_LOCAL 0
        [0x80, 0x3B, 0x00, 0x00, 0x00, 0x00, 0x00]).2.hb.sub_count = 0
    ∧ (cfg_srv_pkt sim world_sub_clock_behind 1 2 APP_IDX_DEV_LOCAL 0
        [0x80, 0x3B, 0x00, 0x00, 0x00, 0x00, 0x00]).2.hb.sub_start = 200
    ∧ sim.gettimeofday (cfg_srv_pkt sim world_sub_clock_behind 1 2 APP_IDX_DEV_LOCAL 0
        [0x80, 0x3B, 0x00, 0x00, 0x00, 0x00, 0x00]).2.ext = 100
    ∧ (cfg_srv_pkt sim world_sub_clock_behind 1 2 APP_IDX_DEV_LOCAL 0
        [0x80, 0x3B, 0x00, 0x00, 0x00, 0x00, 0x00]).2.sent
        = [⟨2, 1, 0x7fff, 0, 0xff, false,
            [0x80, 0x3C, 0x00, 0x00, 0x00, 0x00, 0x00, 0x08, 0x00, 0x00, 0x00]⟩] := by
  decide

/-- C15, amended: a Heartbeat Subscription Set (5-byte payload) whose source
and destination are both the unassigned address is consumed and, whatever the
subscription state was, leaves the stored count, minimum hops, maximum hops
and period 0, both filters unassigned, the enabled flag cleared and the
window timer disarmed, while the window start is kept (a group destination
stored before is unregistered); the status response carries status success
and zero for both filters, the count and the hops, and its period byte is 0
when the clock is not behind the stored window start and otherwise the log of
the number of seconds by which the clock is behind it. -/
theorem heartbeat_sub_set_unassigned (C : Collab σ) (w : World σ)
    (src dst net_idx : Nat) (data : List Nat) (n : Nat)
    (hset : C.mesh_model_opcode_get data = some (.OP_CONFIG_HEARTBEAT_SUB_SET, n))
    (hlen : (data.drop n).length = 5)
    (hs : l_get_le16 (data.drop n) 0 = UNASSIGNED_ADDRESS)
    (hd : l_get_le16 (data.drop n) 2 = UNASSIGNED_ADDRESS) :
    let r := cfg_srv_pkt C w src dst APP_IDX_DEV_LOCAL net_idx data
    r.1 = true
    ∧ r.2.hb.sub_count = 0 ∧ r.2.hb.sub_min_hops = 0 ∧ r.2.hb.sub_max_hops = 0
    ∧ r.2.hb.sub_period = 0
    ∧ r.2.hb.sub_src = UNASSIGNED_ADDRESS ∧ r.2.hb.sub_dst = UNASSIGNED_ADDRESS
    ∧ r.2.hb.sub_enabled = false ∧ r.2.hb.sub_timer = none
    ∧ r.2.hb.sub_start = w.hb.sub_start
    ∧ r.2.calls = w.calls ++
        (if IS_GROUP w.hb.sub_dst then [Call.mesh_net_dst_unreg w.hb.sub_dst] else [])
    ∧ r.2.sent = w.sent ++
        [⟨dst, src, APP_IDX_DEV_LOCAL, net_idx, DEFAULT_TTL, false,
          C.mesh_model_opcode_set .OP_CONFIG_HEARTBEAT_SUB_STATUS
            ++ [0, 0, 0, 0, 0,
                (if w.hb.sub_start ≤ C.gettimeofday r.2.ext then 0
                 else uint32_to_log
                   ((w.hb.sub_start - C.gettimeofday r.2.ext) % 4294967296) % 256),
                0, 0, 0]⟩] := by
  intro r
  have hsz : data.length - n = 5 := by rw [← hlen]; simp
  have hr : r = _ := cfg_srv_pkt_eq C w src dst net_idx data _ n hset
  rw [hsz] at hr
  have hu : IS_UNASSIGNED UNASSIGNED_ADDRESS = true := by decide
  have hnv : IS_VIRTUAL UNASSIGNED_ADDRESS = false := by decide
  have hz : uint32_to_log 0 = 0 := by decide
  have hput : l_put_le16 UNASSIGNED_ADDRESS = [0, 0] := by decide
  have hst : u8 MESH_STATUS_SUCCESS = 0 := rfl
  have hneg : ¬ (MESH_STATUS_SUCCESS < 0) := by decide
  simp only [cfg_srv_switch, hb_subscription_set, hs, hd, hu, hnv, ne_eq, not_true_eq_false,
    if_false, Bool.not_true, Bool.false_and, Bool.or_self, Bool.false_eq_true,
    Bool.true_or, if_true, hneg, heartbeat_sub_get, false_and, reduceCtorEq] at hr
  by_cases hg : IS_GROUP w.hb.sub_dst = true
  · simp only [hg, if_true, World.step, hput, hst, sub_period_byte_zero, hz] at hr
    rw [if_pos (by simp)] at hr
    rw [hr]
    simp only [mesh_model_send]
    refine ⟨trivial, trivial, trivial, trivial, trivial, trivial, trivial, trivial, trivial,
      trivial, by simp [hg], ?_⟩
    simp
  · have hg2 : IS_GROUP w.hb.sub_dst = false := by simpa using hg
    simp only [hg2, Bool.false_eq_true, if_false, hput, hst, sub_period_byte_zero, hz] at hr
    rw [if_pos (by simp)] at hr
    rw [hr]
    simp only [mesh_model_send]
    refine ⟨trivial, trivial, trivial, trivial, trivial, trivial, trivial, trivial, trivial,
      trivial, by simp [hg], ?_⟩
    simp

/-- Witness for the amended C15 on the reference collaborator: from the
active subscription (source 0x0001, group 0xC000, 3 heartbeats counted), the
Set with both addresses unassigned unregisters the group and clears the
state; it is answered with zeros when the clock (100) is past the window
start (96), and with period byte 8 when the window start (200) is ahead of
the clock. -/
theorem heartbeat_sub_set_unassigned_witness :
    (cfg_srv_pkt sim world_sub_active 1 2 APP_IDX_DEV_LOCAL 0
        [0x80, 0x3B, 0x00, 0x00, 0x00, 0x00, 0x03]).2.hb.sub_count = 0
    ∧ (cfg_srv_pkt sim world_sub_active 1 2 APP_IDX_DEV_LOCAL 0
        [0x80, 0x3B, 0x00, 0x00, 0x00, 0x00, 0x03]).2.hb.sub_timer = none
    ∧ (cfg_srv_pkt sim world_sub_active 1 2 APP_IDX_DEV_LOCAL 0
        [0x80, 0x3B, 0x00, 0x00, 0x00, 0x00, 0x03]).2.calls
        = [Call.mesh_net_dst_unreg 0xC000]
    ∧ (cfg_srv_pkt sim world_sub_active 1 2 APP_IDX_DEV_LOCAL 0
        [0x80, 0x3B, 0x00, 0x00, 0x00, 0x00, 0x03]).2.sent
        = [⟨2, 1, 0x7fff, 0, 0xff, false,
            [0x80, 0x3C, 0x00, 0x00, 0x00, 0x00, 0x00, 0x00, 0x00, 0x00, 0x00]⟩]
    ∧ (cfg_srv_pkt sim world_sub_clock_behind 1 2 APP_IDX_DEV_LOCAL 0
        [0x80, 0x3B, 0x00, 0x00, 0x00, 0x00, 0x03]).2.hb.sub_period = 0
    ∧ (cfg_srv_pkt sim world_sub_clock_behind 1 2 APP_IDX_DEV_LOCAL 0
        [0x80, 0x3B, 0x00, 0x00, 0x00, 0x00, 0x03]).2.sent
        = [⟨2, 1, 0x7fff, 0, 0xff, false,
            [0x80, 0x3C, 0x00, 0x00, 0x00, 0x00, 0x00, 0x08, 0x00, 0x00, 0x00]⟩] := by
  have h := heartbeat_sub_set_unassigned sim world_sub_active 1 2 0
    [0x80, 0x3B, 0x00, 0x00, 0x00, 0x00, 0x03] 2 (by decide) (by decide) (by decide)
    (by decide)
  have h2 := heartbeat_sub_set_unassigned sim world_sub_clock_behind 1 2 0
    [0x80, 0x3B, 0x00, 0x00, 0x00, 0x00, 0x03] 2 (by decide) (by decide) (by decide)
    (by decide)
  exact ⟨h.2.1, h.2.2.2.2.2.2.2.2.1, h.2.2.2.2.2.2.2.2.2.2.1.trans (by decide),
    h.2.2.2.2.2.2.2.2.2.2.2.trans (by decide),
    h2.2.2.2.2.1, h2.2.2.2.2.2.2.2.2.2.2.2.trans (by decide)⟩

/-! ## C16: Heartbeat Subscription Set with period-log 0 on the stored filter -/

/-- C16, as written, fails on the reference collaborator: the active
subscription (source 0x0001, destination 0xC000, 3 heartbeats counted with
1 to 4 hops) is disabled by a Set with period-log 0 on the same filter, but
the count, the minimum hops and the maximum hops stay 3, 1 and 4, and the
status response reports them. -/
theorem heartbeat_sub_set_disable_keeps_counters :
    (cfg_srv_pkt sim world_sub_active 1 2 APP_IDX_DEV_LOCAL 0
        [0x80, 0x3B, 0x01, 0x00, 0x00, 0xC0, 0x00]).2.hb.sub_enabled = false
    ∧ (cfg_srv_pkt sim world_sub_active 1 2 APP_IDX_DEV_LOCAL 0
        [0x80, 0x3B, 0x01, 0x00, 0x00, 0xC0, 0x00]).2.hb.sub_timer = none
    ∧ (cfg_srv_pkt sim world_sub_active 1 2 APP_IDX_DEV_LOCAL 0
        [0x80, 0x3B, 0x01, 0x00, 0x00, 0xC0, 0x00]).2.hb.sub_count = 3
    ∧ (cfg_srv_pkt sim world_sub_active 1 2 APP_IDX_DEV_LOCAL 0
        [0x80, 0x3B, 0x01, 0x00, 0x00, 0xC0, 0x00]).2.hb.sub_min_hops = 1
    ∧ (cfg_srv_pkt sim world_sub_active 1 2 APP_IDX_DEV_LOCAL 0
        [0x80, 0x3B, 0x01, 0x00, 0x00, 0xC0, 0x00]).2.hb.sub_max_hops = 4
    ∧ (cfg_srv_pkt sim world_sub_active 1 2 APP_IDX_DEV_LOCAL 0
        [0x80, 0x3B, 0x01, 0x00, 0x00, 0xC0, 0x00]).2.sent
        = [⟨2, 1, 0x7fff, 0, 0xff, false,
            [0x80, 0x3C, 0x00, 0x01, 0x00, 0x00, 0xC0, 0x00, 0x03, 0x01, 0x04]⟩] := by
  decide

/-- C16, amended: a Heartbeat Subscription Set (5-byte payload) with
period-log 0 whose unicast source and assigned, non-virtual destination equal
the stored subscription filter is consumed and disables the subscription:
the enabled flag is cleared, the window timer disarmed and the period set to
0, while the collected data is preserved: the stored received-heartbeat
count, minimum hops, maximum hops, filter and window start are unchanged and
no collaborator is called.  The status response carries status success, the
filter, the log of the preserved count, the preserved maximum hops and, as
minimum hops, the preserved value when the count is nonzero and 0 when the
count is 0; its period byte is 0 when the clock is not behind the stored
window start and otherwise the log of the number of seconds by which the
clock is behind it. -/
theorem heartbeat_sub_set_disable (C : Collab σ) (w : World σ)
    (src dst net_idx : Nat) (data : List Nat) (n : Nat)
    (hset : C.mesh_model_opcode_get data = some (.OP_CONFIG_HEARTBEAT_SUB_SET, n))
    (hlen : (data.drop n).length = 5)
    (hp : byteAt (data.drop n) 4 = 0)
    (hs : l_get_le16 (data.drop n) 0 = w.hb.sub_src)
    (hd : l_get_le16 (data.drop n) 2 = w.hb.sub_dst)
    (hsu : IS_UNICAST w.hb.sub_src = true)
    (hda : IS_UNASSIGNED w.hb.sub_dst = false)
    (hdv : IS_VIRTUAL w.hb.sub_dst = false) :
    let r := cfg_srv_pkt C w src dst APP_IDX_DEV_LOCAL net_idx data
    r.1 = true
    ∧ r.2.hb.sub_enabled = false ∧ r.2.hb.sub_timer = none ∧ r.2.hb.sub_period = 0
    ∧ r.2.hb.sub_count = w.hb.sub_count
    ∧ r.2.hb.sub_min_hops = w.hb.sub_min_hops
    ∧ r.2.hb.sub_max_hops = w.hb.sub_max_hops
    ∧ r.2.hb.sub_src = w.hb.sub_src ∧ r.2.hb.sub_dst = w.hb.sub_dst
    ∧ r.2.hb.sub_start = w.hb.sub_start
    ∧ r.2.calls = w.calls ∧ r.2.ext = w.ext
    ∧ r.2.sent = w.sent ++
        [⟨dst, src, APP_IDX_DEV_LOCAL, net_idx, DEFAULT_TTL, false,
          C.mesh_model_opcode_set .OP_CONFIG_HEARTBEAT_SUB_STATUS
            ++ [0] ++ l_put_le16 w.hb.sub_src ++ l_put_le16 w.hb.sub_dst
            ++ [(if w.hb.sub_start ≤ C.gettimeofday w.ext then 0
                 else uint32_to_log
                   ((w.hb.sub_start - C.gettimeofday w.ext) % 4294967296) % 256),
                uint32_to_log w.hb.sub_count % 256,
                (if w.hb.sub_count ≠ 0 then w.hb.sub_min_hops else 0) % 256,
                w.hb.sub_max_hops % 256]⟩] := by
  intro r
  have hsz : data.length - n = 5 := by rw [← hlen]; simp
  have hr : r = _ := cfg_srv_pkt_eq C w src dst net_idx data _ n hset
  rw [hsz] at hr
  have hsa : IS_UNASSIGNED w.hb.sub_src = false := by
    revert hsu; simp only [IS_UNICAST, IS_UNASSIGNED]; intro h
    by_contra h2; simp at h2; simp [h2] at h
  have hneg : ¬ (MESH_STATUS_SUCCESS < 0) := by decide
  simp only [cfg_srv_switch, hb_subscription_set, hs, hd, hp, hsu, hsa, hda, hdv, ne_eq,
    not_true_eq_false, if_false, Bool.not_true, Bool.not_false, Bool.and_false, Bool.false_and,
    Bool.or_self, Bool.false_eq_true, and_self, if_true, hneg, heartbeat_sub_get, false_and,
    reduceCtorEq, sub_period_byte_zero] at hr
  rw [if_pos (by simp)] at hr
  rw [hr]
  have hst : u8 MESH_STATUS_SUCCESS = 0 := rfl
  simp only [mesh_model_send, hst]
  refine ⟨trivial, trivial, trivial, trivial, trivial, trivial, trivial, trivial, trivial,
    trivial, trivial, trivial, ?_⟩
  simp

/-- Witness for the amended C16 on the reference collaborator: disabling the
active subscription on its own filter keeps the count 3 and the hops 1 and
4, clears the enabled flag and the period, and calls no collaborator;
disabling a subscription that has counted nothing keeps the stored minimum
hops 0xff and reports 0; with the window start (200) ahead of the clock (100)
the period byte of the response is 8. -/
theorem heartbeat_sub_set_disable_witness :
    (cfg_srv_pkt sim world_sub_active 5 6 APP_IDX_DEV_LOCAL 0
        [0x80, 0x3B, 0x01, 0x00, 0x00, 0xC0, 0x00]).2.hb.sub_enabled = false
    ∧ (cfg_srv_pkt sim world_sub_active 5 6 APP_IDX_DEV_LOCAL 0
        [0x80, 0x3B, 0x01, 0x00, 0x00, 0xC0, 0x00]).2.hb.sub_period = 0
    ∧ (cfg_srv_pkt sim world_sub_active 5 6 APP_IDX_DEV_LOCAL 0
        [0x80, 0x3B, 0x01, 0x00, 0x00, 0xC0, 0x00]).2.hb.sub_count = 3
    ∧ (cfg_srv_pkt sim world_sub_active 5 6 APP_IDX_DEV_LOCAL 0
        [0x80, 0x3B, 0x01, 0x00, 0x00, 0xC0, 0x00]).2.calls = []
    ∧ (cfg_srv_pkt sim world_sub_active 5 6 APP_IDX_DEV_LOCAL 0
        [0x80, 0x3B, 0x01, 0x00, 0x00, 0xC0, 0x00]).2.sent
        = [⟨6, 5, 0x7fff, 0, 0xff, false,
            [0x80, 0x3C, 0x00, 0x01, 0x00, 0x00, 0xC0, 0x00, 0x03, 0x01, 0x04]⟩]
    ∧ (cfg_srv_pkt sim world_sub_fresh 5 6 APP_IDX_DEV_LOCAL 0
        [0x80, 0x3B, 0x01, 0x00, 0x00, 0xC0, 0x00]).2.hb.sub_min_hops = 0xff
    ∧ (cfg_srv_pkt sim world_sub_fresh 5 6 APP_IDX_DEV_LOCAL 0
        [0x80, 0x3B, 0x01, 0x00, 0x00, 0xC0, 0x00]).2.sent
        = [⟨6, 5, 0x7fff, 0, 0xff, false,
            [0x80, 0x3C, 0x00, 0x01, 0x00, 0x00, 0xC0, 0x00, 0x00, 0x00, 0x00]⟩]
    ∧ (cfg_srv_pkt sim world_sub_clock_behind 5 6 APP_IDX_DEV_LOCAL 0
        [0x80, 0x3B, 0x01, 0x00, 0x00, 0xC0, 0x00]).2.sent
        = [⟨6, 5, 0x7fff, 0, 0xff, false,
            [0x80, 0x3C, 0x00, 0x01, 0x00, 0x00, 0xC0, 0x08, 0x03, 0x01, 0x04]⟩] := by
  have h := heartbeat_sub_set_disable sim world_sub_active 5 6 0
    [0x80, 0x3B, 0x01, 0x00, 0x00, 0xC0, 0x00] 2 (by decide) (by decide) (by decide)
    (by decide) (by decide) (by decide) (by decide) (by decide)
  have h2 := heartbeat_sub_set_disable sim world_sub_fresh 5 6 0
    [0x80, 0x3B, 0x01, 0x00, 0x00, 0xC0, 0x00] 2 (by decide) (by decide) (by decide)
    (by decide) (by decide) (by decide) (by decide) (by decide)
  have h3 := heartbeat_sub_set_disable sim world_sub_clock_behind 5 6 0
    [0x80, 0x3B, 0x01, 0x00, 0x00, 0xC0, 0x00] 2 (by decide) (by decide) (by decide)
    (by decide) (by decide) (by decide) (by decide) (by decide)
  exact ⟨h.2.1, h.2.2.2.1, h.2.2.2.2.1, h.2.2.2.2.2.2.2.2.2.2.1.trans (by decide),
    h.2.2.2.2.2.2.2.2.2.2.2.2.trans (by decide),
    h2.2.2.2.2.2.1.trans (by decide), h2.2.2.2.2.2.2.2.2.2.2.2.2.trans (by decide),
    h3.2.2.2.2.2.2.2.2.2.2.2.2.trans (by decide)⟩

/-! ## C17: rejected Heartbeat Subscription Set -/

/-- C17: a 5-byte Heartbeat Subscription Set whose source is neither the
unassigned address nor a unicast address, or whose destination is a virtual
address, is rejected: `hb_subscription_set` returns -1 and leaves the world
as it was, and the dispatch consumes the message with the world unchanged: no
field of the heartbeat state, no timer, no registration call and no message
sent. -/
theorem heartbeat_sub_set_rejected (C : Collab σ) (w : World σ)
    (src dst net_idx : Nat) (data : List Nat) (n : Nat)
    (hset : C.mesh_model_opcode_get data = some (.OP_CONFIG_HEARTBEAT_SUB_SET, n))
    (hlen : (data.drop n).length = 5)
    (hrej : (IS_UNASSIGNED (l_get_le16 (data.drop n) 0) = false
              ∧ IS_UNICAST (l_get_le16 (data.drop n) 0) = false)
            ∨ IS_VIRTUAL (l_get_le16 (data.drop n) 2) = true) :
    hb_subscription_set C w (l_get_le16 (data.drop n) 0) (l_get_le16 (data.drop n) 2)
        (byteAt (data.drop n) 4) = (-1, w)
    ∧ cfg_srv_pkt C w src dst APP_IDX_DEV_LOCAL net_idx data = (true, w) := by
  have hsz : data.length - n = 5 := by rw [← hlen]; simp
  have hcond : ((!IS_UNASSIGNED (l_get_le16 (data.drop n) 0)
        && !IS_UNICAST (l_get_le16 (data.drop n) 0))
      || IS_VIRTUAL (l_get_le16 (data.drop n) 2)) = true := by
    rcases hrej with ⟨h1, h2⟩ | h
    · simp [h1, h2]
    · simp [h]
  have hfun : hb_subscription_set C w (l_get_le16 (data.drop n) 0)
      (l_get_le16 (data.drop n) 2) (byteAt (data.drop n) 4) = (-1, w) := by
    unfold hb_subscription_set
    simp only [hcond, if_true]
  refine ⟨hfun, ?_⟩
  rw [cfg_srv_pkt_eq C w src dst net_idx data _ n hset, hsz]
  simp only [cfg_srv_switch, hfun]
  simp

/-- Witness for C17 on the reference collaborator: a Set with the group
address 0xC001 as source leaves the active subscription as it was. -/
theorem heartbeat_sub_set_rejected_witness :
    hb_subscription_set sim world_sub_active 0xC001 0x0002 0x03 = (-1, world_sub_active)
    ∧ cfg_srv_pkt sim world_sub_active 1 2 APP_IDX_DEV_LOCAL 0
        [0x80, 0x3B, 0x01, 0xC0, 0x02, 0x00, 0x03] = (true, world_sub_active) :=
  heartbeat_sub_set_rejected sim world_sub_active 1 2 0
    [0x80, 0x3B, 0x01, 0xC0, 0x02, 0x00, 0x03] 2 (by decide) (by decide)
    (Or.inl (by decide))

/-! ## C18: the heartbeat log codec -/

/-- The loop of `uint32_to_log`, entered with `val = 2^k` and `ret = k + 1`
for a value of at most 2^16 that is above every smaller power of two: with
fuel for the remaining `16 - k` rounds and the exit, it returns `j + 1` for
the least `j` with `value ≤ 2^j`. -/
theorem uint32_to_log_loop_spec (d : Nat) :
    ∀ (k fuel value : Nat), k + d = 16 → value ≤ 2 ^ 16 → d + 1 ≤ fuel →
      (∀ i, i < k → 2 ^ i < value) →
      ∃ j, j ≤ 16 ∧ value ≤ 2 ^ j ∧ (∀ i, i < j → 2 ^ i < value)
        ∧ uint32_to_log_loop fuel value (2 ^ k) (k + 1) = some (j + 1) := by
  induction d with
  | zero =>
    intro k fuel value hk hv hf hinv
    have hk16 : k = 16 := by omega
    subst hk16
    obtain ⟨f, rfl⟩ : ∃ f, fuel = f + 1 := ⟨fuel - 1, by omega⟩
    refine ⟨16, le_refl _, hv, hinv, ?_⟩
    simp only [uint32_to_log_loop]
    rw [if_neg (by omega)]
  | succ d ih =>
    intro k fuel value hk hv hf hinv
    obtain ⟨f, rfl⟩ : ∃ f, fuel = f + 1 := ⟨fuel - 1, by omega⟩
    by_cases hlt : 2 ^ k < value
    · have hpow : 2 ^ (k + 1) ≤ 2 ^ 16 := Nat.pow_le_pow_right (by decide) (by omega)
      have hval : 2 ^ k * 2 % 4294967296 = 2 ^ (k + 1) := by
        rw [← Nat.pow_succ]
        exact Nat.mod_eq_of_lt (by omega)
      have hret : (k + 1 + 1) % 256 = k + 1 + 1 := Nat.mod_eq_of_lt (by omega)
      obtain ⟨j, hj, hvj, hmin, hloop⟩ := ih (k + 1) f value (by omega) hv (by omega)
        (by
          intro i hi
          by_cases hik : i < k
          · exact hinv i hik
          · have : i = k := by omega
            rw [this]; exact hlt)
      refine ⟨j, hj, hvj, hmin, ?_⟩
      simp only [uint32_to_log_loop]
      rw [if_pos hlt, hval, hret]
      exact hloop
    · refine ⟨k, by omega, by omega, hinv, ?_⟩
      simp only [uint32_to_log_loop]
      rw [if_neg hlt]

/-- For a value in 1..0x10000 the loop of `uint32_to_log` ends with any fuel
of at least 17, and `uint32_to_log` returns `j + 1` for the least `j` with
`value ≤ 2^j`. -/
theorem uint32_to_log_spec (v : Nat) (h1 : 1 ≤ v) (h2 : v ≤ 0x10000) :
    ∃ j, j ≤ 16 ∧ v ≤ 2 ^ j ∧ (∀ i, i < j → 2 ^ i < v) ∧ uint32_to_log v = j + 1
      ∧ ∀ fuel, 17 ≤ fuel → uint32_to_log_loop fuel v 1 1 = some (j + 1) := by
  obtain ⟨j, hj, hvj, hmin, hloop⟩ :=
    uint32_to_log_loop_spec 16 0 32 v (by decide) h2 (by decide) (by intro i hi; omega)
  refine ⟨j, hj, hvj, hmin, ?_, ?_⟩
  · unfold uint32_to_log
    rw [if_neg (by omega), if_neg (by omega)]
    simp only [pow_zero, zero_add] at hloop
    rw [hloop]; rfl
  · intro fuel hf
    obtain ⟨j2, _, hvj2, hmin2, hloop2⟩ :=
      uint32_to_log_loop_spec 16 0 fuel v (by decide) h2 (by omega) (by intro i hi; omega)
    have hjj : j2 = j := by
      rcases Nat.lt_trichotomy j2 j with h | h | h
      · exact absurd (hmin j2 h) (by omega)
      · exact h
      · exact absurd (hmin2 j h) (by omega)
    simp only [pow_zero, zero_add] at hloop2
    rw [hloop2, hjj]

/-- C18: the heartbeat log codec round-trips.  `log_to_uint32 l 1` is 0 for
l = 0, 2^(l-1) for l in 1..0x11 and 0xFFFF above; `uint32_to_log` undoes it
for every l in 0..0x11; `uint32_to_log` is 0 at 0, 0xFF above 0x10000 and,
for v in 1..0x10000, the least L of at least 1 with v ≤ 2^(L-1), its loop
ending with any fuel of at least 17 rounds. -/
theorem log_codec_round_trip :
    log_to_uint32 0 1 = 0
    ∧ (∀ l, 1 ≤ l → l ≤ 0x11 → log_to_uint32 l 1 = 2 ^ (l - 1))
    ∧ (∀ l, 0x11 < l → log_to_uint32 l 1 = 0xffff)
    ∧ (∀ l, l ≤ 0x11 → uint32_to_log (log_to_uint32 l 1) = l)
    ∧ uint32_to_log 0 = 0
    ∧ (∀ v, 0x10000 < v → uint32_to_log v = 0xff)
    ∧ (∀ v, 1 ≤ v → v ≤ 0x10000 →
        1 ≤ uint32_to_log v ∧ uint32_to_log v ≤ 0x11
        ∧ v ≤ 2 ^ (uint32_to_log v - 1)
        ∧ (∀ M, 1 ≤ M → v ≤ 2 ^ (M - 1) → uint32_to_log v ≤ M)
        ∧ ∀ fuel, 17 ≤ fuel →
            uint32_to_log_loop fuel v 1 1 = some (uint32_to_log v)) := by
  refine ⟨rfl, ?_, ?_, ?_, by decide, ?_, ?_⟩
  · intro l h1 h2
    unfold log_to_uint32
    rw [if_neg (by omega), if_neg (by omega)]
  · intro l h
    unfold log_to_uint32
    rw [if_neg (by omega), if_pos h]
  · intro l hl
    interval_cases l <;> decide
  · intro v hv
    unfold uint32_to_log
    rw [if_neg (by omega), if_pos hv]
  · intro v h1 h2
    obtain ⟨j, hj, hvj, hmin, hres, hfuel⟩ := uint32_to_log_spec v h1 h2
    rw [hres]
    refine ⟨by omega, by omega, by simpa using hvj, ?_, hfuel⟩
    intro M hM hvM
    by_contra hlt
    have : M - 1 < j := by omega
    exact absurd (hmin (M - 1) this) (by omega)

/-- Witness for C18: count-log 5 decodes to 16 and encodes back to 5, 1000
encodes to 11 (2^10 = 1024 is the least power of two reaching it), and the
loop ends with 17 rounds of fuel. -/
theorem log_codec_round_trip_witness :
    log_to_uint32 5 1 = 2 ^ (5 - 1)
    ∧ uint32_to_log (log_to_uint32 5 1) = 5
    ∧ uint32_to_log 0x20000 = 0xff
    ∧ 1000 ≤ 2 ^ (uint32_to_log 1000 - 1)
    ∧ uint32_to_log_loop 17 1000 1 1 = some (uint32_to_log 1000) :=
  ⟨log_codec_round_trip.2.1 5 (by decide) (by decide),
   log_codec_round_trip.2.2.2.1 5 (by decide),
   log_codec_round_trip.2.2.2.2.2.1 0x20000 (by decide),
   (log_codec_round_trip.2.2.2.2.2.2 1000 (by decide) (by decide)).2.2.1,
   (log_codec_round_trip.2.2.2.2.2.2 1000 (by decide) (by decide)).2.2.2.2 17 (by decide)⟩

/-! ## C19: Key Refresh Phase Set -/

/-- A status that came through `uint8_t` is unchanged by the conversion to
the response byte. -/
theorem u8_natCast_u8 (x : Int) : u8 ((u8 x : Nat) : Int) = u8 x := by
  unfold u8
  have h1 : 0 ≤ x % 256 := Int.emod_nonneg _ (by decide)
  have h2 : x % 256 < 256 := Int.emod_lt_of_pos _ (by decide)
  rw [Int.toNat_of_nonneg h1, Int.emod_emod_of_dvd _ (dvd_refl _)]

/-- C19: a Key Refresh Phase Set is processed only for a 3-byte payload with
a phase byte of at most 3; any other Set is consumed with the world
unchanged (nothing set, no response).  When processed, the setter is called
once, and the response carries, after the net-key index, the phase read back
from the state the setter left (0 when the read-back fails), and as status
the read-back's status when the read-back fails, the setter's result
otherwise. -/
theorem key_refresh_phase_set_response (C : Collab σ) (w : World σ)
    (src dst net_idx : Nat) (data : List Nat) (n : Nat)
    (hset : C.mesh_model_opcode_get data
      = some (.OP_CONFIG_KEY_REFRESH_PHASE_SET, n)) :
    let pkt := data.drop n
    let r := cfg_srv_pkt C w src dst APP_IDX_DEV_LOCAL net_idx data
    let s := C.mesh_net_key_refresh_phase_set w.ext (l_get_le16 pkt 0) (byteAt pkt 2)
    let g := C.mesh_net_key_refresh_phase_get s.2 (l_get_le16 pkt 0)
    (¬ (pkt.length = 3 ∧ byteAt pkt 2 ≤ 3) → r = (true, w))
    ∧ (pkt.length = 3 → byteAt pkt 2 ≤ 3 →
        r.1 = true
        ∧ r.2.calls = w.calls
            ++ [Call.mesh_net_key_refresh_phase_set (l_get_le16 pkt 0) (byteAt pkt 2)]
        ∧ r.2.ext = s.2 ∧ r.2.hb = w.hb
        ∧ r.2.sent = w.sent ++
            [⟨dst, src, APP_IDX_DEV_LOCAL, net_idx, DEFAULT_TTL, false,
              C.mesh_model_opcode_set .OP_CONFIG_KEY_REFRESH_PHASE_STATUS
                ++ [if u8 g.1 ≠ 0 then u8 g.1 else u8 s.1]
                ++ l_put_le16 (l_get_le16 pkt 0)
                ++ [if u8 g.1 ≠ 0 then 0 else g.2 % 256]⟩]) := by
  intro pkt r s g
  have hsz : data.length - n = pkt.length := by simp [pkt]
  have hr : r = _ := cfg_srv_pkt_eq C w src dst net_idx data _ n hset
  rw [hsz] at hr
  constructor
  · intro hnot
    have hcond : pkt.length ≠ 3 ∨ byteAt pkt 2 > 0x03 := by
      by_cases h : pkt.length = 3
      · right; by_contra h2; exact hnot ⟨h, by omega⟩
      · left; exact h
    rw [hr]
    simp only [cfg_srv_switch]
    rw [if_pos hcond]
  · intro hlen hph
    have hcond : ¬ (pkt.length ≠ 3 ∨ byteAt pkt 2 > 0x03) := by
      rintro (h | h)
      · exact h hlen
      · omega
    simp only [cfg_srv_switch] at hr
    rw [if_neg hcond] at hr
    simp only [key_refresh_phase_get, ne_eq, not_true_eq_false, if_false, World.step] at hr
    rw [if_pos (by simp)] at hr
    rw [hr]
    simp only [mesh_model_send]
    refine ⟨trivial, trivial, trivial, trivial, ?_⟩
    by_cases hst : u8 g.1 = 0
    · have hst2 : u8 (C.mesh_net_key_refresh_phase_get
          (C.mesh_net_key_refresh_phase_set w.ext (l_get_le16 pkt 0) (byteAt pkt 2)).2
          (l_get_le16 pkt 0)).1 = 0 := hst
      simp [hst2, MESH_STATUS_SUCCESS, s, g]
    · have hst2 : ¬ u8 (C.mesh_net_key_refresh_phase_get
          (C.mesh_net_key_refresh_phase_set w.ext (l_get_le16 pkt 0) (byteAt pkt 2)).2
          (l_get_le16 pkt 0)).1 = 0 := hst
      simp [hst2, MESH_STATUS_SUCCESS, KEY_REFRESH_PHASE_NONE, u8_natCast_u8, s, g]

/-- Witness for C19 on the reference collaborator: with net-key 0 in phase 2,
a Set asking for phase 3 is answered with status success and phase 2, and a
Set asking for phase 4 is consumed without any effect. -/
theorem key_refresh_phase_set_response_witness :
    (cfg_srv_pkt sim (world_of sim_phase2) 1 2 APP_IDX_DEV_LOCAL 0
        [0x80, 0x16, 0x00, 0x00, 0x03]).2.sent
      = [⟨2, 1, 0x7fff, 0, 0xff, false, [0x80, 0x17, 0x00, 0x00, 0x00, 0x02]⟩]
    ∧ (cfg_srv_pkt sim (world_of sim_phase2) 1 2 APP_IDX_DEV_LOCAL 0
        [0x80, 0x16, 0x00, 0x00, 0x03]).2.calls
      = [Call.mesh_net_key_refresh_phase_set 0 3]
    ∧ cfg_srv_pkt sim (world_of sim_phase2) 1 2 APP_IDX_DEV_LOCAL 0
        [0x80, 0x16, 0x00, 0x00, 0x04] = (true, world_of sim_phase2) :=
  ⟨((key_refresh_phase_set_response sim (world_of sim_phase2) 1 2 0
      [0x80, 0x16, 0x00, 0x00, 0x03] 2 (by decide)).2 (by decide) (by decide)).2.2.2.2,
   ((key_refresh_phase_set_response sim (world_of sim_phase2) 1 2 0
      [0x80, 0x16, 0x00, 0x00, 0x03] 2 (by decide)).2 (by decide) (by decide)).2.1,
   (key_refresh_phase_set_response sim (world_of sim_phase2) 1 2 0
      [0x80, 0x16, 0x00, 0x00, 0x04] 2 (by decide)).1 (by decide)⟩

/-- On the reference collaborator with an unreadable phase: the Set asking
for phase 1 is answered with the read-back's status 4 and phase 0. -/
theorem key_refresh_phase_set_unreadable :
    (cfg_srv_pkt sim (world_of sim_phase_unreadable) 1 2 APP_IDX_DEV_LOCAL 0
        [0x80, 0x16, 0x00, 0x00, 0x01]).2.sent
      = [⟨2, 1, 0x7fff, 0, 0xff, false, [0x80, 0x17, 0x04, 0x00, 0x00, 0x00]⟩] := by
  decide

/-! ## C20: the publication record handed to the persistent store -/

/-- The credential-flag test `!!(0x1000 & idx)` reads bit 12 of the index
field. -/
theorem credflag_bit (f : Nat) :
    ((0x1000 &&& f) != 0) = decide (f / 0x1000 % 2 = 1) := by
  have h1 : 0x1000 &&& f = (f.testBit 12).toNat * 2 ^ 12 := by
    rw [Nat.and_comm]; exact Nat.and_two_pow f 12
  have h2 : (2 : Nat) ^ 12 = 4096 := by norm_num
  rw [h1, Nat.testBit_to_div_mod, h2]
  by_cases hb : f / 4096 % 2 = 1
  · simp [hb]
  · simp [hb]

/-- C20: for every Model Publication Set, with a 16-bit or a virtual
destination, that is not to the unassigned address and that the registry
accepts, the handler calls the registry and then hands the store one record:
on-air address as resolved by the registry, app-key index = index field &
0xFFF (at most 0xFFF), credential flag = bit 0x1000 of the index field, TTL
and period of the request, count = retransmit & 7 (in 0..7), interval =
((retransmit >> 3) + 1) * 50 (a multiple of 50 in 50..1600); the retransmit
byte is count + 8 * (interval / 50 - 1). -/
theorem pub_set_store_record (C : Collab σ) (w : World σ) (net_idx src dst : Nat)
    (pkt : List Nat) (virt vendor : Bool)
    (hdst : virt = true ∨ (IS_UNASSIGNED (l_get_le16 pkt 2) = false
              ∧ IS_VIRTUAL (l_get_le16 pkt 2) = false))
    (hacc : (C.mesh_model_pub_set w.ext (pub_set_req pkt virt vendor).ele
              (pub_set_req pkt virt vendor).id (pkt.drop 2)
              (pub_set_req pkt virt vendor).idx (pub_set_req pkt virt vendor).cred
              (pub_set_req pkt virt vendor).ttl (pub_set_req pkt virt vendor).period
              (pub_set_req pkt virt vendor).retransmit virt).1 = MESH_STATUS_SUCCESS) :
    let off := if virt then 14 else 0
    let field := l_get_le16 pkt (off + 4)
    let retransmit := byteAt pkt (off + 8)
    let q := pub_set_req pkt virt vendor
    let reg := C.mesh_model_pub_set w.ext q.ele q.id (pkt.drop 2) q.idx q.cred
                 q.ttl q.period q.retransmit virt
    let key := if vendor then q.id else MODEL_ID q.id
    let db : mesh_config_pub :=
      { virt := virt, addr := reg.2.1.getD UNASSIGNED_ADDRESS, idx := field &&& 0xFFF,
        ttl := byteAt pkt (off + 6), credential := (0x1000 &&& field) != 0,
        period := byteAt pkt (off + 7), count := retransmit &&& 0x7,
        interval := ((retransmit >>> 3) + 1) * 50,
        virt_addr := if virt then (pkt.drop 2).take 16 else [] }
    (config_pub_set C w net_idx src dst pkt virt vendor).calls = w.calls ++
        [.mesh_model_pub_set q.ele q.id (pkt.drop 2) q.idx q.cred q.ttl q.period
           q.retransmit virt,
         .mesh_config_model_pub_add q.ele key vendor db]
      ∧ db.idx ≤ 0xFFF
      ∧ db.credential = decide (field / 0x1000 % 2 = 1)
      ∧ db.count ≤ 7 ∧ 50 ≤ db.interval ∧ db.interval ≤ 1600 ∧ db.interval % 50 = 0
      ∧ retransmit = db.count + 8 * (db.interval / 50 - 1) := by
  intro off field retransmit q reg key db
  have hnv : (!virt && IS_VIRTUAL (l_get_le16 pkt 2)) = false := by
    rcases hdst with h | ⟨_, h⟩
    · simp [h]
    · simp [h]
  have hnu : (IS_UNASSIGNED (l_get_le16 pkt 2) && !virt) = false := by
    rcases hdst with h | ⟨h, _⟩
    · simp [h]
    · simp [h]
  have hreal := config_pub_set_real C w net_idx src dst pkt virt vendor hnv hnu hacc
  have hrt : retransmit < 256 := byteAt_lt _ _
  have hcnt : retransmit &&& 0x7 = retransmit % 8 :=
    Nat.and_pow_two_sub_one_eq_mod retransmit 3
  have hshift : retransmit >>> 3 = retransmit / 8 := Nat.shiftRight_eq_div_pow retransmit 3
  have hcred : ((0x1000 &&& field) != 0) = decide (field / 0x1000 % 2 = 1) :=
    credflag_bit field
  refine ⟨?_, Nat.and_le_right, hcred, ?_, ?_, ?_, ?_, ?_⟩
  · rw [hreal]
    simp [send_pub_status, mesh_model_send, World.step, q, reg, key, db, pub_set_req,
      APP_IDX_MASK, CREDFLAG_MASK, field, retransmit, off]
  · show retransmit &&& 0x7 ≤ 7
    rw [hcnt]; omega
  · show 50 ≤ ((retransmit >>> 3) + 1) * 50
    rw [hshift]; omega
  · show ((retransmit >>> 3) + 1) * 50 ≤ 1600
    rw [hshift]; omega
  · show ((retransmit >>> 3) + 1) * 50 % 50 = 0
    simp
  · show retransmit = (retransmit &&& 0x7) + 8 * (((retransmit >>> 3) + 1) * 50 / 50 - 1)
    rw [hcnt, hshift, Nat.mul_div_cancel _ (by decide : 0 < 50)]
    omega

/-- Witness for C20 on the reference collaborator: the Set for model 0x1000
of element 0x0100 to the group 0xC001 with index field 0x1005 and retransmit
byte 0x2B stores index 5 with the credential flag, count 3 and interval 300,
and 0x2B = 3 + 8 * (300 / 50 - 1). -/
theorem pub_set_store_record_witness :
    (config_pub_set sim (world_of sim0) 0 1 2
        [0x00, 0x01, 0x01, 0xC0, 0x05, 0x10, 0x07, 0x0A, 0x2B, 0x00, 0x10] false false).calls
      = [.mesh_model_pub_set 0x0100 0xffff1000
           [0x01, 0xC0, 0x05, 0x10, 0x07, 0x0A, 0x2B, 0x00, 0x10] 5 true 7 10 0x2B false,
         .mesh_config_model_pub_add 0x0100 0x1000 false
           { virt := false, addr := 0xC001, idx := 5, ttl := 7, credential := true,
             period := 10, count := 3, interval := 300, virt_addr := [] }]
    ∧ 0x2B = 3 + 8 * (300 / 50 - 1) :=
  ⟨(pub_set_store_record sim (world_of sim0) 0 1 2
      [0x00, 0x01, 0x01, 0xC0, 0x05, 0x10, 0x07, 0x0A, 0x2B, 0x00, 0x10] false false
      (Or.inr ⟨by decide, by decide⟩) (by decide)).1.trans (by decide),
   by decide⟩

/-! ## C21: publication status when the persistent store fails -/

/-- The handler `config_pub_set` on an accepted Set to the unassigned address
(not the virtual variant): the registry is called, the store is asked to
delete the record, and the status carries index, TTL and period 0. -/
theorem config_pub_set_unassigned (C : Collab σ) (w : World σ) (net_idx src dst : Nat)
    (pkt : List Nat) (virt vendor : Bool)
    (hun : (IS_UNASSIGNED (l_get_le16 pkt 2) && !virt) = true)
    (hacc : (C.mesh_model_pub_set w.ext (pub_set_req pkt virt vendor).ele
              (pub_set_req pkt virt vendor).id (pkt.drop 2)
              (pub_set_req pkt virt vendor).idx (pub_set_req pkt virt vendor).cred
              (pub_set_req pkt virt vendor).ttl (pub_set_req pkt virt vendor).period
              (pub_set_req pkt virt vendor).retransmit virt).1 = MESH_STATUS_SUCCESS) :
    config_pub_set C w net_idx src dst pkt virt vendor =
      (let q := pub_set_req pkt virt vendor
       let reg := C.mesh_model_pub_set w.ext q.ele q.id (pkt.drop 2) q.idx q.cred
                    q.ttl q.period q.retransmit virt
       let ota := reg.2.1.getD UNASSIGNED_ADDRESS
       let key := if vendor then q.id else MODEL_ID q.id
       let w1 := w.step (.mesh_model_pub_set q.ele q.id (pkt.drop 2) q.idx q.cred
                   q.ttl q.period q.retransmit virt) reg.2.2
       let d := C.mesh_config_model_pub_del w1.ext q.ele key vendor
       let w2 := w1.step (.mesh_config_model_pub_del q.ele key vendor) d.2
       send_pub_status C w2 net_idx src dst (if d.1 then 0 else 9) q.ele q.id ota
         0 q.cred 0 0 q.retransmit) := by
  have hnv : (!virt && IS_VIRTUAL (l_get_le16 pkt 2)) = false := by
    cases virt
    · have hu : IS_UNASSIGNED (l_get_le16 pkt 2) = true := by simpa using hun
      have h0 : l_get_le16 pkt 2 = UNASSIGNED_ADDRESS := by
        simpa [IS_UNASSIGNED] using hu
      rw [h0]; rfl
    · rfl
  unfold config_pub_set
  simp only [pub_set_req] at hacc ⊢
  simp only [l_get_le16_drop, Nat.add_zero, hnv, hun, Bool.false_eq_true, if_false, if_true,
    hacc, ne_eq, not_true_eq_false]
  cases h : (C.mesh_config_model_pub_del _ _ _ _).1 <;> simp [h] <;> rfl

/-- C21: for every Model Publication Set (16-bit or virtual destination) that
is not dropped for a virtual-looking address and that the registry accepts,
exactly one publication status is sent to the requester.  When the store's
delete (unassigned destination) or add (any other destination) fails, its
status byte is storage-fail; when the store succeeds it is success; and the
bytes after the status byte are the same in both cases, as they are made of
the request and of the registry's answer only. -/
theorem pub_set_storage_fail (C : Collab σ) (w : World σ) (net_idx src dst : Nat)
    (pkt : List Nat) (virt vendor : Bool)
    (hnv : (!virt && IS_VIRTUAL (l_get_le16 pkt 2)) = false)
    (hacc : (C.mesh_model_pub_set w.ext (pub_set_req pkt virt vendor).ele
              (pub_set_req pkt virt vendor).id (pkt.drop 2)
              (pub_set_req pkt virt vendor).idx (pub_set_req pkt virt vendor).cred
              (pub_set_req pkt virt vendor).ttl (pub_set_req pkt virt vendor).period
              (pub_set_req pkt virt vendor).retransmit virt).1 = MESH_STATUS_SUCCESS) :
    let q := pub_set_req pkt virt vendor
    let reg := C.mesh_model_pub_set w.ext q.ele q.id (pkt.drop 2) q.idx q.cred
                 q.ttl q.period q.retransmit virt
    let ota := reg.2.1.getD UNASSIGNED_ADDRESS
    let key := if vendor then q.id else MODEL_ID q.id
    let unassigned := IS_UNASSIGNED (l_get_le16 pkt 2) && !virt
    let db : mesh_config_pub :=
      { virt := virt, addr := ota, idx := q.idx, ttl := q.ttl, credential := q.cred,
        period := q.period, count := q.retransmit &&& 0x7,
        interval := ((q.retransmit >>> 3) + 1) * 50,
        virt_addr := if virt then (pkt.drop 2).take 16 else [] }
    let stored : Bool :=
      if unassigned then (C.mesh_config_model_pub_del reg.2.2 q.ele key vendor).1
      else (C.mesh_config_model_pub_add reg.2.2 q.ele key vendor db).1
    let fields : List Nat :=
      l_put_le16 q.ele ++ l_put_le16 ota
        ++ l_put_le16 ((if unassigned then 0 else q.idx)
                        ||| (if q.cred then CREDFLAG_MASK else 0))
        ++ [(if unassigned then 0 else q.ttl) % 256,
            (if unassigned then 0 else q.period) % 256, q.retransmit % 256]
        ++ put_model_id q.id
    let r := config_pub_set C w net_idx src dst pkt virt vendor
    (stored = false →
      r.sent = w.sent ++
        [⟨dst, src, APP_IDX_DEV_LOCAL, net_idx, DEFAULT_TTL, false,
          C.mesh_model_opcode_set .OP_CONFIG_MODEL_PUB_STATUS
            ++ [u8 MESH_STATUS_STORAGE_FAIL] ++ fields⟩])
    ∧ (stored = true →
      r.sent = w.sent ++
        [⟨dst, src, APP_IDX_DEV_LOCAL, net_idx, DEFAULT_TTL, false,
          C.mesh_model_opcode_set .OP_CONFIG_MODEL_PUB_STATUS
            ++ [u8 MESH_STATUS_SUCCESS] ++ fields⟩]) := by
  intro q reg ota key unassigned db stored fields r
  have hfact : r.sent = w.sent ++
      [⟨dst, src, APP_IDX_DEV_LOCAL, net_idx, DEFAULT_TTL, false,
        C.mesh_model_opcode_set .OP_CONFIG_MODEL_PUB_STATUS
          ++ [if stored then 0 else 9] ++ fields⟩] := by
    show (config_pub_set C w net_idx src dst pkt virt vendor).sent = _
    by_cases hu : unassigned = true
    · rw [config_pub_set_unassigned C w net_idx src dst pkt virt vendor hu hacc]
      simp only [send_pub_status, mesh_model_send, World.step, pub_status_body]
      cases hs : stored <;> simp [stored, hu] at hs <;>
        simp [hs, fields, hu, q, reg, ota, key]
    · have hu3 : unassigned = false := by simpa using hu
      rw [config_pub_set_real C w net_idx src dst pkt virt vendor hnv hu3 hacc]
      simp only [send_pub_status, mesh_model_send, World.step, pub_status_body]
      cases hs : stored <;> simp [stored, hu3] at hs <;>
        simp [hs, fields, hu3, q, reg, ota, key, db]
  constructor
  · intro hf
    rw [hfact, hf]; rfl
  · intro ht
    rw [hfact, ht]; rfl

/-- Witness for C21 on the reference collaborator: the accepted Set for
model 0x1000 of element 0x0100 to group 0xC001 is answered with storage-fail
(0x09) when the store fails and with success when it works, the other bytes
being the same; the Set to the unassigned address is answered with
storage-fail as well when the delete fails. -/
theorem pub_set_storage_fail_witness :
    (config_pub_set sim (world_of sim_store_down) 0 1 2
        [0x00, 0x01, 0x01, 0xC0, 0x05, 0x10, 0x07, 0x0A, 0x2B, 0x00, 0x10] false false).sent
      = [⟨2, 1, 0x7fff, 0, 0xff, false,
          [0x80, 0x19, 0x09, 0x00, 0x01, 0x01, 0xC0, 0x05, 0x10, 0x07, 0x0A, 0x2B,
           0x00, 0x10]⟩]
    ∧ (config_pub_set sim (world_of sim0) 0 1 2
        [0x00, 0x01, 0x01, 0xC0, 0x05, 0x10, 0x07, 0x0A, 0x2B, 0x00, 0x10] false false).sent
      = [⟨2, 1, 0x7fff, 0, 0xff, false,
          [0x80, 0x19, 0x00, 0x00, 0x01, 0x01, 0xC0, 0x05, 0x10, 0x07, 0x0A, 0x2B,
           0x00, 0x10]⟩]
    ∧ (config_pub_set sim (world_of sim_store_down) 0 1 2
        [0x00, 0x01, 0x00, 0x00, 0x05, 0x10, 0x07, 0x0A, 0x2B, 0x00, 0x10] false false).sent
      = [⟨2, 1, 0x7fff, 0, 0xff, false,
          [0x80, 0x19, 0x09, 0x00, 0x01, 0x00, 0x00, 0x00, 0x10, 0x00, 0x00, 0x2B,
           0x00, 0x10]⟩] :=
  ⟨((pub_set_storage_fail sim (world_of sim_store_down) 0 1 2
      [0x00, 0x01, 0x01, 0xC0, 0x05, 0x10, 0x07, 0x0A, 0x2B, 0x00, 0x10] false false
      (by decide) (by decide)).1 (by decide)).trans (by decide),
   ((pub_set_storage_fail sim (world_of sim0) 0 1 2
      [0x00, 0x01, 0x01, 0xC0, 0x05, 0x10, 0x07, 0x0A, 0x2B, 0x00, 0x10] false false
      (by decide) (by decide)).2 (by decide)).trans (by decide),
   ((pub_set_storage_fail sim (world_of sim_store_down) 0 1 2
      [0x00, 0x01, 0x00, 0x00, 0x05, 0x10, 0x07, 0x0A, 0x2B, 0x00, 0x10] false false
      (by decide) (by decide)).1 (by decide)).trans (by decide)⟩

/-! ## Lemmas on the responses -/

theorem u8_mod (x : Int) : u8 x % 256 = u8 x := by
  unfold u8
  have h1 : 0 ≤ x % 256 := Int.emod_nonneg _ (by decide)
  have h2 : x % 256 < 256 := Int.emod_lt_of_pos _ (by decide)
  omega

theorem statusMsg_plain (C : Collab σ) (P : Int → Prop) (op : Opcode) (rest : List Nat)
    (h : has_status_byte op = false) :
    StatusMsg C P (C.mesh_model_opcode_set op ++ rest) :=
  ⟨op, rest, rfl, fun h2 => by rw [h] at h2; exact absurd h2 (by decide)⟩

theorem statusMsg_code (C : Collab σ) (P : Int → Prop) (op : Opcode) (c : Int)
    (tail : List Nat) (hc : P c ∨ local_status c) :
    StatusMsg C P (C.mesh_model_opcode_set op ++ u8 c :: tail) :=
  ⟨op, u8 c :: tail, rfl, fun _ => ⟨c, tail, rfl, hc⟩⟩

theorem sends_refl (C : Collab σ) (P : Int → Prop) (src dst net_idx : Nat)
    (w w1 : World σ) (h : w1.sent = w.sent) : Sends C P src dst net_idx w w1 :=
  Or.inl h

theorem sends_send (C : Collab σ) (P : Int → Prop) (src dst net_idx : Nat)
    (w w1 : World σ) (msg : List Nat) (h : w1.sent = w.sent) (hm : StatusMsg C P msg) :
    Sends C P src dst net_idx w
      (mesh_model_send w1 dst src APP_IDX_DEV_LOCAL net_idx DEFAULT_TTL false msg) :=
  Or.inr ⟨⟨dst, src, APP_IDX_DEV_LOCAL, net_idx, DEFAULT_TTL, false, msg⟩,
    by simp [mesh_model_send, h], rfl, rfl, rfl, rfl, rfl, rfl, hm⟩

theorem status_of_stored (P : Int → Prop) (b : Bool) :
    ∃ c, (if b = true then 0 else 9) = u8 c ∧ (P c ∨ local_status c) := by
  cases b
  · exact ⟨MESH_STATUS_STORAGE_FAIL, rfl, Or.inr (Or.inr rfl)⟩
  · exact ⟨MESH_STATUS_SUCCESS, rfl, Or.inr (Or.inl rfl)⟩

theorem send_pub_status_sends (C : Collab σ) (P : Int → Prop) (src dst net_idx : Nat)
    (w w1 : World σ) (h : w1.sent = w.sent) (s : Nat)
    (hs : ∃ c, s = u8 c ∧ (P c ∨ local_status c))
    (ele_addr id pub_addr idx : Nat) (cred_flag : Bool) (ttl period retransmit : Nat) :
    Sends C P src dst net_idx w
      (send_pub_status C w1 net_idx src dst s ele_addr id pub_addr idx cred_flag
        ttl period retransmit) := by
  obtain ⟨c, rfl, hc⟩ := hs
  unfold send_pub_status pub_status_body
  simp only [List.append_assoc, List.singleton_append, List.cons_append, u8_mod]
  exact sends_send C P src dst net_idx w w1 _ h (statusMsg_code C P _ c _ hc)

theorem send_sub_status_sends (C : Collab σ) (P : Int → Prop) (src dst net_idx : Nat)
    (w w1 : World σ) (h : w1.sent = w.sent) (s : Nat)
    (hs : ∃ c, s = u8 c ∧ (P c ∨ local_status c))
    (ele_addr addr id : Nat) :
    Sends C P src dst net_idx w
      (send_sub_status C w1 net_idx src dst s ele_addr addr id) := by
  obtain ⟨c, rfl, hc⟩ := hs
  unfold send_sub_status
  simp only [List.append_assoc, List.singleton_append, List.cons_append, u8_mod]
  exact sends_send C P src dst net_idx w w1 _ h (statusMsg_code C P _ c _ hc)

theorem send_model_app_status_sends (C : Collab σ) (P : Int → Prop)
    (src dst net_idx : Nat) (w w1 : World σ) (h : w1.sent = w.sent) (s : Nat)
    (hs : ∃ c, s = u8 c ∧ (P c ∨ local_status c)) (addr id idx : Nat) :
    Sends C P src dst net_idx w
      (send_model_app_status C w1 net_idx src dst s addr id idx) := by
  obtain ⟨c, rfl, hc⟩ := hs
  unfold send_model_app_status
  simp only [List.append_assoc, List.singleton_append, List.cons_append, u8_mod]
  exact sends_send C P src dst net_idx w w1 _ h (statusMsg_code C P _ c _ hc)

theorem config_pub_get_sends (C : Collab σ) (P : Int → Prop) (w : World σ)
    (net_idx src dst : Nat) (pkt : List Nat) (size : Nat)
    (hP : ∀ c ∈ config_pub_get_returns C w.ext pkt size, P c) :
    Sends C P src dst net_idx w (config_pub_get C w net_idx src dst pkt size) := by
  unfold config_pub_get
  dsimp only
  by_cases h4 : size = 4
  · have hm : P (C.mesh_model_pub_get w.ext (l_get_le16 pkt 0)
        (SET_ID SIG_VENDOR (l_get_le16 pkt 2))).2 :=
      hP _ (by simp [config_pub_get_returns, h4])
    simp only [if_pos h4]
    repeat' split
    all_goals
      exact send_pub_status_sends C P src dst net_idx w _ (by rfl) _
        ⟨_, rfl, Or.inl hm⟩ _ _ _ _ _ _ _ _
  · by_cases h6 : size = 6
    · have hm : P (C.mesh_model_pub_get w.ext (l_get_le16 pkt 0)
          (SET_ID (l_get_le16 pkt 2) (l_get_le16 pkt 4))).2 :=
        hP _ (by simp [config_pub_get_returns, h6])
      simp only [if_neg h4, if_pos h6]
      repeat' split
      all_goals
        exact send_pub_status_sends C P src dst net_idx w _ (by rfl) _
          ⟨_, rfl, Or.inl hm⟩ _ _ _ _ _ _ _ _
    · simp only [h4, h6, if_false]
      exact sends_refl C P src dst net_idx w w rfl

theorem config_pub_set_dropped (C : Collab σ) (w : World σ) (net_idx src dst : Nat)
    (pkt : List Nat) (virt vendor : Bool)
    (hv : (!virt && IS_VIRTUAL (l_get_le16 pkt 2)) = true) :
    config_pub_set C w net_idx src dst pkt virt vendor = w := by
  unfold config_pub_set
  simp only [l_get_le16_drop, Nat.add_zero, hv, if_true]

theorem config_pub_set_refused (C : Collab σ) (w : World σ) (net_idx src dst : Nat)
    (pkt : List Nat) (virt vendor : Bool)
    (hnv : (!virt && IS_VIRTUAL (l_get_le16 pkt 2)) = false)
    (hrej : (C.mesh_model_pub_set w.ext (pub_set_req pkt virt vendor).ele
              (pub_set_req pkt virt vendor).id (pkt.drop 2)
              (pub_set_req pkt virt vendor).idx (pub_set_req pkt virt vendor).cred
              (pub_set_req pkt virt vendor).ttl (pub_set_req pkt virt vendor).period
              (pub_set_req pkt virt vendor).retransmit virt).1 ≠ MESH_STATUS_SUCCESS) :
    config_pub_set C w net_idx src dst pkt virt vendor =
      (let q := pub_set_req pkt virt vendor
       let reg := C.mesh_model_pub_set w.ext q.ele q.id (pkt.drop 2) q.idx q.cred
                    q.ttl q.period q.retransmit virt
       let w1 := w.step (.mesh_model_pub_set q.ele q.id (pkt.drop 2) q.idx q.cred
                   q.ttl q.period q.retransmit virt) reg.2.2
       send_pub_status C w1 net_idx src dst (u8 reg.1) q.ele q.id 0 0 false 0 0 0) := by
  unfold config_pub_set
  simp only [pub_set_req] at hrej ⊢
  simp only [l_get_le16_drop, Nat.add_zero, hnv, Bool.false_eq_true, if_false, hrej,
    ne_eq, not_false_eq_true, if_true]

theorem config_pub_set_sends (C : Collab σ) (P : Int → Prop) (w : World σ)
    (net_idx src dst : Nat) (pkt : List Nat) (virt vendor : Bool)
    (hP : ∀ c ∈ config_pub_set_returns C w.ext pkt virt vendor, P c) :
    Sends C P src dst net_idx w (config_pub_set C w net_idx src dst pkt virt vendor) := by
  by_cases hv : (!virt && IS_VIRTUAL (l_get_le16 pkt 2)) = true
  · rw [config_pub_set_dropped C w net_idx src dst pkt virt vendor hv]
    exact sends_refl C P src dst net_idx w w rfl
  · have hnv : (!virt && IS_VIRTUAL (l_get_le16 pkt 2)) = false := by simpa using hv
    by_cases hacc : (C.mesh_model_pub_set w.ext (pub_set_req pkt virt vendor).ele
              (pub_set_req pkt virt vendor).id (pkt.drop 2)
              (pub_set_req pkt virt vendor).idx (pub_set_req pkt virt vendor).cred
              (pub_set_req pkt virt vendor).ttl (pub_set_req pkt virt vendor).period
              (pub_set_req pkt virt vendor).retransmit virt).1 = MESH_STATUS_SUCCESS
    · by_cases hu : (IS_UNASSIGNED (l_get_le16 pkt 2) && !virt) = true
      · rw [config_pub_set_unassigned C w net_idx src dst pkt virt vendor hu hacc]
        exact send_pub_status_sends C P src dst net_idx w _ (by rfl) _
          (status_of_stored P _) _ _ _ _ _ _ _ _
      · have hnu : (IS_UNASSIGNED (l_get_le16 pkt 2) && !virt) = false := by simpa using hu
        rw [config_pub_set_real C w net_idx src dst pkt virt vendor hnv hnu hacc]
        exact send_pub_status_sends C P src dst net_idx w _ (by rfl) _
          (status_of_stored P _) _ _ _ _ _ _ _ _
    · rw [config_pub_set_refused C w net_idx src dst pkt virt vendor hnv hacc]
      have hmem : config_pub_set_returns C w.ext pkt virt vendor
          = [(C.mesh_model_pub_set w.ext (pub_set_req pkt virt vendor).ele
              (pub_set_req pkt virt vendor).id (pkt.drop 2)
              (pub_set_req pkt virt vendor).idx (pub_set_req pkt virt vendor).cred
              (pub_set_req pkt virt vendor).ttl (pub_set_req pkt virt vendor).period
              (pub_set_req pkt virt vendor).retransmit virt).1] := by
        unfold config_pub_set_returns
        rw [l_get_le16_drop, Nat.add_zero, hnv]
        rfl
      exact send_pub_status_sends C P src dst net_idx w _ (by rfl) _
        ⟨_, rfl, Or.inl (hP _ (by rw [hmem]; exact List.mem_singleton_self _))⟩
        _ _ _ _ _ _ _ _

theorem save_config_sub_sent (C : Collab σ) (w : World σ) (ele_addr id : Nat)
    (vendor : Bool) (addr : List Nat) (virt : Bool) (grp : Nat) (opcode : Opcode) :
    (save_config_sub C w ele_addr id vendor addr virt grp opcode).2.sent = w.sent := by
  unfold save_config_sub
  dsimp only
  repeat' split
  all_goals rfl

theorem config_sub_get_sends (C : Collab σ) (P : Int → Prop) (w : World σ)
    (net_idx src dst : Nat) (pkt : List Nat) (size : Nat)
    (hP : ∀ c ∈ config_sub_get_returns C w.ext pkt size, P c) :
    Sends C P src dst net_idx w (config_sub_get C w net_idx src dst pkt size).2 := by
  unfold config_sub_get
  dsimp only
  by_cases h4 : size = 4
  · have hm : P (C.mesh_model_sub_get w.ext (l_get_le16 pkt 0)
        (SET_ID SIG_VENDOR (l_get_le16 pkt 2)) (2 * MAX_GRP_PER_MOD)).1 :=
      hP _ (by simp [config_sub_get_returns, h4])
    simp only [h4, if_true, List.append_assoc, List.singleton_append, List.cons_append]
    exact sends_send C P src dst net_idx w w _ rfl
      (statusMsg_code C P _ _ _ (Or.inl hm))
  · by_cases h6 : size = 6
    · have hm : P (C.mesh_model_sub_get w.ext (l_get_le16 pkt 0)
          (SET_ID (l_get_le16 pkt 2) (l_get_le16 pkt 4)) (2 * MAX_GRP_PER_MOD)).1 :=
        hP _ (by simp [config_sub_get_returns, h6])
      simp only [h6, if_true, List.append_assoc, List.singleton_append, List.cons_append]
      exact sends_send C P src dst net_idx w w _ rfl
        (statusMsg_code C P _ _ _ (Or.inl hm))
    · simp only [h4, h6, if_false]
      exact sends_refl C P src dst net_idx w w rfl

theorem ite_sent (c : Prop) [Decidable c] (a b : World σ) (s : List Sent)
    (ha : a.sent = s) (hb : b.sent = s) : (if c then a else b).sent = s := by
  split <;> assumption

theorem sends_ite (C : Collab σ) (P : Int → Prop) (src dst net_idx : Nat) (w : World σ)
    (c : Prop) [Decidable c] (a b : World σ)
    (ha : Sends C P src dst net_idx w a) (hb : Sends C P src dst net_idx w b) :
    Sends C P src dst net_idx w (if c then a else b) := by
  split <;> assumption

theorem sends_dite (C : Collab σ) (P : Int → Prop) (src dst net_idx : Nat) (w : World σ)
    (c : Prop) [Decidable c] (a b : World σ)
    (ha : c → Sends C P src dst net_idx w a) (hb : ¬ c → Sends C P src dst net_idx w b) :
    Sends C P src dst net_idx w (if c then a else b) := by
  by_cases h : c
  · rw [if_pos h]; exact ha h
  · rw [if_neg h]; exact hb h

theorem status_ite (P : Int → Prop) (c : Prop) [Decidable c] (x y : Int)
    (hx : P x ∨ local_status x) (hy : P y ∨ local_status y) :
    P (if c then x else y) ∨ local_status (if c then x else y) := by
  split <;> assumption

theorem config_sub_set_sends (C : Collab σ) (P : Int → Prop) (w : World σ)
    (net_idx src dst : Nat) (pkt : List Nat) (size : Nat)
    (virt : Bool) (opcode : Opcode)
    (hP : ∀ c ∈ config_sub_set_returns C w.ext pkt size virt opcode, P c) :
    Sends C P src dst net_idx w
      (config_sub_set C w net_idx src dst pkt size virt opcode) := by
  revert hP
  unfold config_sub_set config_sub_set_returns
  cases config_sub_set_id pkt size virt opcode with
  | none => intro _; exact sends_refl C P src dst net_idx w w rfl
  | some p =>
    obtain ⟨id, vendor⟩ := p
    intro hP
    dsimp only at hP ⊢
    refine sends_dite C P src dst net_idx w _ _ _ (fun h1 => ?_) (fun h1 =>
      sends_dite C P src dst net_idx w _ _ _ (fun h2 => ?_) (fun h2 =>
        sends_dite C P src dst net_idx w _ _ _ (fun h3 => ?_) (fun h3 =>
          sends_dite C P src dst net_idx w _ _ _ (fun h4 => ?_)
            (fun _ => sends_refl C P src dst net_idx w w rfl))))
    · rw [if_pos h1] at hP
      refine send_sub_status_sends C P src dst net_idx w _ ?_ _ ?_ _ _ _
      · exact ite_sent _ _ _ _ rfl rfl
      · exact ⟨_, rfl, Or.inl (hP _ (List.mem_singleton_self _))⟩
    · rw [if_neg h1, if_pos h2] at hP
      refine send_sub_status_sends C P src dst net_idx w _ ?_ _ ?_ _ _ _
      · exact ite_sent _ _ _ _ ((save_config_sub_sent _ _ _ _ _ _ _ _ _).trans rfl) rfl
      · exact ⟨_, rfl, Or.inl (hP _ (List.mem_singleton_self _))⟩
    · rw [if_neg h1, if_neg h2, if_pos h3] at hP
      refine sends_ite C P src dst net_idx w _ _ _ ?_ ?_
      · refine send_sub_status_sends C P src dst net_idx w _ ?_ _ ?_ _ _ _
        · exact (save_config_sub_sent _ _ _ _ _ _ _ _ _).trans rfl
        · exact ⟨_, rfl, status_ite P _ _ _ (Or.inr (Or.inr rfl))
            (Or.inl (hP _ (List.mem_singleton_self _)))⟩
      · refine send_sub_status_sends C P src dst net_idx w _ ?_ _ ?_ _ _ _
        · rfl
        · exact ⟨_, rfl, Or.inl (hP _ (List.mem_singleton_self _))⟩
    · rw [if_neg h1, if_neg h2, if_neg h3, if_pos h4] at hP
      refine send_sub_status_sends C P src dst net_idx w _ ?_ _ ?_ _ _ _
      · exact ite_sent _ _ _ _ ((save_config_sub_sent _ _ _ _ _ _ _ _ _).trans rfl) rfl
      · exact ⟨_, rfl, Or.inl (hP _ (List.mem_singleton_self _))⟩

theorem model_app_list_sends (C : Collab σ) (P : Int → Prop) (w : World σ)
    (net_idx src dst : Nat) (pkt : List Nat) (size : Nat)
    (hP : ∀ c ∈ model_app_list_returns C w.ext pkt size, P c) :
    Sends C P src dst net_idx w (model_app_list C w net_idx src dst pkt size) := by
  unfold model_app_list
  unfold model_app_list_returns at hP
  dsimp only at hP ⊢
  by_cases h4 : size = 4
  · simp only [h4, if_true] at hP
    simp only [h4, if_true, List.append_assoc, List.singleton_append, List.cons_append]
    refine sends_ite C P src dst net_idx w _ _ _ ?_ (sends_refl C P src dst net_idx w w rfl)
    exact sends_send C P src dst net_idx w w _ rfl
      (statusMsg_code C P _ _ _ (Or.inl (hP _ (List.mem_singleton_self _))))
  · by_cases h6 : size = 6
    · simp only [h6, if_true] at hP
      simp only [h6, if_true, List.append_assoc, List.singleton_append, List.cons_append]
      refine sends_ite C P src dst net_idx w _ _ _ ?_ (sends_refl C P src dst net_idx w w rfl)
      exact sends_send C P src dst net_idx w w _ rfl
        (statusMsg_code C P _ _ _ (Or.inl (hP _ (List.mem_singleton_self _))))
    · simp only [h4, h6, if_false]
      exact sends_refl C P src dst net_idx w w rfl

theorem model_app_bind_sends (C : Collab σ) (P : Int → Prop) (w : World σ)
    (net_idx src dst : Nat) (pkt : List Nat) (size : Nat) (unbind : Bool)
    (hP : ∀ c ∈ model_app_bind_returns C w.ext pkt size unbind, P c) :
    Sends C P src dst net_idx w (model_app_bind C w net_idx src dst pkt size unbind).2 := by
  unfold model_app_bind
  unfold model_app_bind_returns at hP
  dsimp only at hP ⊢
  have hbody : ∀ id : Nat,
      (∀ c ∈ (if l_get_le16 pkt 2 > 0xfff then ([] : List Int)
          else if unbind = true then
            [(C.mesh_model_binding_del w.ext (l_get_le16 pkt 0) id (l_get_le16 pkt 2)).1]
          else
            [(C.mesh_model_binding_add w.ext (l_get_le16 pkt 0) id (l_get_le16 pkt 2)).1]),
        P c) →
      Sends C P src dst net_idx w
        (if l_get_le16 pkt 2 > 0xfff then (false, w)
         else if unbind = true then
           (true, send_model_app_status C
             (w.step (.mesh_model_binding_del (l_get_le16 pkt 0) id (l_get_le16 pkt 2))
               (C.mesh_model_binding_del w.ext (l_get_le16 pkt 0) id (l_get_le16 pkt 2)).2)
             net_idx src dst
             (u8 (C.mesh_model_binding_del w.ext (l_get_le16 pkt 0) id (l_get_le16 pkt 2)).1)
             (l_get_le16 pkt 0) id (l_get_le16 pkt 2))
         else
           (true, send_model_app_status C
             (w.step (.mesh_model_binding_add (l_get_le16 pkt 0) id (l_get_le16 pkt 2))
               (C.mesh_model_binding_add w.ext (l_get_le16 pkt 0) id (l_get_le16 pkt 2)).2)
             net_idx src dst
             (u8 (C.mesh_model_binding_add w.ext (l_get_le16 pkt 0) id (l_get_le16 pkt 2)).1)
             (l_get_le16 pkt 0) id (l_get_le16 pkt 2))).2 := by
    intro id hQ
    by_cases hi : l_get_le16 pkt 2 > 0xfff
    · rw [if_pos hi]; exact sends_refl C P src dst net_idx w w rfl
    · rw [if_neg hi] at hQ ⊢
      by_cases hu : unbind = true
      · rw [if_pos hu] at hQ ⊢
        refine send_model_app_status_sends C P src dst net_idx w _ ?_ _ ?_ _ _ _
        · rfl
        · exact ⟨_, rfl, Or.inl (hQ _ (List.mem_singleton_self _))⟩
      · rw [if_neg hu] at hQ ⊢
        refine send_model_app_status_sends C P src dst net_idx w _ ?_ _ ?_ _ _ _
        · rfl
        · exact ⟨_, rfl, Or.inl (hQ _ (List.mem_singleton_self _))⟩
  by_cases h6 : size = 6
  · simp only [h6, if_true] at hP
    simp only [h6, if_true]
    exact hbody _ hP
  · by_cases h8 : size = 8
    · simp only [h8, if_true] at hP
      simp only [h8, if_true]
      exact hbody _ hP
    · simp only [h6, h8, if_false]
      exact sends_refl C P src dst net_idx w w rfl

theorem hb_subscription_set_sent (C : Collab σ) (w : World σ) (src dst period_log : Nat) :
    (hb_subscription_set C w src dst period_log).2.sent = w.sent := by
  unfold hb_subscription_set
  dsimp only
  repeat' split
  all_goals rfl

theorem outcomeOk_ite (C : Collab σ) (P : Int → Prop) (src dst net_idx : Nat)
    (w : World σ) (c : Prop) [Decidable c] (a b : Outcome σ)
    (ha : OutcomeOk C P src dst net_idx w a) (hb : OutcomeOk C P src dst net_idx w b) :
    OutcomeOk C P src dst net_idx w (if c then a else b) := by
  split <;> assumption

theorem outcomeOk_guard (C : Collab σ) (P : Int → Prop) (src dst net_idx : Nat)
    (w : World σ) (c : Prop) [Decidable c] (L : List Int) (v : Bool) (b : Outcome σ)
    (hP : ∀ x ∈ (if c then [] else L), P x)
    (hb : (∀ x ∈ L, P x) → OutcomeOk C P src dst net_idx w b) :
    OutcomeOk C P src dst net_idx w (if c then .ret v w else b) := by
  by_cases h : c
  · rw [if_pos h]; exact rfl
  · rw [if_neg h] at hP ⊢; exact hb hP

theorem outcomeOk_ret (C : Collab σ) (P : Int → Prop) (src dst net_idx : Nat)
    (w w1 : World σ) (b : Bool) (h : w1.sent = w.sent) :
    OutcomeOk C P src dst net_idx w (.ret b w1) := h

theorem outcomeOk_msg (C : Collab σ) (P : Int → Prop) (src dst net_idx : Nat)
    (w w1 : World σ) (msg : List Nat) (h : w1.sent = w.sent) (hm : StatusMsg C P msg) :
    OutcomeOk C P src dst net_idx w (.brk w1 msg) := Or.inl ⟨h, hm⟩

theorem outcomeOk_handler (C : Collab σ) (P : Int → Prop) (src dst net_idx : Nat)
    (w w1 : World σ) (h : Sends C P src dst net_idx w w1) :
    OutcomeOk C P src dst net_idx w (.brk w1 []) := Or.inr ⟨rfl, h⟩

theorem default_ttl_get_ok (C : Collab σ) (P : Int → Prop) (src dst net_idx : Nat)
    (w w1 : World σ) (h : w1.sent = w.sent) (opcode : Opcode) (size : Nat) :
    OutcomeOk C P src dst net_idx w (default_ttl_get C w1 opcode size) :=
  outcomeOk_ite C P src dst net_idx w _ _ _ (outcomeOk_ret C P src dst net_idx w w1 _ h)
    (outcomeOk_msg C P src dst net_idx w w1 _ h (statusMsg_plain C P _ _ rfl))

theorem relay_get_ok (C : Collab σ) (P : Int → Prop) (src dst net_idx : Nat)
    (w w1 : World σ) (h : w1.sent = w.sent) (opcode : Opcode) (size : Nat) :
    OutcomeOk C P src dst net_idx w (relay_get C w1 opcode size) :=
  outcomeOk_ite C P src dst net_idx w _ _ _ (outcomeOk_ret C P src dst net_idx w w1 _ h)
    (outcomeOk_msg C P src dst net_idx w w1 _ h (statusMsg_plain C P _ _ rfl))

theorem network_transmit_get_ok (C : Collab σ) (P : Int → Prop) (src dst net_idx : Nat)
    (w w1 : World σ) (h : w1.sent = w.sent) (opcode : Opcode) (size : Nat) :
    OutcomeOk C P src dst net_idx w (network_transmit_get C w1 opcode size) :=
  outcomeOk_ite C P src dst net_idx w _ _ _ (outcomeOk_ret C P src dst net_idx w w1 _ h)
    (outcomeOk_msg C P src dst net_idx w w1 _ h (statusMsg_plain C P _ _ rfl))

theorem proxy_get_ok (C : Collab σ) (P : Int → Prop) (src dst net_idx : Nat)
    (w w1 : World σ) (h : w1.sent = w.sent) (opcode : Opcode) (size : Nat) :
    OutcomeOk C P src dst net_idx w (proxy_get C w1 opcode size) :=
  outcomeOk_ite C P src dst net_idx w _ _ _ (outcomeOk_ret C P src dst net_idx w w1 _ h)
    (outcomeOk_msg C P src dst net_idx w w1 _ h (statusMsg_plain C P _ _ rfl))

theorem beacon_get_ok (C : Collab σ) (P : Int → Prop) (src dst net_idx : Nat)
    (w w1 : World σ) (h : w1.sent = w.sent) (opcode : Opcode) (size : Nat) :
    OutcomeOk C P src dst net_idx w (beacon_get C w1 opcode size) :=
  outcomeOk_ite C P src dst net_idx w _ _ _ (outcomeOk_ret C P src dst net_idx w w1 _ h)
    (outcomeOk_msg C P src dst net_idx w w1 _ h (statusMsg_plain C P _ _ rfl))

theorem friend_get_ok (C : Collab σ) (P : Int → Prop) (src dst net_idx : Nat)
    (w w1 : World σ) (h : w1.sent = w.sent) (opcode : Opcode) (size : Nat) :
    OutcomeOk C P src dst net_idx w (friend_get C w1 opcode size) :=
  outcomeOk_ite C P src dst net_idx w _ _ _ (outcomeOk_ret C P src dst net_idx w w1 _ h)
    (outcomeOk_msg C P src dst net_idx w w1 _ h (statusMsg_plain C P _ _ rfl))

theorem node_identity_get_ok (C : Collab σ) (P : Int → Prop) (src dst net_idx : Nat)
    (w : World σ) (pkt : List Nat) (size : Nat)
    (hP : ∀ c ∈ node_identity_returns C w.ext pkt size, P c) :
    OutcomeOk C P src dst net_idx w (node_identity_get C w pkt size) := by
  unfold node_identity_get
  unfold node_identity_returns at hP
  refine outcomeOk_guard C P src dst net_idx w _ _ _ _ hP (fun h2 => ?_)
  dsimp only
  refine outcomeOk_guard C P src dst net_idx w _ _ _ _ h2 (fun h3 => ?_)
  simp only [List.append_assoc, List.singleton_append, List.cons_append]
  exact outcomeOk_msg C P src dst net_idx w w _ rfl
    (statusMsg_code C P _ _ _ (Or.inl (h3 _ (List.mem_singleton_self _))))

theorem key_refresh_phase_get_ok (C : Collab σ) (P : Int → Prop) (src dst net_idx : Nat)
    (w w1 : World σ) (h : w1.sent = w.sent) (pkt : List Nat) (size : Nat)
    (hg : ∀ c ∈ key_refresh_phase_returns C w1.ext pkt size, P c)
    (b_res : Int) (hb : P b_res ∨ local_status b_res) :
    OutcomeOk C P src dst net_idx w (key_refresh_phase_get C w1 pkt size b_res) := by
  unfold key_refresh_phase_get
  unfold key_refresh_phase_returns at hg
  by_cases hsz : size ≠ 2
  · rw [if_pos hsz]; exact h
  · rw [if_neg hsz] at hg ⊢
    dsimp only
    simp only [List.append_assoc, List.singleton_append, List.cons_append]
    by_cases hs : ((u8 (C.mesh_net_key_refresh_phase_get w1.ext (l_get_le16 pkt 0)).1 : Nat)
        : Int) ≠ MESH_STATUS_SUCCESS
    · simp only [if_pos hs, u8_natCast_u8]
      exact outcomeOk_msg C P src dst net_idx w w1 _ h
        (statusMsg_code C P _ _ _ (Or.inl (hg _ (List.mem_singleton_self _))))
    · simp only [if_neg hs]
      exact outcomeOk_msg C P src dst net_idx w w1 _ h (statusMsg_code C P _ _ _ hb)

theorem hb_subscription_set_res (C : Collab σ) (w : World σ) (src dst period_log : Nat) :
    (hb_subscription_set C w src dst period_log).1 = -1
      ∨ (hb_subscription_set C w src dst period_log).1 = MESH_STATUS_SUCCESS := by
  unfold hb_subscription_set
  dsimp only
  repeat' split
  all_goals first
    | exact Or.inl rfl
    | exact Or.inr rfl

theorem heartbeat_sub_get_ok (C : Collab σ) (P : Int → Prop) (src dst net_idx : Nat)
    (w w1 : World σ) (h : w1.sent = w.sent) (opcode : Opcode) (size : Nat) (b_res : Int)
    (hb : P b_res ∨ local_status b_res) :
    OutcomeOk C P src dst net_idx w (heartbeat_sub_get C w1 opcode size b_res) := by
  unfold heartbeat_sub_get
  refine outcomeOk_ite C P src dst net_idx w _ _ _ (outcomeOk_ret C P src dst net_idx w w1 _ h) ?_
  dsimp only
  simp only [List.append_assoc, List.singleton_append, List.cons_append]
  exact outcomeOk_msg C P src dst net_idx w w1 _ h (statusMsg_code C P _ _ _ hb)

theorem heartbeat_pub_set_ok (C : Collab σ) (P : Int → Prop) (src dst net_idx : Nat)
    (w : World σ) (pkt : List Nat) (size : Nat)
    (hloc : P (if IS_VIRTUAL (l_get_le16 pkt 0) = true then MESH_STATUS_INVALID_ADDRESS
        else if l_get_le16 pkt 7 ≠ C.mesh_net_get_primary_idx w.ext
          then MESH_STATUS_INVALID_NETKEY else MESH_STATUS_SUCCESS)
      ∨ local_status (if IS_VIRTUAL (l_get_le16 pkt 0) = true
        then MESH_STATUS_INVALID_ADDRESS
        else if l_get_le16 pkt 7 ≠ C.mesh_net_get_primary_idx w.ext
          then MESH_STATUS_INVALID_NETKEY else MESH_STATUS_SUCCESS)) :
    OutcomeOk C P src dst net_idx w (heartbeat_pub_set C w pkt size) := by
  unfold heartbeat_pub_set
  refine outcomeOk_ite C P src dst net_idx w _ _ _ (outcomeOk_ret C P src dst net_idx w w _ rfl)
    (outcomeOk_ite C P src dst net_idx w _ _ _ (outcomeOk_ret C P src dst net_idx w w _ rfl) ?_)
  dsimp only
  simp only [List.append_assoc, List.singleton_append, List.cons_append]
  exact outcomeOk_ite C P src dst net_idx w _ _ _
    (outcomeOk_msg C P src dst net_idx w w _ rfl (statusMsg_code C P _ _ _ hloc))
    (outcomeOk_msg C P src dst net_idx w _ _ rfl (statusMsg_code C P _ _ _ hloc))

theorem statusMsg_hdr (C : Collab σ) (P : Int → Prop) (op : Opcode)
    (h : has_status_byte op = false) : StatusMsg C P (C.mesh_model_opcode_set op) :=
  ⟨op, [], (List.append_nil _).symm, fun h2 => by rw [h] at h2; exact absurd h2 (by decide)⟩

theorem cfg_srv_switch_ok (C : Collab σ) (P : Int → Prop) (w : World σ)
    (src dst net_idx : Nat) (opcode : Opcode) (pkt : List Nat) (size : Nat)
    (hP : ∀ c ∈ status_returns C w.ext opcode pkt size, P c)
    (hH : opcode = .OP_CONFIG_HEARTBEAT_PUB_SET →
      P (if IS_VIRTUAL (l_get_le16 pkt 0) = true then MESH_STATUS_INVALID_ADDRESS
        else if l_get_le16 pkt 7 ≠ C.mesh_net_get_primary_idx w.ext
          then MESH_STATUS_INVALID_NETKEY else MESH_STATUS_SUCCESS)
      ∨ local_status (if IS_VIRTUAL (l_get_le16 pkt 0) = true
        then MESH_STATUS_INVALID_ADDRESS
        else if l_get_le16 pkt 7 ≠ C.mesh_net_get_primary_idx w.ext
          then MESH_STATUS_INVALID_NETKEY else MESH_STATUS_SUCCESS)) :
    OutcomeOk C P src dst net_idx w (cfg_srv_switch C w src dst net_idx opcode pkt size) := by
  have hret : ∀ b, OutcomeOk C P src dst net_idx w (.ret b w) :=
    fun b => outcomeOk_ret C P src dst net_idx w w b rfl
  have hloc0 : P MESH_STATUS_SUCCESS ∨ local_status MESH_STATUS_SUCCESS :=
    Or.inr (Or.inl rfl)
  cases opcode
  case OP_DEV_COMP_GET =>
    simp only [cfg_srv_switch]
    exact outcomeOk_ite C P src dst net_idx w _ _ _ (hret _)
      (outcomeOk_msg C P src dst net_idx w w _ rfl (statusMsg_plain C P _ _ rfl))
  case OP_CONFIG_DEFAULT_TTL_SET =>
    simp only [cfg_srv_switch]
    exact outcomeOk_ite C P src dst net_idx w _ _ _ (hret _)
      (default_ttl_get_ok C P src dst net_idx w _ (by exact ite_sent _ _ _ _ rfl rfl) _ _)
  case OP_CONFIG_DEFAULT_TTL_GET =>
    simp only [cfg_srv_switch]
    exact default_ttl_get_ok C P src dst net_idx w w rfl _ _
  case OP_CONFIG_MODEL_PUB_VIRT_SET =>
    simp only [cfg_srv_switch]
    simp only [status_returns] at hP
    exact outcomeOk_guard C P src dst net_idx w _ _ _ _ hP (fun h =>
      outcomeOk_handler C P src dst net_idx w _
        (config_pub_set_sends C P w _ _ _ _ _ _ h))
  case OP_CONFIG_MODEL_PUB_SET =>
    simp only [cfg_srv_switch]
    simp only [status_returns] at hP
    exact outcomeOk_guard C P src dst net_idx w _ _ _ _ hP (fun h =>
      outcomeOk_handler C P src dst net_idx w _
        (config_pub_set_sends C P w _ _ _ _ _ _ h))
  case OP_CONFIG_MODEL_PUB_GET =>
    simp only [cfg_srv_switch]
    simp only [status_returns] at hP
    exact outcomeOk_guard C P src dst net_idx w _ _ _ _ hP (fun h =>
      outcomeOk_handler C P src dst net_idx w _ (config_pub_get_sends C P w _ _ _ _ _ h))
  case OP_CONFIG_VEND_MODEL_SUB_GET =>
    simp only [cfg_srv_switch]
    simp only [status_returns] at hP
    exact outcomeOk_guard C P src dst net_idx w _ _ _ _ hP (fun h =>
      outcomeOk_handler C P src dst net_idx w _ (config_sub_get_sends C P w _ _ _ _ _ h))
  case OP_CONFIG_MODEL_SUB_GET =>
    simp only [cfg_srv_switch]
    simp only [status_returns] at hP
    exact outcomeOk_guard C P src dst net_idx w _ _ _ _ hP (fun h =>
      outcomeOk_handler C P src dst net_idx w _ (config_sub_get_sends C P w _ _ _ _ _ h))
  case OP_CONFIG_MODEL_SUB_VIRT_OVERWRITE =>
    simp only [cfg_srv_switch]
    simp only [status_returns] at hP
    exact outcomeOk_handler C P src dst net_idx w _
      (config_sub_set_sends C P w _ _ _ _ _ _ _ hP)
  case OP_CONFIG_MODEL_SUB_VIRT_DELETE =>
    simp only [cfg_srv_switch]
    simp only [status_returns] at hP
    exact outcomeOk_handler C P src dst net_idx w _
      (config_sub_set_sends C P w _ _ _ _ _ _ _ hP)
  case OP_CONFIG_MODEL_SUB_VIRT_ADD =>
    simp only [cfg_srv_switch]
    simp only [status_returns] at hP
    exact outcomeOk_handler C P src dst net_idx w _
      (config_sub_set_sends C P w _ _ _ _ _ _ _ hP)
  case OP_CONFIG_MODEL_SUB_OVERWRITE =>
    simp only [cfg_srv_switch]
    simp only [status_returns] at hP
    exact outcomeOk_handler C P src dst net_idx w _
      (config_sub_set_sends C P w _ _ _ _ _ _ _ hP)
  case OP_CONFIG_MODEL_SUB_DELETE =>
    simp only [cfg_srv_switch]
    simp only [status_returns] at hP
    exact outcomeOk_handler C P src dst net_idx w _
      (config_sub_set_sends C P w _ _ _ _ _ _ _ hP)
  case OP_CONFIG_MODEL_SUB_ADD =>
    simp only [cfg_srv_switch]
    simp only [status_returns] at hP
    exact outcomeOk_handler C P src dst net_idx w _
      (config_sub_set_sends C P w _ _ _ _ _ _ _ hP)
  case OP_CONFIG_MODEL_SUB_DELETE_ALL =>
    simp only [cfg_srv_switch]
    simp only [status_returns] at hP
    exact outcomeOk_handler C P src dst net_idx w _
      (config_sub_set_sends C P w _ _ _ _ _ _ _ hP)
  case OP_CONFIG_RELAY_SET =>
    simp only [cfg_srv_switch]
    exact outcomeOk_ite C P src dst net_idx w _ _ _ (hret _)
      (relay_get_ok C P src dst net_idx w _ (by rfl) _ _)
  case OP_CONFIG_RELAY_GET =>
    simp only [cfg_srv_switch]
    exact relay_get_ok C P src dst net_idx w w rfl _ _
  case OP_CONFIG_NETWORK_TRANSMIT_SET =>
    simp only [cfg_srv_switch]
    exact outcomeOk_ite C P src dst net_idx w _ _ _ (hret _)
      (network_transmit_get_ok C P src dst net_idx w _ (by exact ite_sent _ _ _ _ rfl rfl) _ _)
  case OP_CONFIG_NETWORK_TRANSMIT_GET =>
    simp only [cfg_srv_switch]
    exact network_transmit_get_ok C P src dst net_idx w w rfl _ _
  case OP_CONFIG_PROXY_SET =>
    simp only [cfg_srv_switch]
    exact outcomeOk_ite C P src dst net_idx w _ _ _ (hret _)
      (proxy_get_ok C P src dst net_idx w _ (by rfl) _ _)
  case OP_CONFIG_PROXY_GET =>
    simp only [cfg_srv_switch]
    exact proxy_get_ok C P src dst net_idx w w rfl _ _
  case OP_NODE_IDENTITY_SET =>
    simp only [cfg_srv_switch]
    simp only [status_returns] at hP
    exact outcomeOk_guard C P src dst net_idx w _ _ _ _ hP (fun h =>
      outcomeOk_guard C P src dst net_idx w _ _ _ _ h (fun h2 =>
        node_identity_get_ok C P src dst net_idx w _ _ h2))
  case OP_NODE_IDENTITY_GET =>
    simp only [cfg_srv_switch]
    simp only [status_returns] at hP
    exact node_identity_get_ok C P src dst net_idx w _ _ hP
  case OP_CONFIG_BEACON_SET =>
    simp only [cfg_srv_switch]
    exact outcomeOk_ite C P src dst net_idx w _ _ _ (hret _)
      (beacon_get_ok C P src dst net_idx w _ (by rfl) _ _)
  case OP_CONFIG_BEACON_GET =>
    simp only [cfg_srv_switch]
    exact beacon_get_ok C P src dst net_idx w w rfl _ _
  case OP_CONFIG_FRIEND_SET =>
    simp only [cfg_srv_switch]
    exact outcomeOk_ite C P src dst net_idx w _ _ _ (hret _)
      (friend_get_ok C P src dst net_idx w _ (by rfl) _ _)
  case OP_CONFIG_FRIEND_GET =>
    simp only [cfg_srv_switch]
    exact friend_get_ok C P src dst net_idx w w rfl _ _
  case OP_CONFIG_KEY_REFRESH_PHASE_SET =>
    simp only [cfg_srv_switch]
    simp only [status_returns] at hP
    exact outcomeOk_guard C P src dst net_idx w _ _ _ _ hP (fun h =>
      key_refresh_phase_get_ok C P src dst net_idx w _ (by rfl) _ _
        (fun c hc => h c (List.mem_cons_of_mem _ hc)) _
        (Or.inl (h _ (List.mem_cons_self _ _))))
  case OP_CONFIG_KEY_REFRESH_PHASE_GET =>
    simp only [cfg_srv_switch]
    simp only [status_returns] at hP
    exact key_refresh_phase_get_ok C P src dst net_idx w w rfl _ _ hP _ hloc0
  case OP_APPKEY_ADD =>
    simp only [cfg_srv_switch, if_true]
    simp only [status_returns] at hP
    exact outcomeOk_guard C P src dst net_idx w _ _ _ _ hP (fun h =>
      outcomeOk_msg C P src dst net_idx w _ _ (by rfl)
        (statusMsg_code C P _ _ _ (Or.inl (h _ (List.mem_singleton_self _)))))
  case OP_APPKEY_UPDATE =>
    simp only [cfg_srv_switch, reduceCtorEq, if_false]
    simp only [status_returns] at hP
    exact outcomeOk_guard C P src dst net_idx w _ _ _ _ hP (fun h =>
      outcomeOk_msg C P src dst net_idx w _ _ (by rfl)
        (statusMsg_code C P _ _ _ (Or.inl (h _ (List.mem_singleton_self _)))))
  case OP_APPKEY_DELETE =>
    simp only [cfg_srv_switch]
    simp only [status_returns] at hP
    exact outcomeOk_guard C P src dst net_idx w _ _ _ _ hP (fun h =>
      outcomeOk_msg C P src dst net_idx w _ _ (by rfl)
        (statusMsg_code C P _ _ _ (Or.inl (h _ (List.mem_singleton_self _)))))
  case OP_APPKEY_GET =>
    simp only [cfg_srv_switch, List.append_assoc, List.singleton_append, List.cons_append]
    simp only [status_returns] at hP
    exact outcomeOk_guard C P src dst net_idx w _ _ _ _ hP (fun h =>
      outcomeOk_msg C P src dst net_idx w _ _ (by rfl)
        (statusMsg_code C P _ _ _ (Or.inl (h _ (List.mem_singleton_self _)))))
  case OP_NETKEY_ADD =>
    simp only [cfg_srv_switch, if_true, List.append_assoc, List.singleton_append,
      List.cons_append]
    simp only [status_returns] at hP
    exact outcomeOk_guard C P src dst net_idx w _ _ _ _ hP (fun h =>
      outcomeOk_msg C P src dst net_idx w _ _ (by rfl)
        (statusMsg_code C P _ _ _ (Or.inl (h _ (List.mem_singleton_self _)))))
  case OP_NETKEY_UPDATE =>
    simp only [cfg_srv_switch, reduceCtorEq, if_false, List.append_assoc,
      List.singleton_append, List.cons_append]
    simp only [status_returns] at hP
    exact outcomeOk_guard C P src dst net_idx w _ _ _ _ hP (fun h =>
      outcomeOk_msg C P src dst net_idx w _ _ (by rfl)
        (statusMsg_code C P _ _ _ (Or.inl (h _ (List.mem_singleton_self _)))))
  case OP_NETKEY_DELETE =>
    simp only [cfg_srv_switch, List.append_assoc, List.singleton_append, List.cons_append]
    simp only [status_returns] at hP
    exact outcomeOk_guard C P src dst net_idx w _ _ _ _ hP (fun h =>
      outcomeOk_msg C P src dst net_idx w _ _ (by rfl)
        (statusMsg_code C P _ _ _ (Or.inl (h _ (List.mem_singleton_self _)))))
  case OP_NETKEY_GET =>
    simp only [cfg_srv_switch]
    exact outcomeOk_ite C P src dst net_idx w _ _ _ (hret _)
      (outcomeOk_msg C P src dst net_idx w w _ rfl (statusMsg_plain C P _ _ rfl))
  case OP_MODEL_APP_BIND =>
    simp only [cfg_srv_switch]
    simp only [status_returns] at hP
    exact outcomeOk_handler C P src dst net_idx w _
      (model_app_bind_sends C P w _ _ _ _ _ _ hP)
  case OP_MODEL_APP_UNBIND =>
    simp only [cfg_srv_switch]
    simp only [status_returns] at hP
    exact outcomeOk_handler C P src dst net_idx w _
      (model_app_bind_sends C P w _ _ _ _ _ _ hP)
  case OP_VEND_MODEL_APP_GET =>
    simp only [cfg_srv_switch]
    simp only [status_returns] at hP
    exact outcomeOk_guard C P src dst net_idx w _ _ _ _ hP (fun h =>
      outcomeOk_handler C P src dst net_idx w _ (model_app_list_sends C P w _ _ _ _ _ h))
  case OP_MODEL_APP_GET =>
    simp only [cfg_srv_switch]
    simp only [status_returns] at hP
    exact outcomeOk_guard C P src dst net_idx w _ _ _ _ hP (fun h =>
      outcomeOk_handler C P src dst net_idx w _ (model_app_list_sends C P w _ _ _ _ _ h))
  case OP_CONFIG_HEARTBEAT_PUB_SET =>
    simp only [cfg_srv_switch]
    exact heartbeat_pub_set_ok C P src dst net_idx w _ _ (hH rfl)
  case OP_CONFIG_HEARTBEAT_PUB_GET =>
    simp only [cfg_srv_switch, List.append_assoc, List.singleton_append, List.cons_append]
    exact outcomeOk_ite C P src dst net_idx w _ _ _ (hret _)
      (outcomeOk_msg C P src dst net_idx w w _ rfl (statusMsg_code C P _ _ _ hloc0))
  case OP_CONFIG_HEARTBEAT_SUB_SET =>
    simp only [cfg_srv_switch]
    refine outcomeOk_ite C P src dst net_idx w _ _ _ (hret _) ?_
    rcases hb_subscription_set_res C w (l_get_le16 pkt 0) (l_get_le16 pkt 2) (byteAt pkt 4)
      with h | h
    · rw [if_pos (by rw [h]; decide)]
      exact outcomeOk_ret C P src dst net_idx w _ _ (hb_subscription_set_sent C w _ _ _)
    · rw [if_neg (by rw [h]; decide)]
      exact heartbeat_sub_get_ok C P src dst net_idx w _ (hb_subscription_set_sent C w _ _ _)
        _ _ _ (Or.inr (Or.inl h))
  case OP_CONFIG_HEARTBEAT_SUB_GET =>
    simp only [cfg_srv_switch]
    exact heartbeat_sub_get_ok C P src dst net_idx w w rfl _ _ _ hloc0
  case OP_CONFIG_POLL_TIMEOUT_LIST =>
    simp only [cfg_srv_switch, List.append_assoc]
    exact outcomeOk_ite C P src dst net_idx w _ _ _ (hret _)
      (outcomeOk_msg C P src dst net_idx w w _ rfl (statusMsg_plain C P _ _ rfl))
  case OP_NODE_RESET =>
    simp only [cfg_srv_switch]
    exact outcomeOk_ite C P src dst net_idx w _ _ _ (hret _)
      (outcomeOk_msg C P src dst net_idx w _ _ (by rfl) (statusMsg_hdr C P _ rfl))
  all_goals exact hret _

theorem cfg_srv_pkt_sends (C : Collab σ) (P : Int → Prop) (w : World σ)
    (src dst app_idx net_idx : Nat) (data : List Nat)
    (hP : ∀ c ∈ dispatch_status_returns C w app_idx data, P c)
    (hH : ∀ pkt, heartbeat_pub_set_payload C data = some pkt →
      P (if IS_VIRTUAL (l_get_le16 pkt 0) = true then MESH_STATUS_INVALID_ADDRESS
        else if l_get_le16 pkt 7 ≠ C.mesh_net_get_primary_idx w.ext
          then MESH_STATUS_INVALID_NETKEY else MESH_STATUS_SUCCESS)
      ∨ local_status (if IS_VIRTUAL (l_get_le16 pkt 0) = true
        then MESH_STATUS_INVALID_ADDRESS
        else if l_get_le16 pkt 7 ≠ C.mesh_net_get_primary_idx w.ext
          then MESH_STATUS_INVALID_NETKEY else MESH_STATUS_SUCCESS)) :
    Sends C P src dst net_idx w (cfg_srv_pkt C w src dst app_idx net_idx data).2 := by
  unfold cfg_srv_pkt
  by_cases happ : app_idx ≠ APP_IDX_DEV_LOCAL
  · rw [if_pos happ]; exact sends_refl C P src dst net_idx w w rfl
  · rw [if_neg happ]
    cases hop : C.mesh_model_opcode_get data with
    | none => exact sends_refl C P src dst net_idx w w rfl
    | some p =>
      obtain ⟨opcode, n⟩ := p
      dsimp only
      have hP2 : ∀ c ∈ status_returns C w.ext opcode (data.drop n) (data.length - n),
          P c := by
        intro c hc
        apply hP
        unfold dispatch_status_returns
        rw [if_neg happ, hop]
        exact hc
      have hok := cfg_srv_switch_ok C P w src dst net_idx opcode (data.drop n)
        (data.length - n) hP2 (by
          intro ho
          apply hH
          unfold heartbeat_pub_set_payload
          rw [hop, ho])
      cases hsw : cfg_srv_switch C w src dst net_idx opcode (data.drop n)
          (data.length - n) with
      | ret b w1 =>
        rw [hsw] at hok
        exact sends_refl C P src dst net_idx w w1 hok
      | brk w1 msg =>
        rw [hsw] at hok
        dsimp only
        rcases hok with ⟨hs, hm⟩ | ⟨hnil, hs⟩
        · by_cases hl : msg.length ≠ 0
          · rw [if_pos hl]
            exact sends_send C P src dst net_idx w w1 msg hs hm
          · rw [if_neg hl]
            exact sends_refl C P src dst net_idx w w1 hs
        · rw [if_neg (by rw [hnil]; simp)]
          exact hs

/-! ## C22: how the responses are addressed -/

/-- C22: for every collaborator, inbound message and application-key index,
a dispatch of `cfg_srv_pkt` leaves the sent list as it was or appends exactly
one message to it, and that message is sent with the local device-key index,
to the inbound message's source, from the inbound message's destination, on
the inbound net-key index, with the default TTL (and unsegmented). -/
theorem replies_addressing (C : Collab σ) (w : World σ)
    (src dst app_idx net_idx : Nat) (data : List Nat) :
    let r := cfg_srv_pkt C w src dst app_idx net_idx data
    r.2.sent = w.sent
    ∨ ∃ m, r.2.sent = w.sent ++ [m]
        ∧ m.app_idx = APP_IDX_DEV_LOCAL ∧ m.dst = src ∧ m.src = dst
        ∧ m.net_idx = net_idx ∧ m.ttl = DEFAULT_TTL ∧ m.segmented = false := by
  intro r
  rcases cfg_srv_pkt_sends C (fun _ => True) w src dst app_idx net_idx data
    (fun _ _ => trivial) (fun _ _ => Or.inl trivial) with
    h | ⟨m, hm, h1, h2, h3, h4, h5, h6, _⟩
  · exact Or.inl h
  · exact Or.inr ⟨m, hm, h3, h2, h1, h4, h5, h6⟩

/-! ## C23: Node Reset -/

/-- C23: a Node Reset with an empty payload is consumed, sends the Node Reset
Status (the codec's header for it being non-empty) and calls no collaborator
during the dispatch, so the node is not removed then; it registers exactly
one deferred action, and it is that action, `node_reset`, run after the
dispatch has returned, that removes the node.  A Node Reset with a non-empty
payload is consumed with the world unchanged: no response, nothing
registered. -/
theorem node_reset_deferred (C : Collab σ) (w : World σ) (src dst net_idx : Nat)
    (data : List Nat) (n : Nat)
    (hop : C.mesh_model_opcode_get data = some (.OP_NODE_RESET, n))
    (hhdr : C.mesh_model_opcode_set .OP_NODE_RESET_STATUS ≠ []) :
    let r := cfg_srv_pkt C w src dst APP_IDX_DEV_LOCAL net_idx data
    ((data.drop n).length = 0 →
      r.1 = true
      ∧ r.2.sent = w.sent ++
          [⟨dst, src, APP_IDX_DEV_LOCAL, net_idx, DEFAULT_TTL, false,
            C.mesh_model_opcode_set .OP_NODE_RESET_STATUS⟩]
      ∧ r.2.calls = w.calls ∧ r.2.ext = w.ext ∧ r.2.hb = w.hb
      ∧ r.2.idle = w.idle + 1
      ∧ (node_reset r.2).calls = w.calls ++ [Call.node_remove]
      ∧ (node_reset r.2).idle = w.idle
      ∧ (node_reset r.2).sent = r.2.sent)
    ∧ ((data.drop n).length ≠ 0 → r = (true, w)) := by
  intro r
  have hsz : data.length - n = (data.drop n).length := by simp
  have hr : r = _ := cfg_srv_pkt_eq C w src dst net_idx data _ n hop
  rw [hsz] at hr
  simp only [cfg_srv_switch] at hr
  have hlen : (C.mesh_model_opcode_set .OP_NODE_RESET_STATUS).length ≠ 0 := by
    intro h; exact hhdr (List.length_eq_zero.mp h)
  constructor
  · intro h0
    rw [if_neg (by simpa using h0)] at hr
    simp only [if_pos hlen] at hr
    rw [hr]
    simp [mesh_model_send, node_reset]
  · intro h1
    rw [if_pos h1] at hr
    exact hr

/-- Witness for C23 on the reference collaborator: the Node Reset `80 49` is
answered with `80 4A` without any collaborator call and leaves one deferred
action, which removes the node; `80 49 00` is consumed without effect. -/
theorem node_reset_deferred_witness :
    (cfg_srv_pkt sim (world_of sim0) 1 2 APP_IDX_DEV_LOCAL 0 [0x80, 0x49]).2.sent
      = [⟨2, 1, 0x7fff, 0, 0xff, false, [0x80, 0x4A]⟩]
    ∧ (cfg_srv_pkt sim (world_of sim0) 1 2 APP_IDX_DEV_LOCAL 0 [0x80, 0x49]).2.calls = []
    ∧ (cfg_srv_pkt sim (world_of sim0) 1 2 APP_IDX_DEV_LOCAL 0 [0x80, 0x49]).2.idle = 1
    ∧ (node_reset
        (cfg_srv_pkt sim (world_of sim0) 1 2 APP_IDX_DEV_LOCAL 0 [0x80, 0x49]).2).calls
      = [Call.node_remove]
    ∧ cfg_srv_pkt sim (world_of sim0) 1 2 APP_IDX_DEV_LOCAL 0 [0x80, 0x49, 0x00]
      = (true, world_of sim0) :=
  ⟨((node_reset_deferred sim (world_of sim0) 1 2 0 [0x80, 0x49] 2 (by decide)
      (by decide)).1 (by decide)).2.1,
   ((node_reset_deferred sim (world_of sim0) 1 2 0 [0x80, 0x49] 2 (by decide)
      (by decide)).1 (by decide)).2.2.1,
   ((node_reset_deferred sim (world_of sim0) 1 2 0 [0x80, 0x49] 2 (by decide)
      (by decide)).1 (by decide)).2.2.2.2.2.1,
   ((node_reset_deferred sim (world_of sim0) 1 2 0 [0x80, 0x49] 2 (by decide)
      (by decide)).1 (by decide)).2.2.2.2.2.2.1,
   (node_reset_deferred sim (world_of sim0) 1 2 0 [0x80, 0x49, 0x00] 2 (by decide)
      (by decide)).2 (by decide)⟩

/-! ## C24: where the status byte of a response comes from -/

theorem fst_ite_status {α : Type} (c : Prop) [Decidable c] (a : Int) (x y : α)
    (h : a = 0 ∨ a = 2) :
    (if c then (a, x) else (MESH_STATUS_SUCCESS, y)).1 = 0
      ∨ (if c then (a, x) else (MESH_STATUS_SUCCESS, y)).1 = 2 := by
  split
  · exact h
  · exact Or.inl rfl

/-- On the reference state every status code the collaborators return is
success (0) or, for a model that does not exist, 2. -/
theorem sim0_statuses : StatusAt sim (fun c => c = 0 ∨ c = 2) sim0 := by
  have hfind : ∀ ele id, sim0.find_model ele id = 0 ∨ sim0.find_model ele id = 2 := by
    intro ele id
    simp only [sim0]
    split
    · exact Or.inl rfl
    · exact Or.inr rfl
  have hverdict : ∀ ele id c, sim0.verdict ele id c = 0 ∨ sim0.verdict ele id c = 2 := by
    intro ele id c
    unfold Sim.verdict
    split
    · exact hfind ele id
    · exact Or.inl rfl
  have hsub : ∀ ele id addr virt c op,
      (sim0.sub_op ele id addr virt c op).1 = 0 ∨ (sim0.sub_op ele id addr virt c op).1 = 2 := by
    intro ele id addr virt c op
    unfold Sim.sub_op
    dsimp only
    split
    · exact hverdict ele id c
    · exact Or.inl rfl
  constructor
  · intro i; exact Or.inl rfl
  · intro i p; exact Or.inl rfl
  · intro i; exact Or.inl rfl
  · intro i p j; exact Or.inl rfl
  · intro ele id
    show (sim0.pub_get ele id).2 = 0 ∨ (sim0.pub_get ele id).2 = 2
    unfold Sim.pub_get
    split
    · exact hfind ele id
    · exact Or.inl rfl
  · intro ele id addr idx cred ttl period rt virt
    show (sim0.pub_set ele id addr idx cred ttl period rt virt).1 = 0
      ∨ (sim0.pub_set ele id addr idx cred ttl period rt virt).1 = 2
    unfold Sim.pub_set
    dsimp only
    split
    · exact hverdict ele id _
    · split
      · exact Or.inl rfl
      · exact Or.inl rfl
  · intro ele id n
    exact fst_ite_status _ _ _ _ (hfind ele id)
  · intro ele id
    exact fst_ite_status _ _ _ _ (hverdict ele id _)
  · intro ele id addr virt; exact hsub ele id addr virt _ _
  · intro ele id addr virt; exact hsub ele id addr virt _ _
  · intro ele id addr virt; exact hsub ele id addr virt _ _
  · intro ele id idx
    exact fst_ite_status _ _ _ _ (hverdict ele id _)
  · intro ele id idx
    exact fst_ite_status _ _ _ _ (hverdict ele id _)
  · intro ele id n; exact hfind ele id
  · intro n a k; exact Or.inl rfl
  · intro n a k; exact Or.inl rfl
  · intro n a; exact Or.inl rfl
  · intro n m; exact Or.inl rfl
  · intro n k; exact Or.inl rfl
  · intro n k; exact Or.inl rfl
  · intro n; exact Or.inl rfl

/-- C24, as written, fails on the reference collaborator: a Heartbeat
Publication Set naming net-key index 1, while the primary index is 0, is
answered with status 0x04 (invalid-netkey).  No collaborator returns a status
code to that dispatch, none returns 4 on that state (they return 0 or 2),
and 4 is neither success (0), nor the invalid-address code (1), nor
storage-fail (9): the code is written by the module itself. -/
theorem heartbeat_pub_set_invalid_netkey :
    (cfg_srv_pkt sim (world_of sim0) 1 2 APP_IDX_DEV_LOCAL 0
        [0x80, 0x39, 0x01, 0x00, 0x02, 0x02, 0x05, 0x03, 0x00, 0x01, 0x00]).2.sent
      = [⟨2, 1, 0x7fff, 0, 0xff, false,
          [0x06, 0x04, 0x01, 0x00, 0x02, 0x02, 0x05, 0x03, 0x00, 0x01, 0x00]⟩]
    ∧ (cfg_srv_pkt sim (world_of sim0) 1 2 APP_IDX_DEV_LOCAL 0
        [0x80, 0x39, 0x01, 0x00, 0x02, 0x02, 0x05, 0x03, 0x00, 0x01, 0x00]).2.calls = []
    ∧ dispatch_status_returns sim (world_of sim0) APP_IDX_DEV_LOCAL
        [0x80, 0x39, 0x01, 0x00, 0x02, 0x02, 0x05, 0x03, 0x00, 0x01, 0x00] = []
    ∧ sim.mesh_net_get_primary_idx sim0 = 0
    ∧ sim.mesh_model_opcode_set .OP_CONFIG_HEARTBEAT_PUB_STATUS = [0x06]
    ∧ has_status_byte .OP_CONFIG_HEARTBEAT_PUB_STATUS = true
    ∧ u8 MESH_STATUS_INVALID_NETKEY = 4
    ∧ u8 MESH_STATUS_SUCCESS = 0 ∧ u8 MESH_STATUS_INVALID_ADDRESS = 1
    ∧ u8 MESH_STATUS_STORAGE_FAIL = 9
    ∧ StatusAt sim (fun c => c = 0 ∨ c = 2) sim0 := by
  refine ⟨?_, ?_, ?_, ?_, ?_, ?_, ?_, ?_, ?_, ?_, sim0_statuses⟩ <;> decide

/-- C24, amended: for every collaborator and every inbound message, a
dispatch sends at most one response, and when the response is one that
carries a status byte, that byte is the `uint8_t` of a code that is either
returned by a collaborator call made during that dispatch (one of
`dispatch_status_returns`, the results of the calls the dispatched case makes
with its arguments on its state), or success, or storage-fail, or
invalid-address in a Heartbeat Publication Set with a virtual destination, or
invalid-netkey in a Heartbeat Publication Set whose net-key index is not the
primary one. -/
theorem status_byte_origin (C : Collab σ) (w : World σ)
    (src dst app_idx net_idx : Nat) (data : List Nat) :
    let r := cfg_srv_pkt C w src dst app_idx net_idx data
    r.2.sent = w.sent
    ∨ ∃ m op rest, r.2.sent = w.sent ++ [m]
        ∧ m.msg = C.mesh_model_opcode_set op ++ rest
        ∧ (has_status_byte op = true →
            ∃ c tail, rest = u8 c :: tail
              ∧ (c ∈ dispatch_status_returns C w app_idx data
                  ∨ c = MESH_STATUS_SUCCESS ∨ c = MESH_STATUS_STORAGE_FAIL
                  ∨ (c = MESH_STATUS_INVALID_ADDRESS
                      ∧ ∃ pkt, heartbeat_pub_set_payload C data = some pkt
                          ∧ IS_VIRTUAL (l_get_le16 pkt 0) = true)
                  ∨ (c = MESH_STATUS_INVALID_NETKEY
                      ∧ ∃ pkt, heartbeat_pub_set_payload C data = some pkt
                          ∧ l_get_le16 pkt 7 ≠ C.mesh_net_get_primary_idx w.ext))) := by
  intro r
  rcases cfg_srv_pkt_sends C
      (fun c => c ∈ dispatch_status_returns C w app_idx data
        ∨ (c = MESH_STATUS_INVALID_ADDRESS
            ∧ ∃ pkt, heartbeat_pub_set_payload C data = some pkt
                ∧ IS_VIRTUAL (l_get_le16 pkt 0) = true)
        ∨ (c = MESH_STATUS_INVALID_NETKEY
            ∧ ∃ pkt, heartbeat_pub_set_payload C data = some pkt
                ∧ l_get_le16 pkt 7 ≠ C.mesh_net_get_primary_idx w.ext))
      w src dst app_idx net_idx data (fun c hc => Or.inl hc)
      (by
        intro pkt hpkt
        by_cases hv : IS_VIRTUAL (l_get_le16 pkt 0) = true
        · rw [if_pos hv]
          exact Or.inl (Or.inr (Or.inl ⟨rfl, pkt, hpkt, hv⟩))
        · rw [if_neg hv]
          by_cases hn : l_get_le16 pkt 7 ≠ C.mesh_net_get_primary_idx w.ext
          · rw [if_pos hn]
            exact Or.inl (Or.inr (Or.inr ⟨rfl, pkt, hpkt, hn⟩))
          · rw [if_neg hn]
            exact Or.inr (Or.inl rfl)) with
    h | ⟨m, hm, _, _, _, _, _, _, op, rest, hmsg, hst⟩
  · exact Or.inl h
  · refine Or.inr ⟨m, op, rest, hm, hmsg, fun hop => ?_⟩
    obtain ⟨c, tail, hrest, hc⟩ := hst hop
    refine ⟨c, tail, hrest, ?_⟩
    rcases hc with (h1 | h2 | h3) | h4 | h5
    · exact Or.inl h1
    · exact Or.inr (Or.inr (Or.inr (Or.inl h2)))
    · exact Or.inr (Or.inr (Or.inr (Or.inr h3)))
    · exact Or.inr (Or.inl h4)
    · exact Or.inr (Or.inr (Or.inl h5))

/-- Witness for the amended C24 on the reference collaborator: a Model
Subscription Add for a model that does not exist makes one status-returning
call, `mesh_model_sub_add`, which returns 2, and is answered with status 2,
unchanged; a NetKey Delete makes one, `mesh_net_del_key`, which returns 0. -/
theorem status_byte_origin_witness :
    (cfg_srv_pkt sim (world_of sim0) 1 2 APP_IDX_DEV_LOCAL 0
        [0x80, 0x1B, 0x00, 0x02, 0x01, 0xC0, 0x00, 0x10]).2.sent
      = [⟨2, 1, 0x7fff, 0, 0xff, false,
          [0x80, 0x1F, 0x02, 0x00, 0x02, 0x01, 0xC0, 0x00, 0x10]⟩]
    ∧ dispatch_status_returns sim (world_of sim0) APP_IDX_DEV_LOCAL
        [0x80, 0x1B, 0x00, 0x02, 0x01, 0xC0, 0x00, 0x10] = [2]
    ∧ dispatch_status_returns sim (world_of sim0) APP_IDX_DEV_LOCAL
        [0x80, 0x41, 0x05, 0x00] = [(sim.mesh_net_del_key sim0 5).1]
    ∧ ((cfg_srv_pkt sim (world_of sim0) 1 2 APP_IDX_DEV_LOCAL 0
          [0x80, 0x1B, 0x00, 0x02, 0x01, 0xC0, 0x00, 0x10]).2.sent = (world_of sim0).sent
      ∨ ∃ m op rest,
          (cfg_srv_pkt sim (world_of sim0) 1 2 APP_IDX_DEV_LOCAL 0
            [0x80, 0x1B, 0x00, 0x02, 0x01, 0xC0, 0x00, 0x10]).2.sent
            = (world_of sim0).sent ++ [m]
          ∧ m.msg = sim.mesh_model_opcode_set op ++ rest
          ∧ (has_status_byte op = true →
              ∃ c tail, rest = u8 c :: tail
                ∧ (c ∈ dispatch_status_returns sim (world_of sim0) APP_IDX_DEV_LOCAL
                      [0x80, 0x1B, 0x00, 0x02, 0x01, 0xC0, 0x00, 0x10]
                    ∨ c = MESH_STATUS_SUCCESS ∨ c = MESH_STATUS_STORAGE_FAIL
                    ∨ (c = MESH_STATUS_INVALID_ADDRESS
                        ∧ ∃ pkt, heartbeat_pub_set_payload sim
                              [0x80, 0x1B, 0x00, 0x02, 0x01, 0xC0, 0x00, 0x10] = some pkt
                            ∧ IS_VIRTUAL (l_get_le16 pkt 0) = true)
                    ∨ (c = MESH_STATUS_INVALID_NETKEY
                        ∧ ∃ pkt, heartbeat_pub_set_payload sim
                              [0x80, 0x1B, 0x00, 0x02, 0x01, 0xC0, 0x00, 0x10] = some pkt
                            ∧ l_get_le16 pkt 7
                                ≠ sim.mesh_net_get_primary_idx (world_of sim0).ext)))) :=
  ⟨by decide, by decide, by decide,
   status_byte_origin sim (world_of sim0) 1 2 APP_IDX_DEV_LOCAL 0
     [0x80, 0x1B, 0x00, 0x02, 0x01, 0xC0, 0x00, 0x10]⟩

/-! ## C25: the retransmit byte of Relay and Network Transmit -/

/-- The pair decoded from a retransmit byte `b`, count = (b & 7) + 1 in 8 bits
and interval = ((b >> 3) + 1) * 10 in 16 bits, does not overflow, and its
status encoding `(count - 1) + ((interval / 10 - 1) << 3)`, taken to 8 bits,
gives back `b`. -/
theorem retransmit_encode (b c i : Nat) (hb : b < 256)
    (hc : c = ((b &&& 0x7) + 1) % 256) (hi : i = ((b >>> 3) + 1) * 10 % 65536) :
    c = (b &&& 0x7) + 1 ∧ i = ((b >>> 3) + 1) * 10
    ∧ u8 ((((c % 256 : Nat) : Int) - (1 : Int))
          + ((((i % 65536 : Nat) : Int) / 10 - 1) * 8)) = b := by
  have h1 : b &&& 0x7 = b % 8 := Nat.and_pow_two_sub_one_eq_mod b 3
  have h2 : b >>> 3 = b / 8 := Nat.shiftRight_eq_div_pow b 3
  rw [h1] at hc ⊢
  rw [h2] at hi ⊢
  have hc2 : c = b % 8 + 1 := by omega
  have hi2 : i = (b / 8 + 1) * 10 := by omega
  refine ⟨hc2, hi2, ?_⟩
  have hcm : c % 256 = b % 8 + 1 := by omega
  have him : i % 65536 = (b / 8 + 1) * 10 := by omega
  rw [hcm, him]
  have hq : (((b / 8 + 1) * 10 : Nat) : Int) / 10 = ((b / 8 : Nat) : Int) + 1 := by
    omega
  rw [hq]
  have hv : (((b % 8 + 1 : Nat) : Int) - (1 : Int))
      + (((b / 8 : Nat) : Int) + 1 - 1) * 8 = (b : Int) := by
    omega
  rw [hv]
  unfold u8
  omega

/-- For every collaborator that stores the relay pair: a Relay Set
`[state, b]` with `state ≤ 1` calls `node_relay_mode_set` with the decoded
pair and is answered with the relay mode read back and the retransmit byte
`b`; the collaborators are left in the state the setter produced. -/
theorem relay_set_response (C : Collab σ) (hrelay : NodeKeepsRelay C) (w : World σ)
    (src dst net_idx : Nat) (data : List Nat) (n : Nat)
    (hset : C.mesh_model_opcode_get data = some (.OP_CONFIG_RELAY_SET, n))
    (hlen : (data.drop n).length = 2) (hst : byteAt (data.drop n) 0 ≤ 1) :
    cfg_srv_pkt C w src dst APP_IDX_DEV_LOCAL net_idx data =
      (true, mesh_model_send
        (w.step (.node_relay_mode_set (decide (byteAt (data.drop n) 0 ≠ 0))
                  ((byteAt (data.drop n) 1 &&& 0x7) + 1)
                  (((byteAt (data.drop n) 1 >>> 3) + 1) * 10))
          (C.node_relay_mode_set w.ext (decide (byteAt (data.drop n) 0 ≠ 0))
            ((byteAt (data.drop n) 1 &&& 0x7) + 1)
            (((byteAt (data.drop n) 1 >>> 3) + 1) * 10)))
        dst src APP_IDX_DEV_LOCAL net_idx DEFAULT_TTL false
        (C.mesh_model_opcode_set .OP_CONFIG_RELAY_STATUS
          ++ [(C.node_relay_mode_get
                (C.node_relay_mode_set w.ext (decide (byteAt (data.drop n) 0 ≠ 0))
                  ((byteAt (data.drop n) 1 &&& 0x7) + 1)
                  (((byteAt (data.drop n) 1 >>> 3) + 1) * 10))).1 % 256,
              byteAt (data.drop n) 1])) := by
  have hsz : data.length - n = 2 := by rw [← hlen]; simp
  rw [cfg_srv_pkt_eq C w src dst net_idx data _ n hset, hsz]
  obtain ⟨hc, hi, henc⟩ := retransmit_encode (byteAt (data.drop n) 1) _ _ (byteAt_lt _ _)
    rfl rfl
  have hguard : ¬ (2 ≠ 2 ∨ byteAt (data.drop n) 0 > 0x01) := by omega
  simp only [cfg_srv_switch, if_neg hguard, relay_get, reduceCtorEq, false_and, if_false,
    World.step, hc, hi]
  have hpair := hrelay w.ext (decide (byteAt (data.drop n) 0 ≠ 0))
    ((byteAt (data.drop n) 1 &&& 0x7) + 1) (((byteAt (data.drop n) 1 >>> 3) + 1) * 10)
  have h21 := congrArg Prod.fst hpair
  have h22 := congrArg Prod.snd hpair
  simp only at h21 h22
  rw [h21, h22, ← hc, ← hi, henc]
  rw [if_pos (by simp)]

/-- For every collaborator that stores the relay pair: a Relay Get
dispatched while the node holds the pair decoded from `b` is answered with
the relay mode and the retransmit byte `b`. -/
theorem relay_get_response (C : Collab σ) (hrelay : NodeKeepsRelay C) (w : World σ)
    (src dst net_idx : Nat) (data : List Nat) (n : Nat) (e : σ) (en : Bool) (b : Nat)
    (hget : C.mesh_model_opcode_get data = some (.OP_CONFIG_RELAY_GET, n))
    (hlen : data.length - n = 0) (hb : b < 256)
    (hext : w.ext = C.node_relay_mode_set e en ((b &&& 0x7) + 1) (((b >>> 3) + 1) * 10)) :
    cfg_srv_pkt C w src dst APP_IDX_DEV_LOCAL net_idx data =
      (true, mesh_model_send w dst src APP_IDX_DEV_LOCAL net_idx DEFAULT_TTL false
        (C.mesh_model_opcode_set .OP_CONFIG_RELAY_STATUS
          ++ [(C.node_relay_mode_get w.ext).1 % 256, b])) := by
  rw [cfg_srv_pkt_eq C w src dst net_idx data _ n hget, hlen]
  obtain ⟨hc, hi, henc⟩ := retransmit_encode b _ _ hb rfl rfl
  simp only [cfg_srv_switch, relay_get, ne_eq, not_true_eq_false, and_false, if_false]
  have hpair := hrelay e en ((b &&& 0x7) + 1) (((b >>> 3) + 1) * 10)
  rw [← hext] at hpair
  have h21 := congrArg Prod.fst hpair
  have h22 := congrArg Prod.snd hpair
  simp only at h21 h22
  rw [h21, h22, ← hc, ← hi, henc]
  rw [if_pos (by simp)]

/-- For every collaborator whose network layer stores the transmit
parameters: a Network Transmit Set `[b]` whose persistent write succeeds
hands the decoded pair to the network layer and is answered with `b`. -/
theorem network_transmit_set_response (C : Collab σ) (hnet : NetKeepsTransmit C)
    (w : World σ) (src dst net_idx : Nat) (data : List Nat) (n : Nat)
    (hset : C.mesh_model_opcode_get data = some (.OP_CONFIG_NETWORK_TRANSMIT_SET, n))
    (hlen : (data.drop n).length = 1)
    (hwr : (C.mesh_config_write_net_transmit w.ext ((byteAt (data.drop n) 0 &&& 0x7) + 1)
              (((byteAt (data.drop n) 0 >>> 3) + 1) * 10)).1 = true) :
    cfg_srv_pkt C w src dst APP_IDX_DEV_LOCAL net_idx data =
      (true, mesh_model_send
        ((w.step (.mesh_config_write_net_transmit ((byteAt (data.drop n) 0 &&& 0x7) + 1)
                  (((byteAt (data.drop n) 0 >>> 3) + 1) * 10))
            (C.mesh_config_write_net_transmit w.ext ((byteAt (data.drop n) 0 &&& 0x7) + 1)
              (((byteAt (data.drop n) 0 >>> 3) + 1) * 10)).2).step
          (.mesh_net_transmit_params_set ((byteAt (data.drop n) 0 &&& 0x7) + 1)
            (((byteAt (data.drop n) 0 >>> 3) + 1) * 10))
          (C.mesh_net_transmit_params_set
            (C.mesh_config_write_net_transmit w.ext ((byteAt (data.drop n) 0 &&& 0x7) + 1)
              (((byteAt (data.drop n) 0 >>> 3) + 1) * 10)).2
            ((byteAt (data.drop n) 0 &&& 0x7) + 1)
            (((byteAt (data.drop n) 0 >>> 3) + 1) * 10)))
        dst src APP_IDX_DEV_LOCAL net_idx DEFAULT_TTL false
        (C.mesh_model_opcode_set .OP_CONFIG_NETWORK_TRANSMIT_STATUS
          ++ [byteAt (data.drop n) 0])) := by
  have hsz : data.length - n = 1 := by rw [← hlen]; simp
  rw [cfg_srv_pkt_eq C w src dst net_idx data _ n hset, hsz]
  obtain ⟨hc, hi, henc⟩ := retransmit_encode (byteAt (data.drop n) 0) _ _ (byteAt_lt _ _)
    rfl rfl
  simp only [cfg_srv_switch, ne_eq, not_true_eq_false, if_false, network_transmit_get,
    reduceCtorEq, false_and, World.step, hc, hi, hwr, if_true]
  have hpair := hnet
    (C.mesh_config_write_net_transmit w.ext ((byteAt (data.drop n) 0 &&& 0x7) + 1)
      (((byteAt (data.drop n) 0 >>> 3) + 1) * 10)).2
    ((byteAt (data.drop n) 0 &&& 0x7) + 1) (((byteAt (data.drop n) 0 >>> 3) + 1) * 10)
  have h21 := congrArg Prod.fst hpair
  have h22 := congrArg Prod.snd hpair
  simp only at h21 h22
  rw [h21, h22, ← hc, ← hi, henc]
  rw [if_pos (by simp)]

/-- For every collaborator whose network layer stores the transmit
parameters: a Network Transmit Get dispatched while the network layer holds
the pair decoded from `b` is answered with `b`. -/
theorem network_transmit_get_response (C : Collab σ) (hnet : NetKeepsTransmit C)
    (w : World σ) (src dst net_idx : Nat) (data : List Nat) (n : Nat) (e : σ) (b : Nat)
    (hget : C.mesh_model_opcode_get data = some (.OP_CONFIG_NETWORK_TRANSMIT_GET, n))
    (hlen : data.length - n = 0) (hb : b < 256)
    (hext : w.ext = C.mesh_net_transmit_params_set e ((b &&& 0x7) + 1)
              (((b >>> 3) + 1) * 10)) :
    cfg_srv_pkt C w src dst APP_IDX_DEV_LOCAL net_idx data =
      (true, mesh_model_send w dst src APP_IDX_DEV_LOCAL net_idx DEFAULT_TTL false
        (C.mesh_model_opcode_set .OP_CONFIG_NETWORK_TRANSMIT_STATUS ++ [b])) := by
  rw [cfg_srv_pkt_eq C w src dst net_idx data _ n hget, hlen]
  obtain ⟨hc, hi, henc⟩ := retransmit_encode b _ _ hb rfl rfl
  simp only [cfg_srv_switch, network_transmit_get, ne_eq, not_true_eq_false, and_false,
    if_false]
  have hpair := hnet e ((b &&& 0x7) + 1) (((b >>> 3) + 1) * 10)
  rw [← hext] at hpair
  have h21 := congrArg Prod.fst hpair
  have h22 := congrArg Prod.snd hpair
  simp only at h21 h22
  rw [h21, h22, ← hc, ← hi, henc]
  rw [if_pos (by simp)]

/-- C25: for every retransmit byte `b`, the pair decoded by Relay Set and
Network Transmit Set is count = (b & 7) + 1 and interval = ((b >> 3) + 1) * 10
(neither overflows its 8- and 16-bit variable) and the status encoding
`(count - 1) + ((interval / 10 - 1) << 3)`, taken to 8 bits, gives back `b`.
Hence, for collaborators that store the pair they are given, a Relay Set
`[state, b]` with state at most 1 is answered with retransmit byte `b`, and
so is the Relay Get that follows; and a Network Transmit Set `[b]` whose
persistent write succeeds is answered with `b`, and so is the Network
Transmit Get that follows. -/
theorem retransmit_byte_round_trip (C : Collab σ) (hrelay : NodeKeepsRelay C)
    (hnet : NetKeepsTransmit C) (w : World σ) (src dst net_idx : Nat) :
    (∀ b c i : Nat, b < 256 → c = ((b &&& 0x7) + 1) % 256 →
        i = ((b >>> 3) + 1) * 10 % 65536 →
        c = (b &&& 0x7) + 1 ∧ i = ((b >>> 3) + 1) * 10
        ∧ u8 ((((c % 256 : Nat) : Int) - (1 : Int))
              + ((((i % 65536 : Nat) : Int) / 10 - 1) * 8)) = b)
    ∧ (∀ (data get_data : List Nat) (n m : Nat),
        C.mesh_model_opcode_get data = some (.OP_CONFIG_RELAY_SET, n) →
        C.mesh_model_opcode_get get_data = some (.OP_CONFIG_RELAY_GET, m) →
        (data.drop n).length = 2 → byteAt (data.drop n) 0 ≤ 1 →
        get_data.length - m = 0 →
        let r := cfg_srv_pkt C w src dst APP_IDX_DEV_LOCAL net_idx data
        let g := cfg_srv_pkt C r.2 src dst APP_IDX_DEV_LOCAL net_idx get_data
        let reply : Sent := ⟨dst, src, APP_IDX_DEV_LOCAL, net_idx, DEFAULT_TTL, false,
          C.mesh_model_opcode_set .OP_CONFIG_RELAY_STATUS
            ++ [(C.node_relay_mode_get r.2.ext).1 % 256, byteAt (data.drop n) 1]⟩
        r.1 = true ∧ r.2.sent = w.sent ++ [reply]
        ∧ r.2.calls = w.calls ++
            [.node_relay_mode_set (decide (byteAt (data.drop n) 0 ≠ 0))
              ((byteAt (data.drop n) 1 &&& 0x7) + 1)
              (((byteAt (data.drop n) 1 >>> 3) + 1) * 10)]
        ∧ g.1 = true ∧ g.2.sent = r.2.sent ++ [reply] ∧ g.2.ext = r.2.ext)
    ∧ (∀ (data get_data : List Nat) (n m : Nat),
        C.mesh_model_opcode_get data = some (.OP_CONFIG_NETWORK_TRANSMIT_SET, n) →
        C.mesh_model_opcode_get get_data = some (.OP_CONFIG_NETWORK_TRANSMIT_GET, m) →
        (data.drop n).length = 1 →
        (C.mesh_config_write_net_transmit w.ext ((byteAt (data.drop n) 0 &&& 0x7) + 1)
            (((byteAt (data.drop n) 0 >>> 3) + 1) * 10)).1 = true →
        get_data.length - m = 0 →
        let r := cfg_srv_pkt C w src dst APP_IDX_DEV_LOCAL net_idx data
        let g := cfg_srv_pkt C r.2 src dst APP_IDX_DEV_LOCAL net_idx get_data
        let reply : Sent := ⟨dst, src, APP_IDX_DEV_LOCAL, net_idx, DEFAULT_TTL, false,
          C.mesh_model_opcode_set .OP_CONFIG_NETWORK_TRANSMIT_STATUS
            ++ [byteAt (data.drop n) 0]⟩
        r.1 = true ∧ r.2.sent = w.sent ++ [reply]
        ∧ r.2.calls = w.calls ++
            [.mesh_config_write_net_transmit ((byteAt (data.drop n) 0 &&& 0x7) + 1)
              (((byteAt (data.drop n) 0 >>> 3) + 1) * 10),
             .mesh_net_transmit_params_set ((byteAt (data.drop n) 0 &&& 0x7) + 1)
              (((byteAt (data.drop n) 0 >>> 3) + 1) * 10)]
        ∧ g.1 = true ∧ g.2.sent = r.2.sent ++ [reply] ∧ g.2.ext = r.2.ext) := by
  refine ⟨fun b c i hb hc hi => retransmit_encode b c i hb hc hi, ?_, ?_⟩
  · intro data get_data n m hset hget hlen hst hm r g reply
    have hr : r = _ := relay_set_response C hrelay w src dst net_idx data n hset hlen hst
    have hg : g = _ := relay_get_response C hrelay r.2 src dst net_idx get_data m w.ext
      (decide (byteAt (data.drop n) 0 ≠ 0)) (byteAt (data.drop n) 1) hget hm
      (byteAt_lt _ _) (by rw [hr]; rfl)
    refine ⟨by rw [hr], ?_, by rw [hr]; simp [mesh_model_send, World.step], by rw [hg],
      by rw [hg]; rfl, by rw [hg]; rfl⟩
    simp only [reply]
    rw [hr]
    rfl
  · intro data get_data n m hset hget hlen hwr hm r g reply
    have hr : r = _ := network_transmit_set_response C hnet w src dst net_idx data n hset
      hlen hwr
    have hg : g = _ := network_transmit_get_response C hnet r.2 src dst net_idx get_data m
      (C.mesh_config_write_net_transmit w.ext ((byteAt (data.drop n) 0 &&& 0x7) + 1)
        (((byteAt (data.drop n) 0 >>> 3) + 1) * 10)).2
      (byteAt (data.drop n) 0) hget hm (byteAt_lt _ _) (by rw [hr]; rfl)
    refine ⟨by rw [hr], by rw [hr]; rfl, by rw [hr]; simp [mesh_model_send, World.step],
      by rw [hg], by rw [hg]; rfl, by rw [hg]; rfl⟩

/-- Witness for C25 on the reference collaborator: the byte 0x2B decodes to
count 4 and interval 60; the Relay Set `01 2B` and the Relay Get after it are
answered with `80 28 01 2B`, the Network Transmit Set `2B` and the Get after
it with `80 25 2B`. -/
theorem retransmit_byte_round_trip_witness :
    ((0x2B &&& 0x7) + 1 = 4 ∧ ((0x2B >>> 3) + 1) * 10 = 60
      ∧ u8 ((((4 % 256 : Nat) : Int) - (1 : Int))
            + ((((60 % 65536 : Nat) : Int) / 10 - 1) * 8)) = 0x2B)
    ∧ (cfg_srv_pkt sim
          (cfg_srv_pkt sim (world_of sim0) 1 2 APP_IDX_DEV_LOCAL 0
            [0x80, 0x27, 0x01, 0x2B]).2
          1 2 APP_IDX_DEV_LOCAL 0 [0x80, 0x26]).2.sent
        = [⟨2, 1, 0x7fff, 0, 0xff, false, [0x80, 0x28, 0x01, 0x2B]⟩,
           ⟨2, 1, 0x7fff, 0, 0xff, false, [0x80, 0x28, 0x01, 0x2B]⟩]
    ∧ (cfg_srv_pkt sim
          (cfg_srv_pkt sim (world_of sim0) 1 2 APP_IDX_DEV_LOCAL 0 [0x80, 0x24, 0x2B]).2
          1 2 APP_IDX_DEV_LOCAL 0 [0x80, 0x23]).2.sent
        = [⟨2, 1, 0x7fff, 0, 0xff, false, [0x80, 0x25, 0x2B]⟩,
           ⟨2, 1, 0x7fff, 0, 0xff, false, [0x80, 0x25, 0x2B]⟩] := by
  have h := retransmit_byte_round_trip sim (fun _ _ _ _ => rfl) (fun _ _ _ => rfl)
    (world_of sim0) 1 2 0
  refine ⟨?_, ?_, ?_⟩
  · have h1 := h.1 0x2B 4 60 (by decide) (by decide) (by decide)
    exact ⟨by decide, by decide, h1.2.2⟩
  · have h2 := h.2.1 [0x80, 0x27, 0x01, 0x2B] [0x80, 0x26] 2 2 (by decide) (by decide)
      (by decide) (by decide) (by decide)
    exact h2.2.2.2.2.1.trans (by decide)
  · have h3 := h.2.2 [0x80, 0x24, 0x2B] [0x80, 0x23] 2 2 (by decide) (by decide)
      (by decide) (by decide) (by decide)
    exact h3.2.2.2.2.1.trans (by decide)

/-! ## C26: the invariant of the heartbeat publish side -/

/-- Function `update_hb_pub_timer` establishes the invariant, whatever the
record it is given. -/
theorem update_hb_pub_timer_inv (hb : mesh_net_heartbeat) :
    HbPubInv (update_hb_pub_timer hb) := by
  unfold update_hb_pub_timer HbPubInv
  by_cases h : (IS_UNASSIGNED hb.pub_dst || hb.pub_count == 0) = true
  · rw [if_pos h]
    intro ht
    simp at ht
  · rw [if_neg h]
    have h2 : IS_UNASSIGNED hb.pub_dst = false ∧ (hb.pub_count == 0) = false := by
      simpa using h
    have hc : hb.pub_count ≠ 0 := by simpa using h2.2
    have hd : hb.pub_dst ≠ UNASSIGNED_ADDRESS := by
      have := h2.1
      simpa [IS_UNASSIGNED] using this
    split <;> exact fun _ => ⟨hc, hd⟩

/-- A case of Heartbeat Publication Set returns with the world as it was
(dropped), breaks with the world as it was (answered with an error), or
breaks with the heartbeat record that `update_hb_pub_timer` returned. -/
theorem heartbeat_pub_set_hb (C : Collab σ) (w : World σ) (pkt : List Nat) (size : Nat) :
    heartbeat_pub_set C w pkt size = .ret true w
    ∨ (∃ msg, heartbeat_pub_set C w pkt size = .brk w msg)
    ∨ (∃ hb msg, heartbeat_pub_set C w pkt size
          = .brk { w with hb := update_hb_pub_timer hb } msg) := by
  unfold heartbeat_pub_set
  by_cases h1 : size ≠ 9
  · rw [if_pos h1]; exact Or.inl rfl
  · rw [if_neg h1]
    by_cases h2 : byteAt pkt 2 > 0x11 ∨ byteAt pkt 3 > 0x10 ∨ byteAt pkt 4 > 0x7f
    · rw [if_pos h2]; exact Or.inl rfl
    · rw [if_neg h2]
      dsimp only
      generalize (if IS_VIRTUAL (l_get_le16 pkt 0) = true then MESH_STATUS_INVALID_ADDRESS
        else if l_get_le16 pkt 7 ≠ C.mesh_net_get_primary_idx w.ext
          then MESH_STATUS_INVALID_NETKEY else MESH_STATUS_SUCCESS) = b_res
      by_cases h3 : b_res ≠ MESH_STATUS_SUCCESS
      · rw [if_pos h3]; exact Or.inr (Or.inl ⟨_, rfl⟩)
      · rw [if_neg h3]; exact Or.inr (Or.inr ⟨_, _, rfl⟩)

/-- Whatever the world, a dispatch of a Heartbeat Publication Set leaves the
heartbeat record as it was or leaves a record that satisfies the invariant. -/
theorem heartbeat_pub_set_dispatch_hb (C : Collab σ) (w : World σ)
    (src dst app_idx net_idx : Nat) (data : List Nat) (n : Nat)
    (hset : C.mesh_model_opcode_get data = some (.OP_CONFIG_HEARTBEAT_PUB_SET, n)) :
    (cfg_srv_pkt C w src dst app_idx net_idx data).2.hb = w.hb
    ∨ HbPubInv (cfg_srv_pkt C w src dst app_idx net_idx data).2.hb := by
  by_cases happ : app_idx = APP_IDX_DEV_LOCAL
  · subst happ
    rw [cfg_srv_pkt_eq C w src dst net_idx data _ n hset]
    simp only [cfg_srv_switch]
    rcases heartbeat_pub_set_hb C w (data.drop n) (data.length - n) with
      h | ⟨msg, h⟩ | ⟨hb, msg, h⟩
    · rw [h]; exact Or.inl rfl
    · rw [h]
      dsimp only
      split <;> exact Or.inl rfl
    · rw [h]
      dsimp only
      split <;> exact Or.inr (update_hb_pub_timer_inv hb)
  · left
    unfold cfg_srv_pkt
    rw [if_pos happ]

/-- C26: if an armed publish timer implies a nonzero remaining count and an
assigned publish destination before, then it does so after any dispatch of a
Heartbeat Publication Set (accepted, answered with an error status, or
dropped), after any fire of the publish timer and after the unregistration of
the model.  Consequently, when the timer fires the count is not 0, and the
fire leaves a 16-bit count of 0xFFFF as it is and any other count one less,
without wrapping. -/
theorem hb_pub_invariant (C : Collab σ) (w : World σ) (hinv : HbPubInv w.hb) :
    (∀ (src dst app_idx net_idx : Nat) (data : List Nat) (n : Nat),
      C.mesh_model_opcode_get data = some (.OP_CONFIG_HEARTBEAT_PUB_SET, n) →
      HbPubInv (cfg_srv_pkt C w src dst app_idx net_idx data).2.hb)
    ∧ HbPubInv (hb_pub_timeout_func C w).hb
    ∧ HbPubInv (cfgmod_srv_unregister w).hb
    ∧ (w.hb.pub_timer.isSome = true →
        w.hb.pub_count ≠ 0
        ∧ (w.hb.pub_count < 65536 →
            (hb_pub_timeout_func C w).hb.pub_count
              = if w.hb.pub_count = 0xffff then 0xffff else w.hb.pub_count - 1)) := by
  refine ⟨?_, ?_, ?_, ?_⟩
  · intro src dst app_idx net_idx data n hset
    rcases heartbeat_pub_set_dispatch_hb C w src dst app_idx net_idx data n hset with h | h
    · rw [h]; exact hinv
    · exact h
  · unfold hb_pub_timeout_func HbPubInv
    simp only [World.step]
    by_cases hff : w.hb.pub_count ≠ 0xffff
    · simp only [hff, ne_eq, not_false_eq_true, if_true]
      by_cases hpos : (w.hb.pub_count + 65535) % 65536 > 0
      · simp only [hpos, if_true]
        intro ht
        have harm : w.hb.pub_timer.isSome = true := by
          cases hpt : w.hb.pub_timer with
          | none => rw [hpt] at ht; simp [l_timeout_modify] at ht
          | some t => rfl
        exact ⟨by omega, (hinv harm).2⟩
      · simp only [hpos, if_false]
        intro ht
        simp at ht
    · have hff2 : w.hb.pub_count = 0xffff := by
        by_contra h; exact hff h
      simp only [hff2, ne_eq, not_true_eq_false, if_false]
      simp only [show (65535 : Nat) > 0 by decide, if_true]
      intro ht
      have harm : w.hb.pub_timer.isSome = true := by
        cases hpt : w.hb.pub_timer with
        | none => rw [hpt] at ht; simp [l_timeout_modify] at ht
        | some t => rfl
      exact ⟨by decide, (hinv harm).2⟩
  · unfold cfgmod_srv_unregister HbPubInv
    intro ht
    simp at ht
  · intro harm
    refine ⟨(hinv harm).1, ?_⟩
    intro h16
    have hne := (hinv harm).1
    unfold hb_pub_timeout_func
    simp only [World.step]
    by_cases hff : w.hb.pub_count = 0xffff
    · simp only [hff, ne_eq, not_true_eq_false, if_false]
      split <;> rfl
    · have hdec : (w.hb.pub_count + 65535) % 65536 = w.hb.pub_count - 1 := by omega
      simp only [ne_eq, hff, not_false_eq_true, if_true, if_false, hdec]
      split <;> rfl

/-- Witness for C26 on the reference collaborator: the world with the publish
timer armed, 3 heartbeats left and destination 0x0001 satisfies the
invariant, and so do the worlds after a Heartbeat Publication Set, after a
fire (which leaves 2 heartbeats) and after unregistration. -/
theorem hb_pub_invariant_witness :
    HbPubInv world_pub_armed.hb
    ∧ HbPubInv (cfg_srv_pkt sim world_pub_armed 1 2 APP_IDX_DEV_LOCAL 0
        [0x80, 0x39, 0x01, 0x00, 0x11, 0x02, 0x05, 0x03, 0x00, 0x00, 0x00]).2.hb
    ∧ HbPubInv (hb_pub_timeout_func sim world_pub_armed).hb
    ∧ HbPubInv (cfgmod_srv_unregister world_pub_armed).hb
    ∧ (hb_pub_timeout_func sim world_pub_armed).hb.pub_count = 2 := by
  have hinv : HbPubInv world_pub_armed.hb := fun _ => ⟨by decide, by decide⟩
  have h := hb_pub_invariant sim world_pub_armed hinv
  exact ⟨hinv,
    h.1 1 2 APP_IDX_DEV_LOCAL 0
      [0x80, 0x39, 0x01, 0x00, 0x11, 0x02, 0x05, 0x03, 0x00, 0x00, 0x00] 2 (by decide),
    h.2.1, h.2.2.1, ((h.2.2.2 (by decide)).2 (by decide)).trans (by decide)⟩

end CfgSrv
